import Mathlib

/-! Chia proof-of-space plotter: header writer, parameter validation and finalisation.

A shallow embedding of `DiskPlotter::WriteHeader` and of the parts of
`DiskPlotter::CreatePlotDisk` that run before phase 1 and after phase 4
(src/src/plotter_disk.hpp), of the dispatch of `main` and of the `check` command
(src/src/cli.cpp), and of the prover methods of the Python binding
(src/python-bindings/chiapos.cpp).

Conventions of the embedding.
* Machine integers are natural numbers; every place where the C++ arithmetic can wrap
  carries an explicit `% 2 ^ w`.
* A C buffer `(pointer, length)` is a list of bytes; reading `length` bytes from it is
  `List.take length`.
* `double` values are read as exact rationals.
* Paths are the strings of a POSIX build, with the separator `/`; the file system maps
  path strings to what is there.
-/

namespace Chiapos

/-! ## Constants of pos_constants.hpp -/

/-- Modelled from the spec: `kMinPlotSize` (pos_constants.hpp is not among the sources);
section 3 of the spec gives the plot parameter k as an integer in [18, 50]. -/
def kMinPlotSize : Nat := 18

/-- Modelled from the spec: `kMaxPlotSize` (pos_constants.hpp is not among the sources);
section 3 of the spec gives the plot parameter k as an integer in [18, 50]. -/
def kMaxPlotSize : Nat := 50

/-- Modelled from the spec: `kMinBuckets` (pos_constants.hpp is not among the sources);
section 4.3 of the spec gives the bucket count as a power of two, 16..128. -/
def kMinBuckets : Nat := 16

/-- Modelled from the spec: `kMaxBuckets` (pos_constants.hpp is not among the sources);
section 4.3 of the spec gives the bucket count as a power of two, 16..128. -/
def kMaxBuckets : Nat := 128

/-- Modelled from the spec: `kMemSortProportion` (pos_constants.hpp is not among the
sources); section 4.3 of the spec gives the constant as 0.75. -/
def kMemSortProportion : ℚ := 3 / 4

/-- Modelled from the spec: `kIdLen` (pos_constants.hpp is not among the sources);
the header of section 6 holds a 32-byte plot id. -/
def kIdLen : Nat := 32

/-! ## FileDisk and the header writer -/

/-- Modelled from the spec: `FileDisk` (disk.hpp is not among the sources), the
file-backed disk of section 4.2 with random-access `write(offset, buf)`. The model keeps
the file contents and, next to them, the `(begin, length)` of every `Write` call in the
order the calls were made. -/
structure FileDisk where
  bytes : List Nat
  writes : List (Nat × Nat)
deriving DecidableEq, Repr

/-- Modelled from the spec: `FileDisk::Write(begin, memcache, length)` (disk.hpp is not
among the sources): `length` bytes read from `memcache` replace the file contents at
offsets `begin .. begin + length - 1`; a write that starts past the end of the file
leaves zero bytes in between. -/
def FileDisk.Write (d : FileDisk) (begin : Nat) (memcache : List Nat) (length : Nat) :
    FileDisk :=
  { bytes := d.bytes.take begin ++ List.replicate (begin - d.bytes.length) 0
      ++ memcache.take length ++ d.bytes.drop (begin + length)
    writes := d.writes ++ [(begin, length)] }

/-- Modelled from the spec: `Util::IntToTwoBytes(result, input)` (util.hpp is not among
the sources): the 2-byte big-endian encoding of section 6, of an argument that the
callee receives as a 16-bit unsigned value. -/
def IntToTwoBytes (input : Nat) : List Nat :=
  [input % 65536 / 256, input % 65536 % 256]

/-- The bytes of `std::string header_text = "Proof of Space Plot"`. -/
def header_text : List Nat := "Proof of Space Plot".toList.map Char.toNat

/-- The function `DiskPlotter::WriteHeader` (plotter_disk.hpp, lines 470-519). The format
description `kFormatDescription` (pos_constants.hpp, not among the sources) is a
parameter, given as its bytes. The result is the returned `uint32_t bytes_written` and
the disk after the eight writes. -/
def WriteHeader (kFormatDescription : List Nat) (plot_Disk : FileDisk) (k : Nat)
    (id memo : List Nat) (memo_len : Nat) : Nat × FileDisk :=
  let write_pos := 0
  let d := plot_Disk.Write write_pos header_text header_text.length
  let write_pos := write_pos + header_text.length
  let d := d.Write write_pos id kIdLen
  let write_pos := write_pos + kIdLen
  let k_buffer := [k]
  let d := d.Write write_pos k_buffer 1
  let write_pos := write_pos + 1
  let size_buffer := IntToTwoBytes kFormatDescription.length
  let d := d.Write write_pos size_buffer 2
  let write_pos := write_pos + 2
  let d := d.Write write_pos kFormatDescription kFormatDescription.length
  let write_pos := write_pos + kFormatDescription.length
  let size_buffer := IntToTwoBytes memo_len
  let d := d.Write write_pos size_buffer 2
  let write_pos := write_pos + 2
  let d := d.Write write_pos memo memo_len
  let write_pos := write_pos + memo_len
  let pointers := List.replicate (10 * 8) 0
  let d := d.Write write_pos pointers (10 * 8)
  let bytes_written :=
    (header_text.length + kIdLen + 1 + 2 + kFormatDescription.length + 2 + memo_len
      + 10 * 8) % 2 ^ 32
  (bytes_written, d)

/-- A list of `(begin, length)` writes is contiguous from `pos`: the first write begins
at `pos` and every later one begins exactly where the one before it ended. -/
def contiguousFrom : Nat → List (Nat × Nat) → Prop
  | _, [] => True
  | pos, w :: rest => w.1 = pos ∧ contiguousFrom (pos + w.2) rest

/-- The offset just past the last byte of a list of writes that starts at `pos`. -/
def endOffset : Nat → List (Nat × Nat) → Nat
  | pos, [] => pos
  | _, w :: rest => endOffset (w.1 + w.2) rest

/-- The header of section 6 of the spec as one byte string. -/
def headerImage (kFormatDescription : List Nat) (k : Nat) (id memo : List Nat)
    (memo_len : Nat) : List Nat :=
  header_text ++ id ++ [k]
    ++ [kFormatDescription.length / 256, kFormatDescription.length % 256]
    ++ kFormatDescription
    ++ [memo_len / 256, memo_len % 256] ++ memo ++ List.replicate 80 0

/-! ## Helpers of util.hpp and entry_sizes.hpp -/

/-- Modelled from the spec: `Util::RoundPow2` (util.hpp is not among the sources), the
rounding that makes the bucket count of section 4.3 a power of two: the least power of
two that is greater than or equal to its argument. -/
def RoundPow2 (a : Nat) : Nat := 2 ^ Nat.clog 2 a

/-- Modelled from the spec: `Util::ByteAlign` (util.hpp is not among the sources), which
rounds a number of bits up to a multiple of 8. -/
def ByteAlign (num_bits : Nat) : Nat := num_bits + (8 - num_bits % 8) % 8

/-- Modelled from the spec: `kExtraBits` (pos_constants.hpp is not among the sources), the
`param_EXT` of section 3, "a small integer (e.g., 6)". -/
def kExtraBits : Nat := 6

/-- Modelled from the spec: `kOffsetSize` (pos_constants.hpp is not among the sources), the
width in bits of the offset back-pointer of an entry; the plot format fixes it to 10. -/
def kOffsetSize : Nat := 10

/-- Modelled from the spec: `kVectorLens` (pos_constants.hpp is not among the sources), the
width of the metadata of table t in multiples of k ("variable width by table",
section 3); the plot format fixes the values below. -/
def kVectorLens : List Nat := [0, 0, 1, 2, 4, 4, 3, 2]

/-- Modelled from the spec: `EntrySizes::GetMaxEntrySize(k, table_index, phase_1_size)`
(entry_sizes.hpp is not among the sources), the fixed schema
`entry_sizes(k, table, phase)` of section 3, in bytes. The spec fixes no widths; the ones
here are those of the plot format: y has k + kExtraBits bits, a position k bits, an
offset kOffsetSize bits, the metadata of table t has k * kVectorLens[t + 1] bits. The
general theorems below hold for an arbitrary schema (the field `GetMaxEntrySize` of
`Platform`); this definition instantiates it at concrete inputs. -/
def GetMaxEntrySize (k table_index : Nat) (phase_1_size : Bool) : Nat :=
  if table_index = 1 then
    if phase_1_size then ByteAlign (k + kExtraBits + k) / 8 else ByteAlign k / 8
  else if 2 ≤ table_index ∧ table_index ≤ 6 then
    if phase_1_size then
      ByteAlign (k + kExtraBits + k + kOffsetSize
        + k * kVectorLens.getD (table_index + 1) 0) / 8
    else ByteAlign (max (2 * k + kOffsetSize) (3 * k - 1)) / 8
  else ByteAlign (3 * k - 1) / 8

/-! ## The environment of CreatePlotDisk -/

/-- What CreatePlotDisk reads from outside plotter_disk.hpp: the entry-size schema (whose
results are `uint32_t` values), the CPU feature test `Util::HavePopcnt()`, whether the build is one for which the POPCNT test
is compiled in (`defined(_WIN32) || defined(__x86_64__)`), and the integer that the
conversion of a non-finite `double` to `uint64_t` yields (the C++ standard leaves it
undefined; it arises only when `memory_size` is 0). -/
structure Platform where
  GetMaxEntrySize : Nat → Nat → Bool → Nat
  HavePopcnt : Bool
  win32_or_x86_64 : Bool
  nonfinite_to_uint64 : Nat

/-- The arguments of `DiskPlotter::CreatePlotDisk`, in the order of the source. -/
structure Args where
  tmp_dirname : String
  tmp2_dirname : String
  final_dirname : String
  filename : String
  k : Nat
  memo : List Nat
  memo_len : Nat
  id : List Nat
  id_len : Nat
  buf_megabytes_input : Nat
  num_buckets_input : Nat
  stripe_size_input : Nat
  num_threads_input : Nat
  nobitfield : Bool
  show_progress : Bool

/-- The C++ types of the integer arguments: `uint8_t k`, `uint32_t memo_len`,
`uint32_t id_len`, `uint32_t buf_megabytes_input`, `uint32_t num_buckets_input`,
`uint64_t stripe_size_input`, `uint8_t num_threads_input`. -/
def Args.wellTyped (a : Args) : Prop :=
  a.k < 2 ^ 8 ∧ a.memo_len < 2 ^ 32 ∧ a.id_len < 2 ^ 32 ∧ a.buf_megabytes_input < 2 ^ 32
    ∧ a.num_buckets_input < 2 ^ 32 ∧ a.stripe_size_input < 2 ^ 64
    ∧ a.num_threads_input < 2 ^ 8

/-- The exception classes that CreatePlotDisk throws (exceptions.hpp). -/
inductive ExceptionClass
  | InvalidValueException
  | InsufficientMemoryException
deriving DecidableEq, Repr

/-- The error kinds of section 7 of the spec. -/
inductive ErrorKind
  | invalid_value
  | insufficient_memory
  | io_failure
  | cpu_unsupported
  | invariant_violation
  | no_proof
  | invalid_proof
deriving DecidableEq, Repr

/-- The error kind of section 7 that an exception class stands for. -/
def ExceptionClass.kind : ExceptionClass → ErrorKind
  | .InvalidValueException => .invalid_value
  | .InsufficientMemoryException => .insufficient_memory

/-- The throw statements of CreatePlotDisk, one constructor per statement, in source
order: lines 88, 117, 129 (with the `sub_mbytes` it reports), 154, 159, 163, 171, 178,
220, 224 and 228. -/
inductive Throw
  | plot_size_invalid
  | at_least_10MiB
  | provide_more_memory (sub_mbytes : Nat)
  | minimum_buckets
  | maximum_buckets
  | not_enough_memory
  | stripe_size_too_large
  | bitfield_not_supported
  | temp_dir_missing
  | temp2_dir_missing
  | final_dir_missing
deriving DecidableEq, Repr

/-- The class of the exception object that each throw statement constructs. -/
def Throw.cls : Throw → ExceptionClass
  | .plot_size_invalid => .InvalidValueException
  | .at_least_10MiB => .InsufficientMemoryException
  | .provide_more_memory _ => .InsufficientMemoryException
  | .minimum_buckets => .InvalidValueException
  | .maximum_buckets => .InvalidValueException
  | .not_enough_memory => .InsufficientMemoryException
  | .stripe_size_too_large => .InvalidValueException
  | .bitfield_not_supported => .InvalidValueException
  | .temp_dir_missing => .InvalidValueException
  | .temp2_dir_missing => .InvalidValueException
  | .final_dir_missing => .InvalidValueException

/-! ## The values CreatePlotDisk derives (lines 91-166) -/

/-- Lines 95-99: `uint32_t stripe_size`, assigned from the `uint64_t` input, or 65536. -/
def stripe_size (a : Args) : Nat :=
  if a.stripe_size_input ≠ 0 then a.stripe_size_input % 2 ^ 32 else 65536

/-- Lines 102-106: `uint8_t num_threads`, the input or 2. -/
def num_threads (a : Args) : Nat :=
  if a.num_threads_input ≠ 0 then a.num_threads_input else 2

/-- Lines 109-113: `uint32_t buf_megabytes`, the input or 4608. -/
def buf_megabytes (a : Args) : Nat :=
  if a.buf_megabytes_input ≠ 0 then a.buf_megabytes_input else 4608

/-- Lines 122-123: `thread_memory`. The operands are `int`, `uint32_t` and the `uint32_t`
result of GetMaxEntrySize, so every product and the quotient are computed in 32-bit
unsigned arithmetic before the result is widened to `uint64_t`. -/
def thread_memory (p : Platform) (a : Args) : Nat :=
  ((num_threads a * ((2 * ((stripe_size a + 5000) % 2 ^ 32)) % 2 ^ 32)) % 2 ^ 32
    * p.GetMaxEntrySize a.k 4 true) % 2 ^ 32 / (1024 * 1024)

/-- Line 126: `sub_mbytes = 5 + (int)std::min(buf_megabytes * 0.05, (double)50)
+ thread_memory`. -/
def sub_mbytes (p : Platform) (a : Args) : Nat :=
  (5 + ⌊min ((buf_megabytes a : ℚ) * (5 / 100)) 50⌋₊ + thread_memory p a) % 2 ^ 64

/-- Line 133: `memory_size = ((uint64_t)(buf_megabytes - sub_mbytes)) * 1024 * 1024`, the
difference and the products taken in 64-bit unsigned arithmetic. -/
def memory_size (p : Platform) (a : Args) : Nat :=
  (buf_megabytes a + 2 ^ 64 - sub_mbytes p a) % 2 ^ 64 * 1024 * 1024 % 2 ^ 64

/-- Lines 136-141: `max_table_size`, the largest over the tables i = 1..7 of
`1.3 * (1 << k) * GetMaxEntrySize(k, i, true)`. -/
def max_table_size (p : Platform) (a : Args) : ℚ :=
  (List.range' 1 7).foldl
    (fun max_table_size i =>
      let memory_i : ℚ := 13 / 10 * ((2 ^ a.k : Nat) : ℚ) * (p.GetMaxEntrySize a.k i true : ℚ)
      if memory_i > max_table_size then memory_i else max_table_size)
    0

/-- Lines 147-148: the argument that RoundPow2 receives when the bucket count is derived,
`ceil(max_table_size / (memory_size * kMemSortProportion))` converted to an unsigned
64-bit integer. With `memory_size = 0` the quotient is not finite. -/
def derived_quotient (p : Platform) (a : Args) : Nat :=
  if memory_size p a = 0 then p.nonfinite_to_uint64 % 2 ^ 64
  else ⌈max_table_size p a / ((memory_size p a : ℚ) * kMemSortProportion)⌉₊

/-- Lines 144-149: the value assigned to `uint32_t num_buckets` before the range test. -/
def num_buckets_rounded (p : Platform) (a : Args) : Nat :=
  if a.num_buckets_input ≠ 0 then RoundPow2 a.num_buckets_input % 2 ^ 32
  else 2 * RoundPow2 (derived_quotient p a) % 2 ^ 32

/-- Lines 144-165: the bucket-count step, which yields the final `num_buckets` or
throws. -/
def bucket_step (p : Platform) (a : Args) : Except Throw Nat :=
  let num_buckets := num_buckets_rounded p a
  if num_buckets < kMinBuckets then
    if a.num_buckets_input ≠ 0 then .error .minimum_buckets
    else .ok kMinBuckets
  else if num_buckets > kMaxBuckets then
    if a.num_buckets_input ≠ 0 then .error .maximum_buckets
    else .error .not_enough_memory
  else .ok num_buckets

/-- The values that the validation hands on to the four phases. -/
structure PlotParams where
  stripe_size : Nat
  num_threads : Nat
  buf_megabytes : Nat
  memory_size : Nat
  num_buckets : Nat
  log_num_buckets : Nat
deriving DecidableEq, Repr

/-- Lines 86-180 of `DiskPlotter::CreatePlotDisk`: the checks, in source order, that use
the arguments and the platform only. -/
def CreatePlotDisk_validate (p : Platform) (a : Args) : Except Throw PlotParams :=
  if a.k < kMinPlotSize ∨ a.k > kMaxPlotSize then .error .plot_size_invalid
  else if buf_megabytes a < 10 then .error .at_least_10MiB
  else if sub_mbytes p a > buf_megabytes a then
    .error (.provide_more_memory (sub_mbytes p a))
  else
    match bucket_step p a with
    | .error e => .error e
    | .ok num_buckets =>
      let log_num_buckets := Nat.log2 num_buckets
      if max_table_size p a / (num_buckets : ℚ) < ((stripe_size a * 30 % 2 ^ 32 : Nat) : ℚ)
      then .error .stripe_size_too_large
      else if p.win32_or_x86_64 = true ∧ a.nobitfield = false ∧ p.HavePopcnt = false then
        .error .bitfield_not_supported
      else
        .ok { stripe_size := stripe_size a
              num_threads := num_threads a
              buf_megabytes := buf_megabytes a
              memory_size := memory_size p a
              num_buckets := num_buckets
              log_num_buckets := log_num_buckets }

/-! ## The file system and the steps before phase 1 (lines 203-236) -/

/-- A node of the file system: a directory or a file with its bytes. -/
inductive FsNode
  | directory
  | file (bytes : List Nat)
deriving DecidableEq, Repr

/-- The file system as CreatePlotDisk sees it: the paths that exist and what is there. -/
structure FileSystem where
  nodes : List (String × FsNode)
deriving DecidableEq, Repr

/-- The call `fs::exists(p)`. -/
def FileSystem.fs_exists (fs : FileSystem) (p : String) : Bool :=
  fs.nodes.any (fun n => n.1 == p)

/-- The call `fs::remove(p)`: the node at `p`, if there is one, is gone afterwards. -/
def FileSystem.fs_remove (fs : FileSystem) (p : String) : FileSystem :=
  { nodes := fs.nodes.filter (fun n => n.1 != p) }

/-- The path `fs::path(dirname) / fs::path(name)` in a POSIX build, as a string: a name
that starts with the separator is absolute and replaces the directory; otherwise a
separator is put between the two, unless the directory is empty or already ends in
one. -/
def joinPath (dirname name : String) : String :=
  if name.data.head? = some '/' then name
  else if dirname.data.getLast? = none ∨ dirname.data.getLast? = some '/' then
    dirname ++ name
  else dirname ++ "/" ++ name

/-- Lines 208-212: `tmp_1_filenames`, the sort file and the seven table files. -/
def tmp_1_filenames (a : Args) : List String :=
  joinPath a.tmp_dirname (a.filename ++ ".sort.tmp")
    :: (List.range' 1 7).map
        (fun i => joinPath a.tmp_dirname (a.filename ++ ".table" ++ toString i ++ ".tmp"))

/-- Line 213: `tmp_2_filename`. -/
def tmp_2_filename (a : Args) : String := joinPath a.tmp2_dirname (a.filename ++ ".2.tmp")

/-- Line 214: `final_2_filename`. -/
def final_2_filename (a : Args) : String := joinPath a.final_dirname (a.filename ++ ".2.tmp")

/-- Line 215: `final_filename`. -/
def final_filename (a : Args) : String := joinPath a.final_dirname a.filename

/-- Lines 86-236 of `DiskPlotter::CreatePlotDisk`: the validation, the three directory
checks and the removal of stale files. The result pairs what the run has produced (the
exception thrown, or the parameters for phase 1) with the file system at that moment. -/
def CreatePlotDisk_setup (p : Platform) (a : Args) (fs : FileSystem) :
    Except Throw PlotParams × FileSystem :=
  match CreatePlotDisk_validate p a with
  | .error e => (.error e, fs)
  | .ok params =>
    if fs.fs_exists a.tmp_dirname = false then (.error .temp_dir_missing, fs)
    else if fs.fs_exists a.tmp2_dirname = false then (.error .temp2_dir_missing, fs)
    else if fs.fs_exists a.final_dirname = false then (.error .final_dir_missing, fs)
    else
      let fs := (tmp_1_filenames a).foldl (fun fs p => fs.fs_remove p) fs
      let fs := fs.fs_remove (tmp_2_filename a)
      let fs := fs.fs_remove (final_filename a)
      (.ok params, fs)

/-! ## Platforms, arguments and file systems of the worked examples -/

/-- A 64-bit Windows or Linux machine with POPCNT and the entry sizes of the plot
format; a non-finite quotient converts to 0 there. -/
def x86Platform : Platform :=
  { GetMaxEntrySize := GetMaxEntrySize
    HavePopcnt := true
    win32_or_x86_64 := true
    nonfinite_to_uint64 := 0 }

/-- The command line `ProofOfSpace create` with every option at its default (cli.cpp,
lines 88-101), in a directory where no stale file exists. -/
def defaultArgs : Args :=
  { tmp_dirname := "."
    tmp2_dirname := "."
    final_dirname := "."
    filename := "plot.dat"
    k := 20
    memo := []
    memo_len := 0
    id := List.replicate 32 0
    id_len := 32
    buf_megabytes_input := 0
    num_buckets_input := 0
    stripe_size_input := 0
    num_threads_input := 0
    nobitfield := false
    show_progress := false }

/-- The largest phase-1 entry size over the tables 1..7, the integer that
`max_table_size` scales by `1.3 * 2^k`. -/
def max_entry_size (p : Platform) (a : Args) : Nat :=
  (List.range' 1 7).foldl (fun m i => max m (p.GetMaxEntrySize a.k i true)) 0

/-- A file system that holds the current directory and nothing else. -/
def emptyDirFs : FileSystem := { nodes := [(".", .directory)] }

/-- The command line `ProofOfSpace create -k 50 -b 20`. -/
def args_k50_b20 : Args := { defaultArgs with k := 50, buf_megabytes_input := 20 }

/-- The command line `ProofOfSpace create -k 18 -s 143165577`. -/
def args_k18_s143165577 : Args := { defaultArgs with k := 18, stripe_size_input := 143165577 }

/-- The command line `ProofOfSpace create -k 25`. -/
def args_k25 : Args := { defaultArgs with k := 25 }

/-- An x86-64 machine whose CPU has no POPCNT instruction. -/
def x86NoPopcnt : Platform := { x86Platform with HavePopcnt := false }

/-- A build for another architecture (the POPCNT test is compiled out), on a CPU without
a POPCNT instruction. -/
def otherArchPlatform : Platform :=
  { x86Platform with HavePopcnt := false, win32_or_x86_64 := false }

/-- The plot of the log quoted in the source (lines 184-188): k = 32 with a 3390 MiB
buffer, 2 threads and stripe size 65536. -/
def args_k32_b3390 : Args := { defaultArgs with k := 32, buf_megabytes_input := 3390 }

/-- The command line `ProofOfSpace create -k 32 -b 16 -r 100`. -/
def args_k32_b16_r100 : Args :=
  { defaultArgs with k := 32, buf_megabytes_input := 16, num_threads_input := 100 }

/-- The command line `ProofOfSpace create -k 18 -b 5` of scenario S5. -/
def args_k18_b5 : Args := { defaultArgs with k := 18, buf_megabytes_input := 5 }

/-- A file system in which the current directory holds an earlier plot at the final path
and a stale table file. -/
def staleFs : FileSystem :=
  { nodes := [(".", .directory), ("./plot.dat", .file [80, 114, 111, 111, 102]),
      ("./plot.dat.table3.tmp", .file [1, 2, 3])] }

/-! ## The steps between the removal of stale files and phase 1 (lines 242-251) -/

/-- Modelled from the spec: the constructor `FileDisk(filename)` (disk.hpp is not among
the sources) opens its file for writing and so leaves an empty file at `p` ("all tmp
files are created in Phase 1", section 3). -/
def FileSystem.fs_create (fs : FileSystem) (p : String) : FileSystem :=
  { nodes := (p, .file []) :: (fs.fs_remove p).nodes }

/-- How the run of CreatePlotDisk stands when it reaches phase 1: an exception of the
validation, a failed `assert(id_len == kIdLen)` (line 251, which calls `abort`), or the
start of phase 1 with the validated parameters. -/
inductive StartOutcome
  | thrown (t : Throw)
  | assert_failed
  | phase1 (params : PlotParams)
deriving DecidableEq, Repr

/-- Lines 86-251 of `DiskPlotter::CreatePlotDisk`: the setup, the construction of the
FileDisk objects for the eight temporary files and for the `.2.tmp` file, and the
assertion on `id_len`, which is compiled out when `NDEBUG` is defined. -/
def CreatePlotDisk_start (p : Platform) (ndebug : Bool) (a : Args) (fs : FileSystem) :
    StartOutcome × FileSystem :=
  match CreatePlotDisk_setup p a fs with
  | (.error e, fs) => (.thrown e, fs)
  | (.ok params, fs) =>
    let fs := (tmp_1_filenames a).foldl (fun fs p => fs.fs_create p) fs
    let fs := fs.fs_create (tmp_2_filename a)
    if ndebug = false ∧ a.id_len ≠ kIdLen then (.assert_failed, fs)
    else (.phase1 params, fs)

/-! ## The reader of the header -/

/-- Modelled from the spec: the reader's decoding of a 2-byte big-endian length field
(section 6; `Util::TwoBytesToInt` of util.hpp is not among the sources). -/
def TwoBytesToInt (bytes : List Nat) : Nat := bytes.getD 0 0 * 256 + bytes.getD 1 0

/-- Modelled from the spec: the format-description length L1 that a reader of the header
of section 6 parses at offset 52. -/
def parsed_L1 (header : List Nat) : Nat := TwoBytesToInt ((header.drop 52).take 2)

/-- Modelled from the spec: the memo length L2 that a reader of the header of section 6
parses at offset 54 + L1. -/
def parsed_L2 (header : List Nat) : Nat :=
  TwoBytesToInt ((header.drop (54 + parsed_L1 header)).take 2)

/-! ## The binding's get_full_proof and the prove command -/

/-- The length that `get_full_proof` gives to its bytes object (chiapos.cpp, lines 139 and
142): `Util::ByteAlign(64 * dp.GetSize()) / 8`, where `dp.GetSize()` is the plot size k;
the product is formed in `int` arithmetic. -/
def get_full_proof_length (k : Nat) : Nat := ByteAlign (64 * k) / 8

/-- The size of the buffer that the `prove` command allocates (cli.cpp, line 206):
`new uint8_t[8 * k]`. -/
def prove_buffer_length (k : Nat) : Nat := 8 * k

/-! ## cli.cpp: intToBytes, Strip0x and the dispatch of main -/

/-- The loop of `intToBytes` (cli.cpp, lines 41-44) with `fuel` passes left; `i` and
`paramInt` are `uint32_t`, and so is the index `numBytes - i - 1`. The result is `none`
when the indexed element does not exist or the fuel runs out. -/
def intToBytes_loop (numBytes : Nat) : Nat → Nat → Nat → List Nat → Option (List Nat)
  | 0, _, _, _ => none
  | fuel + 1, i, paramInt, arrayOfByte =>
    if paramInt > 0 then
      let index := (numBytes + 2 ^ 32 - i - 1) % 2 ^ 32
      if index < arrayOfByte.length then
        intToBytes_loop numBytes fuel (i + 1) (paramInt / 2 ^ 8)
          (arrayOfByte.set index (paramInt % 256))
      else none
    else some arrayOfByte

/-- The function `intToBytes(paramInt, numBytes)` (cli.cpp, lines 38-46). A 32-bit
`paramInt` is zero after four shifts by 8, so five passes of fuel are enough. -/
def intToBytes (paramInt numBytes : Nat) : Option (List Nat) :=
  intToBytes_loop numBytes 5 0 paramInt (List.replicate numBytes 0)

/-- The challenge of iteration `num` of the `check` command (cli.cpp, lines 279-283):
the hash of `intToBytes(num, 4)` followed by the 32 bytes of the plot id. The hash
function `picosha2::hash256` (SHA-256, not among the sources) is a parameter. -/
def check_challenge (hash256 : List Nat → List Nat) (id_bytes : List Nat) (num : Nat) :
    Option (List Nat) :=
  (intToBytes num 4).map (fun hash_input => hash256 (hash_input ++ id_bytes.take 32))

/-- The function `Strip0x` (cli.cpp, lines 48-54). A `std::string` is a Lean string of
one-byte characters. -/
def Strip0x (hex : String) : String :=
  if hex.length > 1 ∧ (hex.take 2 = "0x" ∨ hex.take 2 = "0X") then hex.drop 2 else hex

/-- What a run of `main` comes to: the process ends with an exit code (by `exit` or by
returning from `main`), or it reaches the call of `DiskPlotter::CreatePlotDisk` with the
hexadecimal id and memo, or it runs one of the commands prove, verify and check. -/
inductive MainOutcome
  | exit_code (code : Nat)
  | calls_plotter (id memo : String)
  | runs_command (operation : String)
deriving DecidableEq, Repr

/-- The dispatch of `main` (cli.cpp, lines 137-317) after the options have been parsed:
`argv` is the command line with the program name first, `help` tells whether the option
`--help` was given, `id` and `memo` are the values of the options `-i` and `-m` (or their
defaults). -/
def main_dispatch (argv : List String) (help : Bool) (id memo : String) : MainOutcome :=
  if help = true ∨ argv.length < 2 then .exit_code 0
  else
    let operation := argv.getD 1 ""
    if operation = "help" then .exit_code 0
    else if operation = "create" then
      let id := Strip0x id
      if id.length ≠ 64 then .exit_code 1
      else
        let memo := Strip0x memo
        if memo.length % 2 ≠ 0 then .exit_code 1
        else .calls_plotter id memo
    else if operation = "prove" then .runs_command operation
    else if operation = "verify" then .runs_command operation
    else if operation = "check" then .runs_command operation
    else .exit_code 0

/-- The command line `ProofOfSpace create -k 25 -b 10`. -/
def args_k25_b10 : Args := { defaultArgs with k := 25, buf_megabytes_input := 10 }

/-- The command line `ProofOfSpace create -k 18 -s 100000000`. -/
def args_k18_s100000000 : Args := { defaultArgs with k := 18, stripe_size_input := 100000000 }

/-- The command line `ProofOfSpace create -k 18 -s 143165577 -r 15`. -/
def args_k18_s143165577_r15 : Args :=
  { defaultArgs with k := 18, stripe_size_input := 143165577, num_threads_input := 15 }

/-- A call of the binding's `create_plot_disk` with k = 25 and an id of 31 bytes, so that
`len(id)` = 31, in the current directory. -/
def args_k25_id31 : Args :=
  { defaultArgs with k := 25, id := List.replicate 31 171, id_len := 31 }

/-- The default id of cli.cpp (line 98), 64 hexadecimal characters. -/
def default_id : String := "fa1e527bc1d8070876ddb40b4cd50c1d8dacf4d361e71fb61fd613b65c64b506"

/-- An id of 64 characters none of which is a hexadecimal digit. -/
def id_of_64_z : String := String.mk (List.replicate 64 'z')

/-! ## The end of CreatePlotDisk: removal of the temporary files and the retry loop
(lines 405-465) -/

/-- The node at path `p`, if there is one. -/
def FileSystem.lookup (fs : FileSystem) (p : String) : Option FsNode :=
  (fs.nodes.find? (fun n => n.1 == p)).map (fun n => n.2)

/-- The call `fs::copy(src, dst, fs::copy_options::overwrite_existing, ec)` when it reports
no error: `dst` holds what `src` holds. -/
def FileSystem.fs_copy (fs : FileSystem) (src dst : String) : FileSystem :=
  match fs.lookup src with
  | some n => { nodes := (dst, n) :: (fs.fs_remove dst).nodes }
  | none => fs

/-- The call `fs::rename(src, dst, ec)` when it reports no error: what was at `src` is at
`dst`, and `src` is gone. -/
def FileSystem.fs_rename (fs : FileSystem) (src dst : String) : FileSystem :=
  match fs.lookup src with
  | some n => { nodes := (dst, n) :: ((fs.fs_remove src).fs_remove dst).nodes }
  | none => fs

/-- The part of a path string up to its last separator, the separator included; it is
empty when the string has no separator. -/
def dirPart (p : List Char) : List Char := (p.reverse.dropWhile (fun c => c ≠ '/')).reverse

/-- The parts of a path string between its separators: `a//b/` gives `a`, the empty
part, `b` and the empty part. -/
def splitPath : List Char → List (List Char)
  | [] => [[]]
  | c :: cs =>
    if c = '/' then [] :: splitPath cs
    else
      match splitPath cs with
      | [] => [[c]]
      | part :: parts => (c :: part) :: parts

/-- The value of `p.parent_path()` for a path of a POSIX build, as the list of its
elements: the root directory when `p` starts with a separator, then the names that stand
before the last separator of `p` (repeated separators count once). Two paths are equal
under `fs::path::operator==` when their elements are. -/
def parent_path (p : String) : List String :=
  (if p.data.head? = some '/' then ["/"] else [])
    ++ ((splitPath (dirPart p.data)).filter (fun part => part ≠ [])).map String.mk

/-- The test of line 414: `tmp_2_filename.parent_path() == final_filename.parent_path()`. -/
def same_directory (a : Args) : Bool :=
  decide (parent_path (tmp_2_filename a) = parent_path (final_filename a))

/-- The outcomes that the file system gives in one pass of the retry loop to the calls
that the pass makes: `copy_ok` to the copy of line 427 and `rename_ok` to the rename of
line 415 or 445 (whether `ec.value() == 0`), `remove_ok` to the removal of line 439,
which has no `ec` argument and throws `filesystem_error` when it fails. -/
structure PassOutcome where
  copy_ok : Bool
  remove_ok : Bool
  rename_ok : Bool
deriving DecidableEq, Repr

/-- What the retry loop does to the outside world: the copy of line 427 and the renames
of lines 415 and 445, each with the outcome that the file system reported
(`ec.value() == 0`), the removal of line 439 when it returns and when it throws, and the
sleep of lines 460/462. -/
inductive FinalEvent
  | copy (ok : Bool)
  | remove_tmp2
  | remove_throws
  | rename_tmp2 (ok : Bool)
  | rename_final2 (ok : Bool)
  | sleep
deriving DecidableEq, Repr

/-- The variables of the retry loop, `bCopied` and `bRenamed` (lines 409-410), whether
an exception is on its way out of CreatePlotDisk, and the file system. -/
structure FinalState where
  bCopied : Bool
  bRenamed : Bool
  thrown : Bool
  fs : FileSystem
deriving DecidableEq, Repr

/-- Lines 415-424: the rename of the `.2.tmp` file within one directory. The result pairs
the new state with the events of the step, each with the file system after it. -/
def direct_rename_step (a : Args) (rename_ok : Bool) (s : FinalState) :
    FinalState × List (FinalEvent × FileSystem) :=
  if rename_ok = true then
    let fs := s.fs.fs_rename (tmp_2_filename a) (final_filename a)
    ({ s with bRenamed := true, fs := fs }, [(.rename_tmp2 true, fs)])
  else (s, [(.rename_tmp2 false, s.fs)])

/-- Lines 426-443: the copy to the final directory, attempted while `bCopied` is false,
and after a successful copy the assignment `bCopied = true` and the removal of the
`.2.tmp` file of the temp2 directory; a removal that fails throws and leaves the file
where it is. -/
def copy_step (a : Args) (copy_ok remove_ok : Bool) (s : FinalState) :
    FinalState × List (FinalEvent × FileSystem) :=
  if s.bCopied = false then
    if copy_ok = true then
      let fs1 := s.fs.fs_copy (tmp_2_filename a) (final_2_filename a)
      if remove_ok = true then
        let fs2 := fs1.fs_remove (tmp_2_filename a)
        ({ s with bCopied := true, fs := fs2 }, [(.copy true, fs1), (.remove_tmp2, fs2)])
      else
        ({ s with bCopied := true, thrown := true, fs := fs1 },
          [(.copy true, fs1), (.remove_throws, fs1)])
    else (s, [(.copy false, s.fs)])
  else (s, [])

/-- Lines 444-455: the rename of the copy, attempted when `bCopied && !bRenamed`. -/
def rename_step (a : Args) (rename_ok : Bool) (s : FinalState) :
    FinalState × List (FinalEvent × FileSystem) :=
  if s.bCopied = true ∧ s.bRenamed = false then
    if rename_ok = true then
      let fs := s.fs.fs_rename (final_2_filename a) (final_filename a)
      ({ s with bRenamed := true, fs := fs }, [(.rename_final2 true, fs)])
    else (s, [(.rename_final2 false, s.fs)])
  else (s, [])

/-- Lines 458-464: the sleep of five minutes when the file has not been renamed. -/
def sleep_step (s : FinalState) : FinalState × List (FinalEvent × FileSystem) :=
  if s.bRenamed = false then (s, [(.sleep, s.fs)]) else (s, [])

/-- One pass through the body of the do-while loop (lines 413-464) with the outcomes `o`
that the file system gives in this pass. An exception of the removal of line 439 ends the
pass there: the rename and the sleep are not reached. -/
def finalise_iteration (a : Args) (o : PassOutcome) (s : FinalState) :
    FinalState × List (FinalEvent × FileSystem) :=
  if same_directory a = true then
    let r1 := direct_rename_step a o.rename_ok s
    let r2 := sleep_step r1.1
    (r2.1, r1.2 ++ r2.2)
  else
    let r1 := copy_step a o.copy_ok o.remove_ok s
    if r1.1.thrown = true then r1
    else
      let r2 := rename_step a o.rename_ok r1.1
      let r3 := sleep_step r2.1
      (r3.1, r1.2 ++ r2.2 ++ r3.2)

/-- The do-while loop of lines 412-465, run against the outcomes that the file system
gives pass by pass. The loop ends when `bRenamed` is true, and an exception ends it too
(there is no handler in CreatePlotDisk); when the outcomes are used up before that, the
result is the state in which the loop goes on. The second component lists the passes
made, each with its events. -/
def finalise (a : Args) :
    List PassOutcome → FinalState → FinalState × List (List (FinalEvent × FileSystem))
  | [], s => (s, [])
  | o :: outcomes, s =>
    let r := finalise_iteration a o s
    if r.1.bRenamed = true ∨ r.1.thrown = true then (r.1, [r.2])
    else
      let rest := finalise a outcomes r.1
      (rest.1, r.2 :: rest.2)

/-- Lines 405-407: the removal of the eight temporary files after phase 4, when every
removal returns. -/
def remove_tmp_1_files (a : Args) (fs : FileSystem) : FileSystem :=
  (tmp_1_filenames a).foldl (fun fs p => fs.fs_remove p) fs

/-- Lines 409-465 of `DiskPlotter::CreatePlotDisk`: the retry loop from the file system
`fs`, started with `bCopied` and `bRenamed` false. -/
def retry_loop (a : Args) (outcomes : List PassOutcome) (fs : FileSystem) :
    FinalState × List (List (FinalEvent × FileSystem)) :=
  finalise a outcomes { bCopied := false, bRenamed := false, thrown := false, fs := fs }

/-- Lines 405-465 of `DiskPlotter::CreatePlotDisk`: from the file system at the end of
phase 4, the removal of the temporary files and then the retry loop. -/
def CreatePlotDisk_finish (a : Args) (outcomes : List PassOutcome) (fs : FileSystem) :
    FinalState × List (List (FinalEvent × FileSystem)) :=
  retry_loop a outcomes (remove_tmp_1_files a fs)

/-- The events of a run of the loop, pass by pass, without the file systems. -/
def passes (run : FinalState × List (List (FinalEvent × FileSystem))) :
    List (List FinalEvent) :=
  run.2.map (fun pass => pass.map (fun e => e.1))

/-- The events of a run of the loop in the order in which they happened. -/
def events (run : FinalState × List (List (FinalEvent × FileSystem))) : List FinalEvent :=
  (passes run).flatten

/-- The event is a rename that succeeded. -/
def FinalEvent.isRenameOk : FinalEvent → Bool
  | .rename_tmp2 true => true
  | .rename_final2 true => true
  | _ => false

/-- A pass in which the file system reports no error. -/
def no_error : PassOutcome := { copy_ok := true, remove_ok := true, rename_ok := true }

/-- A pass in which the copy fails. -/
def copy_fails : PassOutcome := { copy_ok := false, remove_ok := true, rename_ok := true }

/-- A pass in which the copy and the removal succeed and the rename fails. -/
def rename_fails : PassOutcome := { copy_ok := true, remove_ok := true, rename_ok := false }

/-- A plot made with the temp2 directory `t2` and the final directory `.`. -/
def args_k25_t2 : Args := { defaultArgs with k := 25, tmp2_dirname := "t2" }

/-- The file system at the end of phase 4 of the run of `args_k25_t2`: the finished plot
(here five bytes) is in `t2/plot.dat.2.tmp`, a table file is left in the temp
directory. -/
def phase4Fs : FileSystem :=
  { nodes := [(".", .directory), ("t2", .directory),
      ("t2/plot.dat.2.tmp", .file [80, 114, 111, 111, 102]),
      ("./plot.dat.table1.tmp", .file [1, 2, 3])] }

/-- The file system at the end of phase 4 of the run of `args_k25`, where the temp2
directory is the final directory. -/
def phase4FsSameDir : FileSystem :=
  { nodes := [(".", .directory), ("./plot.dat.2.tmp", .file [80, 114, 111, 111, 102]),
      ("./plot.dat.table1.tmp", .file [1, 2, 3])] }

/-- What holds of the file system at the start of a pass of the loop, for a finished plot
with bytes `plot`: nothing is at the final path, and the plot is in the `.2.tmp` file of
the temp2 directory or, once it has been copied, in the `.2.tmp` file of the final
directory (only). -/
@[reducible]
def FinalState.holdsPlot (a : Args) (plot : List Nat) (s : FinalState) : Prop :=
  s.fs.lookup (final_filename a) = none
  ∧ (if same_directory a = true then
      s.fs.lookup (tmp_2_filename a) = some (.file plot)
    else if s.bCopied = true then
      s.fs.lookup (final_2_filename a) = some (.file plot)
        ∧ s.fs.lookup (tmp_2_filename a) = none
    else s.fs.lookup (tmp_2_filename a) = some (.file plot))

/-- What holds of the file system right after an event of the loop: after a successful
rename the plot is at the final path; after any other event nothing is at the final path
and a `.2.tmp` file in the temp2 directory or in the final directory holds the plot;
after the removal of line 439 that file is the one of the final directory. -/
@[reducible]
def commitPoint (a : Args) (plot : List Nat) (entry : FinalEvent × FileSystem) : Prop :=
  (entry.1.isRenameOk = true → entry.2.lookup (final_filename a) = some (.file plot))
  ∧ (entry.1.isRenameOk = false →
      entry.2.lookup (final_filename a) = none
      ∧ (entry.2.lookup (tmp_2_filename a) = some (.file plot)
        ∨ entry.2.lookup (final_2_filename a) = some (.file plot)))
  ∧ (entry.1 = .remove_tmp2 →
      entry.2.lookup (tmp_2_filename a) = none
      ∧ entry.2.lookup (final_2_filename a) = some (.file plot)
      ∧ entry.2.lookup (final_filename a) = none)

/-- The outcomes of three passes: the copy fails, then the copy succeeds and the rename
fails, then the rename succeeds. -/
def outcomes_fail_fail_ok : List PassOutcome := [copy_fails, rename_fails, no_error]

/-- A file system before the run of `args_k25_t2`: the directories exist and the final
directory holds an earlier plot at the final path. -/
def staleFsT2 : FileSystem :=
  { nodes := [(".", .directory), ("t2", .directory),
      ("./plot.dat", .file [1, 2, 3]), ("t2/plot.dat.2.tmp", .file [4])] }

/-- The object `DiskProver &dp` as the binding uses it (prover_disk.hpp is not among the
sources, so its methods are parameters): the plot size, and for a challenge buffer the
qualities and the proof, each given as the bytes that `LargeBits::ToBytes` writes. -/
structure DiskProver where
  GetSize : Nat
  GetQualitiesForChallenge : List Nat → List (List Nat)
  GetFullProof : List Nat → Nat → List Nat

/-- A call that the binding makes on the prover, with the buffer that `challenge_ptr`
points to: the bytes of `challenge_str`, as many as the Python bytes object has. -/
inductive ProverCall
  | GetQualitiesForChallenge (challenge_buffer : List Nat)
  | GetFullProof (challenge_buffer : List Nat) (index : Nat)
deriving DecidableEq, Repr

/-- The exception that a method of the binding throws itself. -/
inductive BindingError
  | invalid_argument
deriving DecidableEq, Repr

/-- The array that `new uint8_t[n]` gives: `n` bytes whose values the language leaves
open; `uninitialised i` is the byte that is found at offset `i`. -/
def new_uint8_array (uninitialised : Nat → Nat) (n : Nat) : List Nat :=
  (List.range n).map uninitialised

/-- Modelled from the spec: `LargeBits::ToBytes(buffer)` (bits.hpp is not among the
sources), which writes the bytes of the value from the start of `buffer` on and leaves
the bytes after them as they were. -/
def ToBytes (bytes buffer : List Nat) : List Nat := bytes ++ buffer.drop bytes.length

/-- The method `get_qualities_for_challenge` (chiapos.cpp, lines 109-129): the length
test of line 112, then the call of the prover on the bytes of the challenge; every
quality is written to the one 32-byte buffer `quality_buf` and returned as the 32 bytes
of that buffer. The result pairs what the method returns or throws with the calls made
on the prover. -/
def get_qualities_for_challenge (dp : DiskProver) (uninitialised : Nat → Nat)
    (challenge : List Nat) : Except BindingError (List (List Nat)) × List ProverCall :=
  if challenge.length ≠ 32 then (.error .invalid_argument, [])
  else
    let challenge_str := challenge
    let qualities := dp.GetQualitiesForChallenge challenge_str
    let quality_buf := new_uint8_array uninitialised 32
    let r := qualities.foldl
      (fun (st : List Nat × List (List Nat)) quality =>
        let quality_buf := ToBytes quality st.1
        (quality_buf, st.2 ++ [quality_buf.take 32]))
      (quality_buf, [])
    (.ok r.2, [.GetQualitiesForChallenge challenge_str])

/-- The method `get_full_proof` (chiapos.cpp, lines 133-145): the call of the prover on
the bytes of the challenge, whatever their number, the buffer `proof_buf` of
`Util::ByteAlign(64 * dp.GetSize()) / 8` bytes to which the proof is written, and the
bytes object made of that many bytes of the buffer. The result pairs what the method
returns or throws with the calls made on the prover. -/
def get_full_proof (dp : DiskProver) (uninitialised : Nat → Nat) (challenge : List Nat)
    (index : Nat) : Except BindingError (List Nat) × List ProverCall :=
  let challenge_str := challenge
  let proof := dp.GetFullProof challenge_str index
  let proof_buf := new_uint8_array uninitialised (get_full_proof_length dp.GetSize)
  let proof_buf := ToBytes proof proof_buf
  (.ok (proof_buf.take (get_full_proof_length dp.GetSize)),
    [.GetFullProof challenge_str index])

/-- A challenge of 31 bytes. -/
def challenge_of_31_bytes : List Nat := List.replicate 31 0

/-- A prover of a plot of size k = 32 whose proofs and qualities are empty. -/
def prover_k32_empty_proof : DiskProver :=
  { GetSize := 32
    GetQualitiesForChallenge := fun _ => []
    GetFullProof := fun _ _ => [] }

/-! ## C1: the plot header -/

theorem header_text_length : header_text.length = 19 := by decide

theorem Write_bytes (d : FileDisk) (pre tail src : List Nat) (len begin : Nat)
    (hd : d.bytes = pre ++ tail) (hb : begin = pre.length) (hs : src.length = len) :
    (d.Write begin src len).bytes = (pre ++ src) ++ tail.drop len := by
  subst hb hs
  simp [FileDisk.Write, hd, List.take_append_eq_append_take, List.drop_append_eq_append_drop]

theorem Write_writes (d : FileDisk) (begin : Nat) (src : List Nat) (len : Nat) :
    (d.Write begin src len).writes = d.writes ++ [(begin, len)] := rfl

theorem IntToTwoBytes_length (n : Nat) : (IntToTwoBytes n).length = 2 := rfl

theorem IntToTwoBytes_of_lt (n : Nat) (h : n < 65536) :
    IntToTwoBytes n = [n / 256, n % 256] := by
  simp [IntToTwoBytes, Nat.mod_eq_of_lt h]

theorem WriteHeader_bytes (fd : List Nat) (d : FileDisk) (k : Nat) (id memo : List Nat)
    (memo_len : Nat) (hid : id.length = 32) (hmemo : memo.length = memo_len) :
    (WriteHeader fd d k id memo memo_len).2.bytes
      = header_text ++ id ++ [k] ++ IntToTwoBytes fd.length ++ fd
          ++ IntToTwoBytes memo_len ++ memo ++ List.replicate 80 0
          ++ d.bytes.drop (136 + fd.length + memo_len) := by
  have h1 := Write_bytes d [] d.bytes header_text header_text.length 0 rfl rfl rfl
  have h2 := Write_bytes _ _ _ id kIdLen (0 + header_text.length) h1 (by simp) hid
  have h3 := Write_bytes _ _ _ [k] 1 (0 + header_text.length + kIdLen) h2
    (by simp [hid, kIdLen]) rfl
  have h4 := Write_bytes _ _ _ (IntToTwoBytes fd.length) 2
    (0 + header_text.length + kIdLen + 1) h3 (by simp [hid, kIdLen]) rfl
  have h5 := Write_bytes _ _ _ fd fd.length
    (0 + header_text.length + kIdLen + 1 + 2) h4 (by simp [hid, kIdLen, IntToTwoBytes]; try omega) rfl
  have h6 := Write_bytes _ _ _ (IntToTwoBytes memo_len) 2
    (0 + header_text.length + kIdLen + 1 + 2 + fd.length) h5
    (by simp [hid, kIdLen, IntToTwoBytes]; try omega) rfl
  have h7 := Write_bytes _ _ _ memo memo_len
    (0 + header_text.length + kIdLen + 1 + 2 + fd.length + 2) h6
    (by simp [hid, kIdLen, IntToTwoBytes]; try omega) hmemo
  have h8 := Write_bytes _ _ _ (List.replicate (10 * 8) 0) (10 * 8)
    (0 + header_text.length + kIdLen + 1 + 2 + fd.length + 2 + memo_len) h7
    (by simp [hid, hmemo, kIdLen, IntToTwoBytes]; try omega) (by simp)
  simp only [WriteHeader]
  refine h8.trans ?_
  simp only [List.drop_drop, List.nil_append, header_text_length, kIdLen]
  norm_num
  rw [show 54 + fd.length + 2 + memo_len + 80 = 136 + fd.length + memo_len by omega]

theorem WriteHeader_writes (fd : List Nat) (d : FileDisk) (k : Nat) (id memo : List Nat)
    (memo_len : Nat) :
    (WriteHeader fd d k id memo memo_len).2.writes
      = d.writes ++ [(0, 19), (19, 32), (51, 1), (52, 2), (54, fd.length),
          (54 + fd.length, 2), (56 + fd.length, memo_len),
          (56 + fd.length + memo_len, 80)] := by
  simp [WriteHeader, Write_writes, header_text_length, kIdLen]
  omega

theorem headerImage_length (fd : List Nat) (k : Nat) (id memo : List Nat) (memo_len : Nat)
    (hid : id.length = 32) (hmemo : memo.length = memo_len) :
    (headerImage fd k id memo memo_len).length = 136 + fd.length + memo_len := by
  simp [headerImage, header_text_length, hid, hmemo]
  omega

/-- C1: for every k, every 32-byte id and every memo of memo_len < 65536 bytes,
WriteHeader makes eight writes that are contiguous from offset 0 (each begins where the one
before it ended), and the first bytes of the file are exactly
"Proof of Space Plot" || id || k || BE16(|kFormatDescription|) || kFormatDescription ||
BE16(memo_len) || memo || 80 zero bytes, nothing after them being touched; bytes 0..18
are the literal, bytes 19..50 the id, byte 51 is k, the last 80 bytes are zero, and the
returned size is 136 + |kFormatDescription| + memo_len, the length of that byte string
and the offset just past the last write. -/
theorem WriteHeader_layout (kFormatDescription : List Nat) (plot_Disk : FileDisk)
    (k : Nat) (id memo : List Nat) (memo_len : Nat)
    (hfd : kFormatDescription.length < 65536) (hid : id.length = 32)
    (hmemo : memo.length = memo_len) (hlen : memo_len < 65536) :
    let r := WriteHeader kFormatDescription plot_Disk k id memo memo_len
    let image := headerImage kFormatDescription k id memo memo_len
    let made := r.2.writes.drop plot_Disk.writes.length
    r.2.bytes = image ++ plot_Disk.bytes.drop image.length
    ∧ contiguousFrom 0 made
    ∧ made.length = 8
    ∧ endOffset 0 made = r.1
    ∧ r.1 = 136 + kFormatDescription.length + memo_len
    ∧ r.1 = image.length
    ∧ r.2.bytes.take 19 = "Proof of Space Plot".toList.map Char.toNat
    ∧ (r.2.bytes.drop 19).take 32 = id
    ∧ r.2.bytes.get? 51 = some k
    ∧ (r.2.bytes.drop (r.1 - 80)).take 80 = List.replicate 80 0 := by
  intro r image made
  have hlenI : image.length = 136 + kFormatDescription.length + memo_len :=
    headerImage_length _ _ _ _ _ hid hmemo
  have hr1 : r.1 = 136 + kFormatDescription.length + memo_len := by
    show (header_text.length + kIdLen + 1 + 2 + kFormatDescription.length + 2 + memo_len
      + 10 * 8) % 2 ^ 32 = _
    rw [header_text_length, kIdLen, Nat.mod_eq_of_lt (by omega)]
    omega
  have hbytes : r.2.bytes = image ++ plot_Disk.bytes.drop image.length := by
    rw [hlenI]
    have h := WriteHeader_bytes kFormatDescription plot_Disk k id memo memo_len hid hmemo
    rw [IntToTwoBytes_of_lt _ hfd, IntToTwoBytes_of_lt _ hlen] at h
    exact h
  have hmade : made = [(0, 19), (19, 32), (51, 1), (52, 2), (54, kFormatDescription.length),
      (54 + kFormatDescription.length, 2), (56 + kFormatDescription.length, memo_len),
      (56 + kFormatDescription.length + memo_len, 80)] := by
    show List.drop _ (WriteHeader kFormatDescription plot_Disk k id memo memo_len).2.writes = _
    rw [WriteHeader_writes]
    simp
  have hsplit : r.2.bytes = header_text ++ (id ++ (k :: List.drop 52 r.2.bytes)) := by
    have h52 : List.drop 52 r.2.bytes
        = [kFormatDescription.length / 256, kFormatDescription.length % 256]
          ++ kFormatDescription ++ [memo_len / 256, memo_len % 256] ++ memo
          ++ List.replicate 80 0 ++ plot_Disk.bytes.drop image.length := by
      rw [hbytes]
      have : image = (header_text ++ id ++ [k])
          ++ ([kFormatDescription.length / 256, kFormatDescription.length % 256]
          ++ kFormatDescription ++ [memo_len / 256, memo_len % 256] ++ memo
          ++ List.replicate 80 0) := by
        simp [image, headerImage]
      rw [this, List.append_assoc (header_text ++ id ++ [k]),
        List.drop_left' (by simp [header_text_length, hid]), ← this]
    rw [h52, hbytes]
    simp [image, headerImage]
  have hzero : r.2.bytes = (header_text ++ id ++ [k]
      ++ [kFormatDescription.length / 256, kFormatDescription.length % 256]
      ++ kFormatDescription ++ [memo_len / 256, memo_len % 256] ++ memo)
      ++ (List.replicate 80 0 ++ plot_Disk.bytes.drop image.length) := by
    rw [hbytes]
    simp [image, headerImage]
  refine ⟨hbytes, ?_, ?_, ?_, hr1, ?_, ?_, ?_, ?_, ?_⟩
  · rw [hmade]
    simp [contiguousFrom]
    omega
  · rw [hmade]
    rfl
  · rw [hmade, hr1]
    simp [endOffset]
    omega
  · rw [hr1, hlenI]
  · rw [hsplit, List.take_left' header_text_length]
    rfl
  · rw [hsplit, List.drop_left' header_text_length, List.take_left' hid]
  · rw [List.get?_eq_getElem?, hsplit, ← List.append_assoc,
      List.getElem?_append_right (by simp [header_text_length, hid])]
    simp [header_text_length, hid]
  · rw [hzero, List.drop_left' (by simp [header_text_length, hid, hmemo, hr1]; omega),
      List.take_left' (by simp)]

/-- Witness for C1: the plot of scenario S3 (k = 20, id = 01 02 .. 20, memo = CA FE) with
the format description "v1.0", written to a fresh disk. -/
theorem WriteHeader_layout_witness :
    (WriteHeader [118, 49, 46, 48] ⟨[], []⟩ 20 ((List.range 32).map (· + 1)) [202, 254] 2).1
        = 136 + 4 + 2
      ∧ (WriteHeader [118, 49, 46, 48] ⟨[], []⟩ 20 ((List.range 32).map (· + 1))
          [202, 254] 2).2.bytes.get? 51 = some 20 :=
  have h := WriteHeader_layout [118, 49, 46, 48] ⟨[], []⟩ 20 ((List.range 32).map (· + 1))
    [202, 254] 2 (by decide) (by decide) (by decide) (by decide)
  ⟨h.2.2.2.2.1, h.2.2.2.2.2.2.2.2.1⟩


/-! ## Properties of the derived values -/

theorem floor_min_buf (b : Nat) : ⌊min ((b : ℚ) * (5 / 100)) 50⌋₊ = min (b / 20) 50 := by
  have h1 : (b : ℚ) * (5 / 100) = (b : ℚ) / ((20 : ℕ) : ℚ) := by
    push_cast
    ring
  have hmono : Monotone (fun x : ℚ => ⌊x⌋₊) := Nat.floor_mono
  have h2 := hmono.map_min (a := (b : ℚ) * (5 / 100)) (b := (50 : ℚ))
  simp only at h2
  rw [h2, h1, Nat.floor_div_eq_div]
  congr 1

theorem thread_memory_lt (p : Platform) (a : Args) : thread_memory p a < 4096 := by
  unfold thread_memory
  have h : ∀ x : Nat, x % 2 ^ 32 / (1024 * 1024) < 4096 := by
    intro x
    have := Nat.mod_lt x (show 0 < 2 ^ 32 by norm_num)
    omega
  exact h _

theorem sub_mbytes_eq (p : Platform) (a : Args) :
    sub_mbytes p a = 5 + min (buf_megabytes a / 20) 50 + thread_memory p a := by
  unfold sub_mbytes
  rw [floor_min_buf]
  have := thread_memory_lt p a
  have h50 : min (buf_megabytes a / 20) 50 ≤ 50 := Nat.min_le_right _ _
  apply Nat.mod_eq_of_lt
  omega

theorem buf_megabytes_lt (a : Args) (h : a.buf_megabytes_input < 2 ^ 32) :
    buf_megabytes a < 2 ^ 32 := by
  unfold buf_megabytes
  split_ifs <;> omega

theorem memory_size_eq (p : Platform) (a : Args) (hb : a.buf_megabytes_input < 2 ^ 32)
    (h : sub_mbytes p a ≤ buf_megabytes a) :
    memory_size p a = (buf_megabytes a - sub_mbytes p a) * 2 ^ 20 := by
  unfold memory_size
  have h1 := buf_megabytes_lt a hb
  have h2 : (buf_megabytes a + 2 ^ 64 - sub_mbytes p a) % 2 ^ 64
      = buf_megabytes a - sub_mbytes p a := by
    rw [show buf_megabytes a + 2 ^ 64 - sub_mbytes p a
      = (buf_megabytes a - sub_mbytes p a) + 2 ^ 64 by omega]
    rw [Nat.add_mod_right]
    apply Nat.mod_eq_of_lt
    omega
  rw [h2, Nat.mul_assoc]
  apply Nat.mod_eq_of_lt
  have : buf_megabytes a - sub_mbytes p a < 2 ^ 32 := by omega
  calc (buf_megabytes a - sub_mbytes p a) * (1024 * 1024)
      < 2 ^ 32 * (1024 * 1024) := by
        apply Nat.mul_lt_mul_of_pos_right this (by norm_num)
    _ ≤ 2 ^ 64 := by norm_num

/-! ## The shape of the results -/

theorem bucket_step_error (p : Platform) (a : Args) (e : Throw)
    (h : bucket_step p a = .error e) :
    (e = .minimum_buckets ∧ a.num_buckets_input ≠ 0 ∧ num_buckets_rounded p a < 16)
    ∨ (e = .maximum_buckets ∧ a.num_buckets_input ≠ 0 ∧ 128 < num_buckets_rounded p a)
    ∨ (e = .not_enough_memory ∧ a.num_buckets_input = 0
        ∧ 128 < num_buckets_rounded p a) := by
  unfold bucket_step at h
  simp only [kMinBuckets, kMaxBuckets] at h
  split_ifs at h with h1 h2 h3 h4
  · left
    cases h
    exact ⟨rfl, h2, h1⟩
  · right; left
    cases h
    exact ⟨rfl, h4, h3⟩
  · right; right
    cases h
    exact ⟨rfl, by simpa using h4, h3⟩

theorem validate_error_cases (p : Platform) (a : Args) (e : Throw)
    (h : CreatePlotDisk_validate p a = .error e) :
    e = .plot_size_invalid ∧ (a.k < 18 ∨ a.k > 50)
    ∨ (18 ≤ a.k ∧ a.k ≤ 50) ∧
      (e = .at_least_10MiB ∧ buf_megabytes a < 10
      ∨ 10 ≤ buf_megabytes a ∧
        (e = .provide_more_memory (sub_mbytes p a) ∧ buf_megabytes a < sub_mbytes p a
        ∨ sub_mbytes p a ≤ buf_megabytes a ∧
          (bucket_step p a = .error e
          ∨ ∃ nb, bucket_step p a = .ok nb ∧
            (e = .stripe_size_too_large
              ∧ max_table_size p a / (nb : ℚ) < ((stripe_size a * 30 % 2 ^ 32 : Nat) : ℚ)
            ∨ e = .bitfield_not_supported
              ∧ ¬ max_table_size p a / (nb : ℚ) < ((stripe_size a * 30 % 2 ^ 32 : Nat) : ℚ)
              ∧ p.win32_or_x86_64 = true ∧ a.nobitfield = false
              ∧ p.HavePopcnt = false)))) := by
  unfold CreatePlotDisk_validate at h
  by_cases h1 : a.k < kMinPlotSize ∨ a.k > kMaxPlotSize
  · rw [if_pos h1] at h
    left
    cases h
    exact ⟨rfl, by simpa [kMinPlotSize, kMaxPlotSize] using h1⟩
  rw [if_neg h1] at h
  simp only [kMinPlotSize, kMaxPlotSize] at h1
  right
  refine ⟨by omega, ?_⟩
  by_cases h2 : buf_megabytes a < 10
  · rw [if_pos h2] at h
    left
    cases h
    exact ⟨rfl, h2⟩
  rw [if_neg h2] at h
  right
  refine ⟨by omega, ?_⟩
  by_cases h3 : sub_mbytes p a > buf_megabytes a
  · rw [if_pos h3] at h
    left
    cases h
    exact ⟨rfl, h3⟩
  rw [if_neg h3] at h
  right
  refine ⟨by omega, ?_⟩
  cases hb : bucket_step p a with
  | error e2 =>
    rw [hb] at h
    left
    simpa using h
  | ok nb =>
    rw [hb] at h
    right
    refine ⟨nb, rfl, ?_⟩
    simp only at h
    by_cases h4 : max_table_size p a / (nb : ℚ) < ((stripe_size a * 30 % 2 ^ 32 : Nat) : ℚ)
    · rw [if_pos h4] at h
      left
      cases h
      exact ⟨rfl, h4⟩
    rw [if_neg h4] at h
    by_cases h5 : p.win32_or_x86_64 = true ∧ a.nobitfield = false ∧ p.HavePopcnt = false
    · rw [if_pos h5] at h
      right
      cases h
      exact ⟨rfl, h4, h5⟩
    rw [if_neg h5] at h
    cases h

theorem setup_error_cases (p : Platform) (a : Args) (fs : FileSystem) (e : Throw)
    (h : (CreatePlotDisk_setup p a fs).1 = .error e) :
    CreatePlotDisk_validate p a = .error e
    ∨ (∃ params, CreatePlotDisk_validate p a = .ok params) ∧
      (e = .temp_dir_missing ∧ fs.fs_exists a.tmp_dirname = false
      ∨ e = .temp2_dir_missing ∧ fs.fs_exists a.tmp2_dirname = false
      ∨ e = .final_dir_missing ∧ fs.fs_exists a.final_dirname = false) := by
  unfold CreatePlotDisk_setup at h
  cases hv : CreatePlotDisk_validate p a with
  | error e2 =>
    rw [hv] at h
    simp only at h
    left
    rw [h]
  | ok params =>
    rw [hv] at h
    simp only at h
    right
    refine ⟨⟨params, rfl⟩, ?_⟩
    split_ifs at h with h1 h2 h3
    · cases h
      exact Or.inl ⟨rfl, h1⟩
    · cases h
      exact Or.inr (Or.inl ⟨rfl, h2⟩)
    · cases h
      exact Or.inr (Or.inr ⟨rfl, h3⟩)

theorem setup_of_validate_error (p : Platform) (a : Args) (fs : FileSystem) (e : Throw)
    (h : CreatePlotDisk_validate p a = .error e) :
    CreatePlotDisk_setup p a fs = (.error e, fs) := by
  unfold CreatePlotDisk_setup
  rw [h]

theorem validate_of_buf_lt (p : Platform) (a : Args) (hk : 18 ≤ a.k ∧ a.k ≤ 50)
    (hb : buf_megabytes a < 10) :
    CreatePlotDisk_validate p a = .error .at_least_10MiB := by
  unfold CreatePlotDisk_validate
  rw [if_neg (by simp only [kMinPlotSize, kMaxPlotSize]; omega), if_pos hb]

theorem validate_of_sub_gt (p : Platform) (a : Args) (hk : 18 ≤ a.k ∧ a.k ≤ 50)
    (hb : 10 ≤ buf_megabytes a) (hs : buf_megabytes a < sub_mbytes p a) :
    CreatePlotDisk_validate p a = .error (.provide_more_memory (sub_mbytes p a)) := by
  unfold CreatePlotDisk_validate
  rw [if_neg (by simp only [kMinPlotSize, kMaxPlotSize]; omega), if_neg (by omega),
    if_pos hs]

theorem validate_of_bucket_error (p : Platform) (a : Args) (hk : 18 ≤ a.k ∧ a.k ≤ 50)
    (hb : 10 ≤ buf_megabytes a) (hs : sub_mbytes p a ≤ buf_megabytes a) (e : Throw)
    (he : bucket_step p a = .error e) :
    CreatePlotDisk_validate p a = .error e := by
  unfold CreatePlotDisk_validate
  rw [if_neg (by simp only [kMinPlotSize, kMaxPlotSize]; omega), if_neg (by omega),
    if_neg (by omega), he]

theorem validate_of_bucket_ok (p : Platform) (a : Args) (hk : 18 ≤ a.k ∧ a.k ≤ 50)
    (hb : 10 ≤ buf_megabytes a) (hs : sub_mbytes p a ≤ buf_megabytes a) (nb : Nat)
    (hn : bucket_step p a = .ok nb) :
    CreatePlotDisk_validate p a =
      if max_table_size p a / (nb : ℚ) < ((stripe_size a * 30 % 2 ^ 32 : Nat) : ℚ)
      then .error .stripe_size_too_large
      else if p.win32_or_x86_64 = true ∧ a.nobitfield = false ∧ p.HavePopcnt = false then
        .error .bitfield_not_supported
      else
        .ok { stripe_size := stripe_size a
              num_threads := num_threads a
              buf_megabytes := buf_megabytes a
              memory_size := memory_size p a
              num_buckets := nb
              log_num_buckets := Nat.log2 nb } := by
  unfold CreatePlotDisk_validate
  rw [if_neg (by simp only [kMinPlotSize, kMaxPlotSize]; omega), if_neg (by omega),
    if_neg (by omega), hn]

theorem setup_of_validate_ok (p : Platform) (a : Args) (fs : FileSystem) (r : PlotParams)
    (h : CreatePlotDisk_validate p a = .ok r) (h1 : fs.fs_exists a.tmp_dirname = true)
    (h2 : fs.fs_exists a.tmp2_dirname = true) (h3 : fs.fs_exists a.final_dirname = true) :
    CreatePlotDisk_setup p a fs =
      (.ok r, (((tmp_1_filenames a).foldl (fun fs p => fs.fs_remove p) fs).fs_remove
        (tmp_2_filename a)).fs_remove (final_filename a)) := by
  unfold CreatePlotDisk_setup
  rw [h]
  simp only [h1, h2, h3]
  simp

/-! ## C2: the plot size check -/

/-- C2: for every k below 18 or above 50 and every value of the other arguments, of the
platform and of the file system, CreatePlotDisk throws at line 88, an
InvalidValueException (kind invalid_value), whatever the later checks would say; and for
every k in [18, 50] that throw does not happen. -/
theorem k_out_of_range_invalid_value (p : Platform) (a : Args) (fs : FileSystem) :
    ((a.k < 18 ∨ a.k > 50) →
      (CreatePlotDisk_setup p a fs).1 = .error .plot_size_invalid
      ∧ Throw.plot_size_invalid.cls = .InvalidValueException
      ∧ Throw.plot_size_invalid.cls.kind = .invalid_value)
    ∧ ((18 ≤ a.k ∧ a.k ≤ 50) →
      (CreatePlotDisk_setup p a fs).1 ≠ .error .plot_size_invalid) := by
  constructor
  · intro hk
    have hv : CreatePlotDisk_validate p a = .error .plot_size_invalid := by
      unfold CreatePlotDisk_validate
      rw [if_pos (by simpa [kMinPlotSize, kMaxPlotSize] using hk)]
    refine ⟨?_, rfl, rfl⟩
    rw [setup_of_validate_error p a fs _ hv]
  · intro hk h
    rcases setup_error_cases p a fs _ h with hv | ⟨_, h1 | h1 | h1⟩
    · rcases validate_error_cases p a _ hv with ⟨_, h2⟩ | ⟨_, h2 | ⟨_, h2 | ⟨_, h2 | h2⟩⟩⟩
      · omega
      · exact Throw.noConfusion h2.1
      · exact Throw.noConfusion h2.1
      · rcases bucket_step_error p a _ h2 with h3 | h3 | h3 <;> exact Throw.noConfusion h3.1
      · obtain ⟨nb, _, h3 | h3⟩ := h2 <;> exact Throw.noConfusion h3.1
    · exact Throw.noConfusion h1.1
    · exact Throw.noConfusion h1.1
    · exact Throw.noConfusion h1.1

/-- Witness for C2: k = 17 with a 5 MiB buffer is refused for its k, and k = 18 is not. -/
theorem k_out_of_range_invalid_value_witness :
    (CreatePlotDisk_setup x86Platform
        { defaultArgs with k := 17, buf_megabytes_input := 5 } ⟨[]⟩).1
      = .error .plot_size_invalid
    ∧ (CreatePlotDisk_setup x86Platform { defaultArgs with k := 18 } ⟨[]⟩).1
      ≠ .error .plot_size_invalid :=
  ⟨((k_out_of_range_invalid_value x86Platform
      { defaultArgs with k := 17, buf_megabytes_input := 5 } ⟨[]⟩).1
      (Or.inl (by decide))).1,
    (k_out_of_range_invalid_value x86Platform { defaultArgs with k := 18 } ⟨[]⟩).2
      ⟨by decide, by decide⟩⟩

/-! ## C3: the 10 MiB floor -/

/-- C3: for every k in [18, 50] and every requested buffer b with 1 <= b < 10, whatever
the other arguments, the platform and the file system are, CreatePlotDisk throws at line
117, an InsufficientMemoryException (kind insufficient_memory); a requested buffer of 0
is replaced by 4608 and does not throw there. -/
theorem small_buffer_insufficient_memory (p : Platform) (a : Args) (fs : FileSystem)
    (hk : 18 ≤ a.k ∧ a.k ≤ 50) :
    ((1 ≤ a.buf_megabytes_input ∧ a.buf_megabytes_input < 10) →
      (CreatePlotDisk_setup p a fs).1 = .error .at_least_10MiB
      ∧ Throw.at_least_10MiB.cls = .InsufficientMemoryException
      ∧ Throw.at_least_10MiB.cls.kind = .insufficient_memory)
    ∧ (a.buf_megabytes_input = 0 →
      buf_megabytes a = 4608
      ∧ (CreatePlotDisk_setup p a fs).1 ≠ .error .at_least_10MiB) := by
  constructor
  · intro hb
    have hbuf : buf_megabytes a < 10 := by
      unfold buf_megabytes
      rw [if_pos (by omega)]
      exact hb.2
    refine ⟨?_, rfl, rfl⟩
    rw [setup_of_validate_error p a fs _ (validate_of_buf_lt p a hk hbuf)]
  · intro hb
    have hbuf : buf_megabytes a = 4608 := by
      unfold buf_megabytes
      rw [if_neg (by omega)]
    refine ⟨hbuf, ?_⟩
    intro h
    rcases setup_error_cases p a fs _ h with hv | ⟨_, h1 | h1 | h1⟩
    · rcases validate_error_cases p a _ hv with ⟨h2, _⟩ | ⟨_, h2 | ⟨_, h2 | ⟨_, h2 | h2⟩⟩⟩
      · exact Throw.noConfusion h2
      · omega
      · exact Throw.noConfusion h2.1
      · rcases bucket_step_error p a _ h2 with h3 | h3 | h3 <;> exact Throw.noConfusion h3.1
      · obtain ⟨nb, _, h3 | h3⟩ := h2 <;> exact Throw.noConfusion h3.1
    · exact Throw.noConfusion h1.1
    · exact Throw.noConfusion h1.1
    · exact Throw.noConfusion h1.1

/-- Witness for C3: scenario S5 of the spec, `create -b 5`, at k = 18 and at k = 50. -/
theorem small_buffer_insufficient_memory_witness :
    (CreatePlotDisk_setup x86Platform
        { defaultArgs with k := 18, buf_megabytes_input := 5 } ⟨[]⟩).1
      = .error .at_least_10MiB
    ∧ buf_megabytes { defaultArgs with k := 50 } = 4608 :=
  ⟨((small_buffer_insufficient_memory x86Platform
      { defaultArgs with k := 18, buf_megabytes_input := 5 } ⟨[]⟩
      ⟨by decide, by decide⟩).1 ⟨by decide, by decide⟩).1,
    ((small_buffer_insufficient_memory x86Platform { defaultArgs with k := 50 } ⟨[]⟩
      ⟨by decide, by decide⟩).2 rfl).1⟩

/-! ## C4: the derived minimum -/

/-- C4: for every k in [18, 50] and effective buffer b >= 10 (the 32-bit input, or 4608
when the input is 0), with sub_mbytes = 5 + min(floor(0.05 * b), 50) + thread_memory as
the code computes it, CreatePlotDisk throws at line 129 (an
InsufficientMemoryException) exactly when b < sub_mbytes; and when it does not,
sub_mbytes <= b and memory_size = (b - sub_mbytes) * 2^20, the 64-bit difference and
products not wrapping. -/
theorem derived_minimum_check (p : Platform) (a : Args) (hk : 18 ≤ a.k ∧ a.k ≤ 50)
    (hty : a.buf_megabytes_input < 2 ^ 32) (hb : 10 ≤ buf_megabytes a) :
    sub_mbytes p a = 5 + min ⌊(buf_megabytes a : ℚ) * (5 / 100)⌋₊ 50 + thread_memory p a
    ∧ ((∃ s, CreatePlotDisk_validate p a = .error (.provide_more_memory s))
        ↔ buf_megabytes a < sub_mbytes p a)
    ∧ (buf_megabytes a < sub_mbytes p a →
        CreatePlotDisk_validate p a = .error (.provide_more_memory (sub_mbytes p a))
        ∧ (Throw.provide_more_memory (sub_mbytes p a)).cls.kind = .insufficient_memory)
    ∧ (¬ buf_megabytes a < sub_mbytes p a →
        sub_mbytes p a ≤ buf_megabytes a
        ∧ memory_size p a = (buf_megabytes a - sub_mbytes p a) * 2 ^ 20
        ∧ memory_size p a < 2 ^ 64) := by
  refine ⟨?_, ⟨?_, ?_⟩, ?_, ?_⟩
  · rw [sub_mbytes_eq]
    have h1 : (buf_megabytes a : ℚ) * (5 / 100) = (buf_megabytes a : ℚ) / ((20 : ℕ) : ℚ) := by
      push_cast
      ring
    rw [h1, Nat.floor_div_eq_div]
  · rintro ⟨s, hs⟩
    rcases validate_error_cases p a _ hs with ⟨h2, _⟩ | ⟨_, h2 | ⟨_, h2 | ⟨_, h2 | h2⟩⟩⟩
    · exact Throw.noConfusion h2
    · exact Throw.noConfusion h2.1
    · exact h2.2
    · rcases bucket_step_error p a _ h2 with h3 | h3 | h3 <;> exact Throw.noConfusion h3.1
    · obtain ⟨nb, _, h3 | h3⟩ := h2 <;> exact Throw.noConfusion h3.1
  · intro hs
    exact ⟨_, validate_of_sub_gt p a hk hb hs⟩
  · intro hs
    exact ⟨validate_of_sub_gt p a hk hb hs, rfl⟩
  · intro hs
    have hle : sub_mbytes p a ≤ buf_megabytes a := by omega
    have hm := memory_size_eq p a hty hle
    refine ⟨hle, hm, ?_⟩
    unfold memory_size
    exact Nat.mod_lt _ (by norm_num)

/-- Witness for C4: with k = 32 a buffer of 3390 MiB passes the derived minimum of 61 MiB
and leaves 3329 MiB; a buffer of 16 MiB with 100 threads does not pass. -/
theorem derived_minimum_check_witness :
    (sub_mbytes x86Platform args_k32_b3390 ≤ buf_megabytes args_k32_b3390
      ∧ memory_size x86Platform args_k32_b3390
        = (buf_megabytes args_k32_b3390 - sub_mbytes x86Platform args_k32_b3390) * 2 ^ 20)
    ∧ CreatePlotDisk_validate x86Platform args_k32_b16_r100
        = .error (.provide_more_memory (sub_mbytes x86Platform args_k32_b16_r100)) :=
  have h1 := (derived_minimum_check x86Platform args_k32_b3390 ⟨by decide, by decide⟩
    (by decide) (by decide)).2.2.2 (by rw [sub_mbytes_eq]; decide)
  have h2 := (derived_minimum_check x86Platform args_k32_b16_r100 ⟨by decide, by decide⟩
    (by decide) (by decide)).2.2.1 (by rw [sub_mbytes_eq]; decide)
  ⟨⟨h1.1, h1.2.1⟩, h2.1⟩

/-! ## C5: validation failures and the file system -/

/-- C5: whenever CreatePlotDisk throws from its parameter validation (any of the eleven
throw statements of lines 88-228: k, the two memory checks, the bucket count, the stripe
size, POPCNT, the three directories), the file system at the throw is the file system at
entry; in particular a file that was at the final path is still there. -/
theorem validation_failure_keeps_file_system (p : Platform) (a : Args) (fs : FileSystem)
    (e : Throw) (h : (CreatePlotDisk_setup p a fs).1 = .error e) :
    (CreatePlotDisk_setup p a fs).2 = fs
    ∧ (fs.fs_exists (final_filename a) = true →
        (CreatePlotDisk_setup p a fs).2.fs_exists (final_filename a) = true) := by
  have hfs : (CreatePlotDisk_setup p a fs).2 = fs := by
    unfold CreatePlotDisk_setup at h ⊢
    cases hv : CreatePlotDisk_validate p a with
    | error e2 => rfl
    | ok params =>
      rw [hv] at h
      simp only at h ⊢
      by_cases h1 : fs.fs_exists a.tmp_dirname = false
      · rw [if_pos h1]
      rw [if_neg h1] at h ⊢
      by_cases h2 : fs.fs_exists a.tmp2_dirname = false
      · rw [if_pos h2]
      rw [if_neg h2] at h ⊢
      by_cases h3 : fs.fs_exists a.final_dirname = false
      · rw [if_pos h3]
      rw [if_neg h3] at h
      cases h
  refine ⟨hfs, ?_⟩
  intro hx
  rw [hfs]
  exact hx

theorem setup_k18_b5 (fs : FileSystem) :
    (CreatePlotDisk_setup x86Platform args_k18_b5 fs).1 = .error .at_least_10MiB := by
  rw [setup_of_validate_error x86Platform args_k18_b5 fs _
    (validate_of_buf_lt x86Platform args_k18_b5 ⟨by decide, by decide⟩ (by decide))]

/-- Witness for C5: scenario S5 of the spec, `create -b 5`, in a directory that holds an
earlier plot at the final path; the throw leaves every file in place. -/
theorem validation_failure_keeps_file_system_witness :
    (CreatePlotDisk_setup x86Platform args_k18_b5 staleFs).2 = staleFs
    ∧ (CreatePlotDisk_setup x86Platform args_k18_b5 staleFs).2.fs_exists
        (final_filename args_k18_b5) = true :=
  have h := validation_failure_keeps_file_system x86Platform args_k18_b5 staleFs _
    (setup_k18_b5 staleFs)
  ⟨h.1, h.2 (by decide)⟩

/-! ## RoundPow2 and the bucket count -/

theorem le_RoundPow2 (a : Nat) : a ≤ RoundPow2 a :=
  Nat.le_pow_clog (by norm_num) a

theorem RoundPow2_le_of_le_pow (a j : Nat) (h : a ≤ 2 ^ j) : RoundPow2 a ≤ 2 ^ j := by
  unfold RoundPow2
  exact Nat.pow_le_pow_right (by norm_num) ((Nat.le_pow_iff_clog_le (by norm_num)).1 h)

theorem RoundPow2_eq (a j : Nat) (h1 : a ≤ 2 ^ (j + 1)) (h2 : 2 ^ j < a) :
    RoundPow2 a = 2 ^ (j + 1) := by
  unfold RoundPow2
  have hle : Nat.clog 2 a ≤ j + 1 := (Nat.le_pow_iff_clog_le (by norm_num)).1 h1
  have hlt : j < Nat.clog 2 a := (Nat.pow_lt_iff_lt_clog (by norm_num)).1 h2
  have : Nat.clog 2 a = j + 1 := by omega
  rw [this]

theorem two_pow_mod_cases (c : Nat) :
    (c < 32 ∧ 2 ^ c % 2 ^ 32 = 2 ^ c) ∨ (32 ≤ c ∧ 2 ^ c % 2 ^ 32 = 0) := by
  by_cases h : c < 32
  · left
    exact ⟨h, Nat.mod_eq_of_lt (Nat.pow_lt_pow_right (by norm_num) h)⟩
  · right
    refine ⟨by omega, ?_⟩
    exact Nat.mod_eq_zero_of_dvd (Nat.pow_dvd_pow 2 (by omega))

theorem two_pow_in_bucket_range (c : Nat) (h1 : 16 ≤ 2 ^ c) (h2 : 2 ^ c ≤ 128) :
    4 ≤ c ∧ c ≤ 7 := by
  constructor
  · by_contra h
    have : 2 ^ c ≤ 2 ^ 3 := Nat.pow_le_pow_right (by norm_num) (by omega)
    omega
  · by_contra h
    have : 2 ^ 8 ≤ 2 ^ c := Nat.pow_le_pow_right (by norm_num) (by omega)
    omega

theorem num_buckets_rounded_eq_pow (p : Platform) (a : Args) :
    ∃ c, num_buckets_rounded p a = 2 ^ c % 2 ^ 32 := by
  unfold num_buckets_rounded RoundPow2
  split_ifs
  · exact ⟨_, rfl⟩
  · refine ⟨Nat.clog 2 (derived_quotient p a) + 1, ?_⟩
    have h : 2 * 2 ^ Nat.clog 2 (derived_quotient p a)
        = 2 ^ (Nat.clog 2 (derived_quotient p a) + 1) := by ring
    rw [h]

theorem bucket_step_ok_cases (p : Platform) (a : Args) (nb : Nat)
    (h : bucket_step p a = .ok nb) :
    (nb = 16 ∧ a.num_buckets_input = 0 ∧ num_buckets_rounded p a < 16)
    ∨ (nb = num_buckets_rounded p a ∧ 16 ≤ nb ∧ nb ≤ 128) := by
  unfold bucket_step at h
  simp only [kMinBuckets, kMaxBuckets] at h
  split_ifs at h with h1 h2 h3 h4
  · left
    cases h
    exact ⟨rfl, by simpa using h2, h1⟩
  · right
    cases h
    exact ⟨rfl, by omega, by omega⟩

theorem bucket_step_requested (p : Platform) (a : Args) (h0 : a.num_buckets_input ≠ 0) :
    bucket_step p a =
      if RoundPow2 a.num_buckets_input % 2 ^ 32 < 16 then .error .minimum_buckets
      else if 128 < RoundPow2 a.num_buckets_input % 2 ^ 32 then .error .maximum_buckets
      else .ok (RoundPow2 a.num_buckets_input % 2 ^ 32) := by
  unfold bucket_step num_buckets_rounded
  simp only [kMinBuckets, kMaxBuckets, if_pos h0]

theorem bucket_step_derived (p : Platform) (a : Args) (h0 : a.num_buckets_input = 0) :
    bucket_step p a =
      if 2 * RoundPow2 (derived_quotient p a) % 2 ^ 32 < 16 then .ok 16
      else if 128 < 2 * RoundPow2 (derived_quotient p a) % 2 ^ 32 then
        .error .not_enough_memory
      else .ok (2 * RoundPow2 (derived_quotient p a) % 2 ^ 32) := by
  unfold bucket_step num_buckets_rounded
  simp only [kMinBuckets, kMaxBuckets, h0]
  simp

/-- C6: whenever the bucket-count step completes without throwing, for a requested count
as for a derived one, num_buckets is 16, 32, 64 or 128, log_num_buckets is 4, 5, 6 or 7
and 2^log_num_buckets = num_buckets (the assertion of line 167); these are the values
that a successful validation hands on; and a requested count n with 16 <= n <= 128 is
accepted and yields the least power of two that is >= n. -/
theorem bucket_count_power_of_two (p : Platform) (a : Args) :
    (∀ nb, bucket_step p a = .ok nb →
      (nb = 16 ∨ nb = 32 ∨ nb = 64 ∨ nb = 128)
      ∧ (Nat.log2 nb = 4 ∨ Nat.log2 nb = 5 ∨ Nat.log2 nb = 6 ∨ Nat.log2 nb = 7)
      ∧ 2 ^ Nat.log2 nb = nb)
    ∧ (∀ r, CreatePlotDisk_validate p a = .ok r →
      bucket_step p a = .ok r.num_buckets ∧ r.log_num_buckets = Nat.log2 r.num_buckets)
    ∧ ((16 ≤ a.num_buckets_input ∧ a.num_buckets_input ≤ 128) →
      bucket_step p a = .ok (RoundPow2 a.num_buckets_input)
      ∧ a.num_buckets_input ≤ RoundPow2 a.num_buckets_input
      ∧ (∃ j, RoundPow2 a.num_buckets_input = 2 ^ j)
      ∧ ∀ j, a.num_buckets_input ≤ 2 ^ j → RoundPow2 a.num_buckets_input ≤ 2 ^ j) := by
  have hvals : ∀ nb, (nb = 16 ∨ nb = 32 ∨ nb = 64 ∨ nb = 128) →
      (nb = 16 ∨ nb = 32 ∨ nb = 64 ∨ nb = 128)
      ∧ (Nat.log2 nb = 4 ∨ Nat.log2 nb = 5 ∨ Nat.log2 nb = 6 ∨ Nat.log2 nb = 7)
      ∧ 2 ^ Nat.log2 nb = nb := by
    intro nb h
    refine ⟨h, ?_⟩
    have l4 : Nat.log2 16 = 4 := Nat.log2_two_pow (n := 4)
    have l5 : Nat.log2 32 = 5 := Nat.log2_two_pow (n := 5)
    have l6 : Nat.log2 64 = 6 := Nat.log2_two_pow (n := 6)
    have l7 : Nat.log2 128 = 7 := Nat.log2_two_pow (n := 7)
    rcases h with h | h | h | h <;> subst h
    · rw [l4]
      exact ⟨Or.inl rfl, by norm_num⟩
    · rw [l5]
      exact ⟨Or.inr (Or.inl rfl), by norm_num⟩
    · rw [l6]
      exact ⟨Or.inr (Or.inr (Or.inl rfl)), by norm_num⟩
    · rw [l7]
      exact ⟨Or.inr (Or.inr (Or.inr rfl)), by norm_num⟩
  refine ⟨?_, ?_, ?_⟩
  · intro nb h
    apply hvals
    rcases bucket_step_ok_cases p a nb h with ⟨h1, _⟩ | ⟨h1, h2, h3⟩
    · exact Or.inl h1
    · obtain ⟨c, hc⟩ := num_buckets_rounded_eq_pow p a
      rw [hc] at h1
      rcases two_pow_mod_cases c with ⟨_, h4⟩ | ⟨_, h4⟩
      · rw [h4] at h1
        rw [h1] at h2 h3
        have h5 := two_pow_in_bucket_range c h2 h3
        obtain ⟨h6, h7⟩ := h5
        interval_cases c <;> simp [h1]
      · rw [h4] at h1
        omega
  · intro r hr
    unfold CreatePlotDisk_validate at hr
    by_cases h1 : a.k < kMinPlotSize ∨ a.k > kMaxPlotSize
    · rw [if_pos h1] at hr
      cases hr
    rw [if_neg h1] at hr
    by_cases h2 : buf_megabytes a < 10
    · rw [if_pos h2] at hr
      cases hr
    rw [if_neg h2] at hr
    by_cases h3 : sub_mbytes p a > buf_megabytes a
    · rw [if_pos h3] at hr
      cases hr
    rw [if_neg h3] at hr
    cases hb : bucket_step p a with
    | error e2 =>
      rw [hb] at hr
      cases hr
    | ok nb =>
      rw [hb] at hr
      simp only at hr
      by_cases h4 : max_table_size p a / (nb : ℚ) < ((stripe_size a * 30 % 2 ^ 32 : Nat) : ℚ)
      · rw [if_pos h4] at hr
        cases hr
      rw [if_neg h4] at hr
      by_cases h5 : p.win32_or_x86_64 = true ∧ a.nobitfield = false ∧ p.HavePopcnt = false
      · rw [if_pos h5] at hr
        cases hr
      rw [if_neg h5] at hr
      cases hr
      exact ⟨rfl, rfl⟩
  · rintro ⟨h1, h2⟩
    have hle := le_RoundPow2 a.num_buckets_input
    have hup := RoundPow2_le_of_le_pow a.num_buckets_input 7 (by norm_num; omega)
    have hmod : RoundPow2 a.num_buckets_input % 2 ^ 32 = RoundPow2 a.num_buckets_input :=
      Nat.mod_eq_of_lt (by norm_num at hup ⊢; omega)
    refine ⟨?_, hle, ⟨_, rfl⟩, fun j hj => RoundPow2_le_of_le_pow _ j hj⟩
    rw [bucket_step_requested p a (by omega), hmod, if_neg (by omega),
      if_neg (by norm_num at hup ⊢; omega)]

/-- Witness for C6: a requested count of 100 becomes 128 buckets, with log 7. -/
theorem bucket_count_power_of_two_witness :
    bucket_step x86Platform { defaultArgs with num_buckets_input := 100 }
        = .ok (RoundPow2 100)
      ∧ 2 ^ Nat.log2 (RoundPow2 100) = RoundPow2 100
      ∧ RoundPow2 100 = 128 :=
  have t := bucket_count_power_of_two x86Platform
    { defaultArgs with num_buckets_input := 100 }
  have h := (t.2.2 ⟨by decide, by decide⟩).1
  ⟨h, (t.1 _ h).2.2, RoundPow2_eq 100 6 (by norm_num) (by norm_num)⟩

/-! ## max_table_size in closed form -/

theorem max_table_size_fold (c : ℚ) (hc : 0 < c) (E : Nat → Nat) (l : List Nat) (m : Nat) :
    l.foldl (fun (acc : ℚ) i =>
      let memory_i : ℚ := c * (E i : ℚ)
      if memory_i > acc then memory_i else acc) (c * (m : ℚ))
    = c * ((l.foldl (fun m i => max m (E i)) m : Nat) : ℚ) := by
  induction l generalizing m with
  | nil => rfl
  | cons i l ih =>
    simp only [List.foldl_cons]
    by_cases h : m < E i
    · have h1 : c * (E i : ℚ) > c * (m : ℚ) := by
        have : (m : ℚ) < (E i : ℚ) := by exact_mod_cast h
        exact mul_lt_mul_of_pos_left this hc
      rw [if_pos h1, max_eq_right (le_of_lt h)]
      exact ih (E i)
    · have h1 : ¬ c * (E i : ℚ) > c * (m : ℚ) := by
        have : (E i : ℚ) ≤ (m : ℚ) := by exact_mod_cast (not_lt.1 h)
        exact not_lt.2 (mul_le_mul_of_nonneg_left this (le_of_lt hc))
      rw [if_neg h1, max_eq_left (not_lt.1 h)]
      exact ih m

theorem max_table_size_eq (p : Platform) (a : Args) :
    max_table_size p a = 13 / 10 * ((2 ^ a.k : Nat) : ℚ) * (max_entry_size p a : ℚ) := by
  have hc : (0 : ℚ) < 13 / 10 * ((2 ^ a.k : Nat) : ℚ) := by positivity
  have h := max_table_size_fold _ hc (fun i => p.GetMaxEntrySize a.k i true)
    (List.range' 1 7) 0
  simp only [Nat.cast_zero, mul_zero] at h
  exact h


/-! ## Running the validation on given arguments -/

theorem validate_eq_ok (p : Platform) (a : Args) (nb : Nat) (hk : 18 ≤ a.k ∧ a.k ≤ 50)
    (hb : 10 ≤ buf_megabytes a) (hs : sub_mbytes p a ≤ buf_megabytes a)
    (hn : bucket_step p a = .ok nb)
    (hst : ¬ max_table_size p a / (nb : ℚ) < ((stripe_size a * 30 % 2 ^ 32 : Nat) : ℚ))
    (hp : ¬ (p.win32_or_x86_64 = true ∧ a.nobitfield = false ∧ p.HavePopcnt = false)) :
    CreatePlotDisk_validate p a =
      .ok { stripe_size := stripe_size a
            num_threads := num_threads a
            buf_megabytes := buf_megabytes a
            memory_size := memory_size p a
            num_buckets := nb
            log_num_buckets := Nat.log2 nb } := by
  rw [validate_of_bucket_ok p a hk hb hs nb hn, if_neg hst, if_neg hp]

/-! ## C7: requested bucket counts outside [16, 128] -/

theorem bucket_step_requested_9_to_15 (p : Platform) (a : Args)
    (h1 : 9 ≤ a.num_buckets_input) (h2 : a.num_buckets_input ≤ 15) :
    bucket_step p a = .ok 16 := by
  have hstep := bucket_step_requested p a (by omega)
  have h3 : RoundPow2 a.num_buckets_input = 2 ^ (3 + 1) :=
    RoundPow2_eq _ 3 (by norm_num; omega) (by norm_num; omega)
  rw [h3] at hstep
  exact hstep

/-- C7, as the code has it: for a non-zero requested bucket count n and otherwise valid k
and buffer, CreatePlotDisk rounds n up to a power of two and then tests the range; it
throws an InvalidValueException (kind invalid_value) when n <= 8 or n > 128, and it
accepts n = 9..15, which it rounds up to 16 buckets. -/
theorem requested_buckets_rounded_then_checked (p : Platform) (a : Args)
    (hk : 18 ≤ a.k ∧ a.k ≤ 50) (hb : 10 ≤ buf_megabytes a)
    (hs : sub_mbytes p a ≤ buf_megabytes a) (h0 : a.num_buckets_input ≠ 0) :
    ((a.num_buckets_input ≤ 8 ∨ 128 < a.num_buckets_input) →
      ∃ e, CreatePlotDisk_validate p a = .error e
        ∧ (e = .minimum_buckets ∨ e = .maximum_buckets)
        ∧ e.cls = .InvalidValueException ∧ e.cls.kind = .invalid_value)
    ∧ ((9 ≤ a.num_buckets_input ∧ a.num_buckets_input ≤ 15) →
      bucket_step p a = .ok 16) := by
  have hstep := bucket_step_requested p a h0
  constructor
  · intro hn
    rcases hn with hn | hn
    · have h1 : RoundPow2 a.num_buckets_input ≤ 2 ^ 3 :=
        RoundPow2_le_of_le_pow _ 3 (by norm_num; omega)
      have h2 : RoundPow2 a.num_buckets_input % 2 ^ 32 < 16 := by
        have := Nat.mod_le (RoundPow2 a.num_buckets_input) (2 ^ 32)
        norm_num at h1
        omega
      rw [if_pos h2] at hstep
      exact ⟨_, validate_of_bucket_error p a hk hb hs _ hstep, Or.inl rfl, rfl, rfl⟩
    · have h1 := le_RoundPow2 a.num_buckets_input
      obtain ⟨c, hc⟩ : ∃ c, RoundPow2 a.num_buckets_input = 2 ^ c := ⟨_, rfl⟩
      rcases two_pow_mod_cases c with ⟨_, h4⟩ | ⟨_, h4⟩
      · have h5 : RoundPow2 a.num_buckets_input % 2 ^ 32 = RoundPow2 a.num_buckets_input := by
          rw [hc, h4]
        rw [h5, if_neg (by omega), if_pos (by omega)] at hstep
        exact ⟨_, validate_of_bucket_error p a hk hb hs _ hstep, Or.inr rfl, rfl, rfl⟩
      · have h5 : RoundPow2 a.num_buckets_input % 2 ^ 32 = 0 := by
          rw [hc, h4]
        rw [h5, if_pos (by norm_num)] at hstep
        exact ⟨_, validate_of_bucket_error p a hk hb hs _ hstep, Or.inl rfl, rfl, rfl⟩
  · rintro ⟨h1, h2⟩
    exact bucket_step_requested_9_to_15 p a h1 h2

theorem max_entry_size_k25 (a : Args) (h : a.k = 25) : max_entry_size x86Platform a = 21 := by
  unfold max_entry_size
  rw [h]
  decide

theorem thread_memory_k25 :
    thread_memory x86Platform { defaultArgs with k := 25, num_buckets_input := 9 } = 5 := by
  decide

/-- Counterexample to C7 as stated: `create -k 25 -u 9` asks for 9 buckets, a non-zero
count outside [16, 128], with a valid k and the default buffer; the validation does not
fail, it goes on with 16 buckets. -/
theorem requested_9_buckets_accepted :
    (CreatePlotDisk_setup x86Platform
        { defaultArgs with k := 25, num_buckets_input := 9 } emptyDirFs).1
      = .ok { stripe_size := 65536
              num_threads := 2
              buf_megabytes := 4608
              memory_size := 4548 * 2 ^ 20
              num_buckets := 16
              log_num_buckets := 4 }
    ∧ ¬ ∃ e, (CreatePlotDisk_setup x86Platform
        { defaultArgs with k := 25, num_buckets_input := 9 } emptyDirFs).1 = .error e
          ∧ e.cls.kind = .invalid_value := by
  have hsub : sub_mbytes x86Platform { defaultArgs with k := 25, num_buckets_input := 9 }
      = 60 := by
    rw [sub_mbytes_eq, thread_memory_k25]
    decide
  have hbuf : buf_megabytes { defaultArgs with k := 25, num_buckets_input := 9 } = 4608 :=
    rfl
  have hmem : memory_size x86Platform { defaultArgs with k := 25, num_buckets_input := 9 }
      = 4548 * 2 ^ 20 := by
    rw [memory_size_eq _ _ (by decide) (by rw [hsub, hbuf]; decide), hsub, hbuf]
  have hstep : bucket_step x86Platform { defaultArgs with k := 25, num_buckets_input := 9 }
      = .ok 16 :=
    bucket_step_requested_9_to_15 x86Platform _ (by decide) (by decide)
  have hv := validate_eq_ok x86Platform { defaultArgs with k := 25, num_buckets_input := 9 }
    16 ⟨by decide, by decide⟩ (by rw [hbuf]; decide) (by rw [hsub, hbuf]; decide) hstep
    (by
      rw [max_table_size_eq, max_entry_size_k25 _ rfl]
      norm_num [stripe_size, defaultArgs])
    (by decide)
  rw [hmem, show Nat.log2 16 = 4 from Nat.log2_two_pow (n := 4)] at hv
  have hs := setup_of_validate_ok x86Platform _ emptyDirFs _ hv (by decide) (by decide)
    (by decide)
  have h1 : (CreatePlotDisk_setup x86Platform
        { defaultArgs with k := 25, num_buckets_input := 9 } emptyDirFs).1
      = .ok { stripe_size := 65536
              num_threads := 2
              buf_megabytes := 4608
              memory_size := 4548 * 2 ^ 20
              num_buckets := 16
              log_num_buckets := 4 } := by
    rw [hs]
    rfl
  refine ⟨h1, ?_⟩
  rintro ⟨e, he, _⟩
  rw [h1] at he
  cases he

/-- Witness for C7: `create -k 25 -u 200` and `create -k 25 -u 8` are refused. -/
theorem requested_buckets_rounded_then_checked_witness :
    (∃ e, CreatePlotDisk_validate x86Platform
        { defaultArgs with k := 25, num_buckets_input := 200 } = .error e
        ∧ (e = .minimum_buckets ∨ e = .maximum_buckets)
        ∧ e.cls = .InvalidValueException ∧ e.cls.kind = .invalid_value)
    ∧ bucket_step x86Platform { defaultArgs with k := 25, num_buckets_input := 15 }
        = .ok 16 := by
  have hsub1 : sub_mbytes x86Platform { defaultArgs with k := 25, num_buckets_input := 200 }
      = 60 := by
    rw [sub_mbytes_eq]
    decide
  have hsub2 : sub_mbytes x86Platform { defaultArgs with k := 25, num_buckets_input := 15 }
      = 60 := by
    rw [sub_mbytes_eq]
    decide
  exact ⟨(requested_buckets_rounded_then_checked x86Platform
      { defaultArgs with k := 25, num_buckets_input := 200 } ⟨by decide, by decide⟩
      (by decide) (by rw [hsub1]; decide) (by decide)).1 (Or.inr (by decide)),
    (requested_buckets_rounded_then_checked x86Platform
      { defaultArgs with k := 25, num_buckets_input := 15 } ⟨by decide, by decide⟩
      (by decide) (by rw [hsub2]; decide) (by decide)).2 ⟨by decide, by decide⟩⟩

/-! ## C8: the derived bucket count -/

theorem derived_quotient_bounds (p : Platform) (a : Args) (j : Nat)
    (hm : memory_size p a ≠ 0)
    (h1 : max_table_size p a / ((memory_size p a : ℚ) * kMemSortProportion)
      ≤ ((2 ^ (j + 1) : Nat) : ℚ))
    (h2 : ((2 ^ j : Nat) : ℚ)
      < max_table_size p a / ((memory_size p a : ℚ) * kMemSortProportion)) :
    RoundPow2 (derived_quotient p a) = 2 ^ (j + 1) := by
  unfold derived_quotient
  rw [if_neg hm]
  exact RoundPow2_eq _ j (Nat.ceil_le.2 h1) (Nat.lt_ceil.2 h2)

theorem derived_quotient_le_one (p : Platform) (a : Args) (hm : memory_size p a ≠ 0)
    (h1 : max_table_size p a / ((memory_size p a : ℚ) * kMemSortProportion) ≤ 1) :
    RoundPow2 (derived_quotient p a) ≤ 1 := by
  unfold derived_quotient
  rw [if_neg hm]
  exact RoundPow2_le_of_le_pow _ 0 (Nat.ceil_le.2 (by simpa using h1))

/-- C8 at the failing input `create -k 50 -b 20`: both memory checks pass and leave
memory_size = 4 MiB > 0; the derived count 2 * RoundPow2(ceil(max_table_size /
(memory_size * 0.75))) is 2^36, far above 128, but its assignment to the 32-bit
num_buckets leaves 0, which the range test raises to 16; the validation succeeds with 16
buckets although max_table_size exceeds 16 * memory_size * 0.75. -/
theorem derived_bucket_count_wraps_to_16 :
    CreatePlotDisk_validate x86Platform args_k50_b20
      = .ok { stripe_size := 65536
              num_threads := 2
              buf_megabytes := 20
              memory_size := 4 * 2 ^ 20
              num_buckets := 16
              log_num_buckets := 4 }
    ∧ 0 < memory_size x86Platform args_k50_b20
    ∧ 2 * RoundPow2 (derived_quotient x86Platform args_k50_b20) = 2 ^ 36
    ∧ bucket_step x86Platform args_k50_b20 = .ok 16
    ∧ ¬ max_table_size x86Platform args_k50_b20
        ≤ 16 * (memory_size x86Platform args_k50_b20 : ℚ) * kMemSortProportion := by
  have hsub : sub_mbytes x86Platform args_k50_b20 = 16 := by
    rw [sub_mbytes_eq]
    decide
  have hbuf : buf_megabytes args_k50_b20 = 20 := rfl
  have hmem : memory_size x86Platform args_k50_b20 = 4 * 2 ^ 20 := by
    rw [memory_size_eq _ _ (by decide) (by rw [hsub, hbuf]; decide), hsub, hbuf]
  have hE : max_entry_size x86Platform args_k50_b20 = 40 := by decide
  have hmts : max_table_size x86Platform args_k50_b20 = 13 / 10 * 2 ^ 50 * 40 := by
    rw [max_table_size_eq, hE]
    norm_num [args_k50_b20]
  have hround : RoundPow2 (derived_quotient x86Platform args_k50_b20) = 2 ^ (34 + 1) := by
    apply derived_quotient_bounds
    · rw [hmem]
      norm_num
    · rw [hmts, hmem]
      norm_num [kMemSortProportion]
    · rw [hmts, hmem]
      norm_num [kMemSortProportion]
  have hstep : bucket_step x86Platform args_k50_b20 = .ok 16 := by
    rw [bucket_step_derived _ _ rfl, hround]
    norm_num
  have hv := validate_eq_ok x86Platform args_k50_b20 16 ⟨by decide, by decide⟩
    (by rw [hbuf]; decide) (by rw [hsub, hbuf]; decide) hstep
    (by
      rw [hmts]
      norm_num [stripe_size, args_k50_b20, defaultArgs])
    (by decide)
  rw [hmem, show Nat.log2 16 = 4 from Nat.log2_two_pow (n := 4)] at hv
  refine ⟨hv, ?_, ?_, hstep, ?_⟩
  · rw [hmem]
    norm_num
  · rw [hround]
    norm_num
  · rw [hmts, hmem]
    norm_num [kMemSortProportion]

/-! ## C9: the stripe size check -/

/-- C9 at the failing input `create -k 18 -s 143165577`: the k, memory and bucket checks
pass with 16 buckets; max_table_size / num_buckets = 340787.2 is below the product
30 * stripe_size = 4294967310, but the code forms the product in 32-bit arithmetic,
where it is 14, and the validation succeeds instead of throwing "Stripe size too
large". -/
theorem stripe_product_wraps :
    CreatePlotDisk_validate x86Platform args_k18_s143165577
      = .ok { stripe_size := 143165577
              num_threads := 2
              buf_megabytes := 4608
              memory_size := 4007 * 2 ^ 20
              num_buckets := 16
              log_num_buckets := 4 }
    ∧ bucket_step x86Platform args_k18_s143165577 = .ok 16
    ∧ max_table_size x86Platform args_k18_s143165577 / 16
        < 30 * (stripe_size args_k18_s143165577 : ℚ)
    ∧ stripe_size args_k18_s143165577 * 30 % 2 ^ 32 = 14 := by
  have hsub : sub_mbytes x86Platform args_k18_s143165577 = 601 := by
    rw [sub_mbytes_eq]
    decide
  have hbuf : buf_megabytes args_k18_s143165577 = 4608 := rfl
  have hmem : memory_size x86Platform args_k18_s143165577 = 4007 * 2 ^ 20 := by
    rw [memory_size_eq _ _ (by decide) (by rw [hsub, hbuf]; decide), hsub, hbuf]
  have hE : max_entry_size x86Platform args_k18_s143165577 = 16 := by decide
  have hmts : max_table_size x86Platform args_k18_s143165577 = 13 / 10 * 2 ^ 18 * 16 := by
    rw [max_table_size_eq, hE]
    norm_num [args_k18_s143165577]
  have hstripe : stripe_size args_k18_s143165577 = 143165577 := by decide
  have hround : RoundPow2 (derived_quotient x86Platform args_k18_s143165577) ≤ 1 := by
    apply derived_quotient_le_one
    · rw [hmem]
      norm_num
    · rw [hmts, hmem]
      norm_num [kMemSortProportion]
  have hstep : bucket_step x86Platform args_k18_s143165577 = .ok 16 := by
    rw [bucket_step_derived _ _ rfl, if_pos]
    have := Nat.mod_le (2 * RoundPow2 (derived_quotient x86Platform args_k18_s143165577))
      (2 ^ 32)
    omega
  have hv := validate_eq_ok x86Platform args_k18_s143165577 16 ⟨by decide, by decide⟩
    (by rw [hbuf]; decide) (by rw [hsub, hbuf]; decide) hstep
    (by
      rw [hmts, hstripe]
      norm_num)
    (by decide)
  rw [hmem, hstripe, show Nat.log2 16 = 4 from Nat.log2_two_pow (n := 4)] at hv
  have hthr : num_threads args_k18_s143165577 = 2 := rfl
  rw [hthr, hbuf] at hv
  refine ⟨hv, hstep, ?_, ?_⟩
  · rw [hmts, hstripe]
    norm_num
  · rw [hstripe]
    decide

/-! ## C10: the POPCNT check -/

theorem validate_ne_bitfield_of_cond (p : Platform) (a : Args)
    (h : ¬ (p.win32_or_x86_64 = true ∧ a.nobitfield = false ∧ p.HavePopcnt = false)) :
    CreatePlotDisk_validate p a ≠ .error .bitfield_not_supported := by
  intro hv
  rcases validate_error_cases p a _ hv with ⟨h2, _⟩ | ⟨_, h2 | ⟨_, h2 | ⟨_, h2 | h2⟩⟩⟩
  · exact Throw.noConfusion h2
  · exact Throw.noConfusion h2.1
  · exact Throw.noConfusion h2.1
  · rcases bucket_step_error p a _ h2 with h3 | h3 | h3 <;> exact Throw.noConfusion h3.1
  · obtain ⟨nb, _, h3 | h3⟩ := h2
    · exact Throw.noConfusion h3.1
    · exact h h3.2.2

theorem validate_k25 (p : Platform) (hE : p.GetMaxEntrySize = GetMaxEntrySize) :
    sub_mbytes p args_k25 = 60 ∧ buf_megabytes args_k25 = 4608
    ∧ bucket_step p args_k25 = .ok 16
    ∧ ¬ max_table_size p args_k25 / ((16 : Nat) : ℚ)
        < ((stripe_size args_k25 * 30 % 2 ^ 32 : Nat) : ℚ) := by
  have hthr : thread_memory p args_k25 = 5 := by
    unfold thread_memory
    rw [hE]
    decide
  have hsub : sub_mbytes p args_k25 = 60 := by
    rw [sub_mbytes_eq, hthr]
    decide
  have hbuf : buf_megabytes args_k25 = 4608 := rfl
  have hmem : memory_size p args_k25 = 4548 * 2 ^ 20 := by
    rw [memory_size_eq _ _ (by decide) (by rw [hsub, hbuf]; decide), hsub, hbuf]
  have hmax : max_entry_size p args_k25 = 21 := by
    unfold max_entry_size
    rw [hE]
    decide
  have hmts : max_table_size p args_k25 = 13 / 10 * 2 ^ 25 * 21 := by
    rw [max_table_size_eq, hmax]
    norm_num [args_k25]
  have hround : RoundPow2 (derived_quotient p args_k25) ≤ 1 := by
    apply derived_quotient_le_one
    · rw [hmem]
      norm_num
    · rw [hmts, hmem]
      norm_num [kMemSortProportion]
  have hstep : bucket_step p args_k25 = .ok 16 := by
    rw [bucket_step_derived _ _ rfl, if_pos]
    have := Nat.mod_le (2 * RoundPow2 (derived_quotient p args_k25)) (2 ^ 32)
    omega
  refine ⟨hsub, hbuf, hstep, ?_⟩
  rw [hmts]
  norm_num [stripe_size, args_k25, defaultArgs]

/-- C10, as the code has it: in a build for Windows or x86-64, when the bitfield path is
chosen (nobitfield = false) on a CPU without POPCNT and all earlier validations pass,
CreatePlotDisk throws at line 178 an InvalidValueException, whose kind is invalid_value
like that of the other parameter errors; when nobitfield = true, and in a build for
another architecture, that throw never happens. -/
theorem popcnt_check_invalid_value (p : Platform) (a : Args) (fs : FileSystem) :
    (∀ nb, (18 ≤ a.k ∧ a.k ≤ 50) → 10 ≤ buf_megabytes a →
      sub_mbytes p a ≤ buf_megabytes a → bucket_step p a = .ok nb →
      ¬ max_table_size p a / (nb : ℚ) < ((stripe_size a * 30 % 2 ^ 32 : Nat) : ℚ) →
      p.win32_or_x86_64 = true → a.nobitfield = false → p.HavePopcnt = false →
        (CreatePlotDisk_setup p a fs).1 = .error .bitfield_not_supported
        ∧ Throw.bitfield_not_supported.cls = .InvalidValueException
        ∧ Throw.bitfield_not_supported.cls.kind = .invalid_value)
    ∧ (a.nobitfield = true →
        (CreatePlotDisk_setup p a fs).1 ≠ .error .bitfield_not_supported)
    ∧ (p.win32_or_x86_64 = false →
        (CreatePlotDisk_setup p a fs).1 ≠ .error .bitfield_not_supported) := by
  have hne : ¬ (p.win32_or_x86_64 = true ∧ a.nobitfield = false ∧ p.HavePopcnt = false) →
      (CreatePlotDisk_setup p a fs).1 ≠ .error .bitfield_not_supported := by
    intro hc h
    rcases setup_error_cases p a fs _ h with hv | ⟨_, h1 | h1 | h1⟩
    · exact validate_ne_bitfield_of_cond p a hc hv
    · exact Throw.noConfusion h1.1
    · exact Throw.noConfusion h1.1
    · exact Throw.noConfusion h1.1
  refine ⟨?_, ?_, ?_⟩
  · intro nb hk hb hs hn hst h1 h2 h3
    refine ⟨?_, rfl, rfl⟩
    have hv : CreatePlotDisk_validate p a = .error .bitfield_not_supported := by
      rw [validate_of_bucket_ok p a hk hb hs nb hn, if_neg hst, if_pos ⟨h1, h2, h3⟩]
    rw [setup_of_validate_error p a fs _ hv]
  · intro hnb
    apply hne
    rintro ⟨_, h2, _⟩
    rw [hnb] at h2
    cases h2
  · intro hw
    apply hne
    rintro ⟨h1, _, _⟩
    rw [hw] at h1
    cases h1

/-- Counterexample to C10 as stated: `create -k 25` on an x86-64 CPU without POPCNT fails
with an InvalidValueException, whose kind is invalid_value and not a kind of its own;
and the same command in a build for another architecture, where no POPCNT test is
compiled, passes the validation. -/
theorem popcnt_failure_is_invalid_value :
    CreatePlotDisk_validate x86NoPopcnt args_k25 = .error .bitfield_not_supported
    ∧ Throw.bitfield_not_supported.cls.kind = .invalid_value
    ∧ Throw.bitfield_not_supported.cls.kind ≠ .cpu_unsupported
    ∧ args_k25.nobitfield = false ∧ otherArchPlatform.HavePopcnt = false
    ∧ ∃ r, CreatePlotDisk_validate otherArchPlatform args_k25 = .ok r := by
  obtain ⟨hsub, hbuf, hstep, hst⟩ := validate_k25 x86NoPopcnt rfl
  obtain ⟨hsub2, _, hstep2, hst2⟩ := validate_k25 otherArchPlatform rfl
  refine ⟨?_, rfl, by decide, rfl, rfl, ?_⟩
  · rw [validate_of_bucket_ok _ _ ⟨by decide, by decide⟩ (by rw [hbuf]; decide)
      (by rw [hsub, hbuf]; decide) 16 hstep, if_neg hst, if_pos ⟨rfl, rfl, rfl⟩]
  · exact ⟨_, validate_eq_ok _ _ 16 ⟨by decide, by decide⟩ (by rw [hbuf]; decide)
      (by rw [hsub2, hbuf]; decide) hstep2 hst2 (by decide)⟩

/-- Witness for C10: `create -k 25` on an x86-64 CPU without POPCNT, with and without
`-e` (nobitfield). -/
theorem popcnt_check_invalid_value_witness :
    (CreatePlotDisk_setup x86NoPopcnt args_k25 emptyDirFs).1 = .error .bitfield_not_supported
    ∧ (CreatePlotDisk_setup x86NoPopcnt { args_k25 with nobitfield := true } emptyDirFs).1
        ≠ .error .bitfield_not_supported :=
  have h := validate_k25 x86NoPopcnt rfl
  ⟨((popcnt_check_invalid_value x86NoPopcnt args_k25 emptyDirFs).1 16 ⟨by decide, by decide⟩
      (by rw [h.2.1]; decide) (by rw [h.1, h.2.1]; decide) h.2.2.1 h.2.2.2 rfl rfl rfl).1,
    (popcnt_check_invalid_value x86NoPopcnt { args_k25 with nobitfield := true }
      emptyDirFs).2.1 rfl⟩

/-! ## After a successful validation; the derived count while it fits 32 bits -/

theorem setup_success_removes_final (p : Platform) (a : Args) (fs : FileSystem)
    (r : PlotParams) (h : (CreatePlotDisk_setup p a fs).1 = .ok r) :
    (CreatePlotDisk_setup p a fs).2.fs_exists (final_filename a) = false := by
  unfold CreatePlotDisk_setup at h ⊢
  cases hv : CreatePlotDisk_validate p a with
  | error e2 =>
    rw [hv] at h
    cases h
  | ok params =>
    rw [hv] at h
    simp only at h ⊢
    by_cases h1 : fs.fs_exists a.tmp_dirname = false
    · rw [if_pos h1] at h
      cases h
    rw [if_neg h1] at h ⊢
    by_cases h2 : fs.fs_exists a.tmp2_dirname = false
    · rw [if_pos h2] at h
      cases h
    rw [if_neg h2] at h ⊢
    by_cases h3 : fs.fs_exists a.final_dirname = false
    · rw [if_pos h3] at h
      cases h
    rw [if_neg h3]
    simp only [FileSystem.fs_exists, FileSystem.fs_remove, List.any_eq_false, List.mem_filter]
    intro n hn
    simpa using hn.2

theorem derived_bucket_count_fits (p : Platform) (a : Args) (nb : Nat)
    (h0 : a.num_buckets_input = 0) (hm : 0 < memory_size p a)
    (hfit : 2 * RoundPow2 (derived_quotient p a) < 2 ^ 32)
    (h : bucket_step p a = .ok nb) :
    max_table_size p a ≤ (nb : ℚ) * (memory_size p a : ℚ) * kMemSortProportion
    ∧ 2 * RoundPow2 (derived_quotient p a) ≤ 128 := by
  have hstep := bucket_step_derived p a h0
  rw [Nat.mod_eq_of_lt hfit, h] at hstep
  have hq : derived_quotient p a ≤ RoundPow2 (derived_quotient p a) := le_RoundPow2 _
  have hnb : derived_quotient p a ≤ nb ∧ 2 * RoundPow2 (derived_quotient p a) ≤ 128 := by
    split_ifs at hstep with h1 h2
    · cases hstep
      omega
    · cases hstep
      omega
  refine ⟨?_, hnb.2⟩
  have hpos : (0 : ℚ) < (memory_size p a : ℚ) * kMemSortProportion := by
    have : (0 : ℚ) < (memory_size p a : ℚ) := by exact_mod_cast hm
    unfold kMemSortProportion
    positivity
  have hceil : max_table_size p a / ((memory_size p a : ℚ) * kMemSortProportion)
      ≤ (derived_quotient p a : ℚ) := by
    unfold derived_quotient
    rw [if_neg (by omega)]
    exact Nat.le_ceil _
  have hle : max_table_size p a / ((memory_size p a : ℚ) * kMemSortProportion)
      ≤ (nb : ℚ) := le_trans hceil (by exact_mod_cast hnb.1)
  rw [div_le_iff₀ hpos] at hle
  linarith

theorem derived_bucket_count_not_enough_memory (p : Platform) (a : Args)
    (h0 : a.num_buckets_input = 0)
    (hfit : 2 * RoundPow2 (derived_quotient p a) < 2 ^ 32)
    (hbig : 128 < 2 * RoundPow2 (derived_quotient p a)) :
    bucket_step p a = .error .not_enough_memory := by
  rw [bucket_step_derived p a h0, Nat.mod_eq_of_lt hfit, if_neg (by omega), if_pos hbig]

/-- The log that the source quotes at lines 184-188 (k = 32, a 3390 MiB buffer, 2 threads of
stripe size 65536, "Using 128 buckets") is what the embedding computes. -/
theorem validate_k32_b3390 :
    CreatePlotDisk_validate x86Platform args_k32_b3390
      = .ok { stripe_size := 65536
              num_threads := 2
              buf_megabytes := 3390
              memory_size := 3329 * 2 ^ 20
              num_buckets := 128
              log_num_buckets := 7 } := by
  have hsub : sub_mbytes x86Platform args_k32_b3390 = 61 := by
    rw [sub_mbytes_eq]
    decide
  have hbuf : buf_megabytes args_k32_b3390 = 3390 := rfl
  have hmem : memory_size x86Platform args_k32_b3390 = 3329 * 2 ^ 20 := by
    rw [memory_size_eq _ _ (by decide) (by rw [hsub, hbuf]; decide), hsub, hbuf]
  have hE : max_entry_size x86Platform args_k32_b3390 = 26 := by decide
  have hmts : max_table_size x86Platform args_k32_b3390 = 13 / 10 * 2 ^ 32 * 26 := by
    rw [max_table_size_eq, hE]
    norm_num [args_k32_b3390]
  have hround : RoundPow2 (derived_quotient x86Platform args_k32_b3390) = 2 ^ (5 + 1) := by
    apply derived_quotient_bounds
    · rw [hmem]
      norm_num
    · rw [hmts, hmem]
      norm_num [kMemSortProportion]
    · rw [hmts, hmem]
      norm_num [kMemSortProportion]
  have hstep : bucket_step x86Platform args_k32_b3390 = .ok 128 := by
    rw [bucket_step_derived _ _ rfl, hround]
    norm_num
  have hv := validate_eq_ok x86Platform args_k32_b3390 128 ⟨by decide, by decide⟩
    (by rw [hbuf]; decide) (by rw [hsub, hbuf]; decide) hstep
    (by
      rw [hmts]
      norm_num [stripe_size, args_k32_b3390, defaultArgs])
    (by decide)
  rw [hmem, show Nat.log2 128 = 7 from Nat.log2_two_pow (n := 7)] at hv
  exact hv

/-! ## C15: the length of a full proof -/

theorem ByteAlign_spec (num_bits : Nat) :
    ByteAlign num_bits % 8 = 0 ∧ num_bits ≤ ByteAlign num_bits
      ∧ ByteAlign num_bits < num_bits + 8 := by
  unfold ByteAlign
  omega

theorem get_full_proof_length_eq (k : Nat) (hk : k < 2 ^ 8) :
    64 * k < 2 ^ 31
    ∧ ByteAlign (64 * k) = 64 * k
    ∧ get_full_proof_length k = 8 * k
    ∧ get_full_proof_length k = ⌈((64 * k : Nat) : ℚ) / 8⌉₊
    ∧ get_full_proof_length k = prove_buffer_length k
    ∧ 8 * get_full_proof_length k = 64 * k := by
  have h1 : ByteAlign (64 * k) = 64 * k := by
    unfold ByteAlign
    omega
  have h2 : get_full_proof_length k = 8 * k := by
    unfold get_full_proof_length
    rw [h1]
    omega
  refine ⟨by omega, h1, h2, ?_, by rw [h2, prove_buffer_length], by rw [h2]; ring⟩
  rw [h2]
  have h3 : ((64 * k : Nat) : ℚ) / 8 = ((8 * k : Nat) : ℚ) := by
    push_cast
    ring
  rw [h3, Nat.ceil_natCast]

theorem new_uint8_array_length (uninitialised : Nat → Nat) (n : Nat) :
    (new_uint8_array uninitialised n).length = n := by
  simp [new_uint8_array]

theorem ToBytes_take_length (bytes buffer : List Nat) :
    ((ToBytes bytes buffer).take buffer.length).length = buffer.length := by
  simp only [ToBytes, List.length_take, List.length_append, List.length_drop]
  omega

theorem ToBytes_take_of_length (bytes buffer : List Nat) (h : bytes.length = buffer.length) :
    (ToBytes bytes buffer).take buffer.length = bytes := by
  unfold ToBytes
  rw [← h, List.take_left' rfl]

theorem get_full_proof_result (dp : DiskProver) (uninitialised : Nat → Nat)
    (challenge : List Nat) (index : Nat) :
    get_full_proof dp uninitialised challenge index
      = (.ok ((ToBytes (dp.GetFullProof challenge index)
            (new_uint8_array uninitialised (get_full_proof_length dp.GetSize))).take
              (get_full_proof_length dp.GetSize)),
          [.GetFullProof challenge index]) := rfl

/-- C15: for every prover whose plot size k fits 8 bits, every challenge and index, the
product 64 * k stays below 2^31 (no overflow of `int`), ByteAlign leaves it as it is, and
get_full_proof returns a bytes object of exactly Util::ByteAlign(64 * k) / 8 = 8 * k =
ceil(64 * k / 8) bytes, whatever the prover's proof is: the size of the buffer that the
prove command allocates, which is 64 * k bits. When the proof has 64 * k bits the bytes
object holds the proof. -/
theorem get_full_proof_returns_8k_bytes (dp : DiskProver) (uninitialised : Nat → Nat)
    (challenge : List Nat) (index : Nat) (hk : dp.GetSize < 2 ^ 8) :
    64 * dp.GetSize < 2 ^ 31
    ∧ ByteAlign (64 * dp.GetSize) = 64 * dp.GetSize
    ∧ ∃ ret, (get_full_proof dp uninitialised challenge index).1 = .ok ret
        ∧ ret.length = 8 * dp.GetSize
        ∧ ret.length = ⌈((64 * dp.GetSize : Nat) : ℚ) / 8⌉₊
        ∧ ret.length = prove_buffer_length dp.GetSize
        ∧ 8 * ret.length = 64 * dp.GetSize
        ∧ ((dp.GetFullProof challenge index).length = 8 * dp.GetSize →
            ret = dp.GetFullProof challenge index) := by
  obtain ⟨h1, h2, h3, h4, h5, h6⟩ := get_full_proof_length_eq dp.GetSize hk
  have hbuf := new_uint8_array_length uninitialised (get_full_proof_length dp.GetSize)
  have hlen : ((ToBytes (dp.GetFullProof challenge index)
      (new_uint8_array uninitialised (get_full_proof_length dp.GetSize))).take
        (get_full_proof_length dp.GetSize)).length = get_full_proof_length dp.GetSize := by
    have := ToBytes_take_length (dp.GetFullProof challenge index)
      (new_uint8_array uninitialised (get_full_proof_length dp.GetSize))
    rw [hbuf] at this
    exact this
  refine ⟨h1, h2, _, by rw [get_full_proof_result], ?_, ?_, ?_, ?_, ?_⟩
  · rw [hlen, h3]
  · rw [hlen, h4]
  · rw [hlen, h5]
  · rw [hlen, h6]
  · intro hp
    have := ToBytes_take_of_length (dp.GetFullProof challenge index)
      (new_uint8_array uninitialised (get_full_proof_length dp.GetSize))
      (by rw [hbuf, h3, hp])
    rw [hbuf] at this
    exact this

/-- Witness for C15: a prover of a plot of size k = 32 that gives an empty proof; the
bytes object still has 256 bytes. -/
theorem get_full_proof_returns_8k_bytes_witness :
    prover_k32_empty_proof.GetSize < 2 ^ 8
    ∧ ∃ ret, (get_full_proof prover_k32_empty_proof (fun _ => 0) (List.replicate 32 0) 0).1
          = .ok ret
        ∧ ret.length = 256 :=
  have h := get_full_proof_returns_8k_bytes prover_k32_empty_proof (fun _ => 0)
    (List.replicate 32 0) 0 (by decide)
  ⟨by decide, h.2.2.elim (fun ret hret => ⟨ret, hret.1, hret.2.1⟩)⟩

/-! ## C18: intToBytes and the challenge of the check command -/

theorem intToBytes_4 (n : Nat) (hn : n < 2 ^ 32) :
    intToBytes n 4 = some [n / 2 ^ 24, n / 2 ^ 16 % 256, n / 2 ^ 8 % 256, n % 256] := by
  unfold intToBytes
  have hrep : List.replicate 4 0 = [0, 0, 0, 0] := rfl
  have e8 : (2 : Nat) ^ 8 = 256 := by norm_num
  rw [hrep, e8]
  by_cases h0 : n > 0
  swap
  · have : n = 0 := by omega
    subst this
    rfl
  by_cases h1 : n / 256 > 0
  swap
  · simp only [intToBytes_loop, e8, if_pos h0, if_neg h1]
    norm_num [List.set]
    omega
  by_cases h2 : n / 256 / 256 > 0
  swap
  · simp only [intToBytes_loop, e8, if_pos h0, if_pos h1, if_neg h2]
    norm_num [List.set]
    omega
  by_cases h3 : n / 256 / 256 / 256 > 0
  swap
  · simp only [intToBytes_loop, e8, if_pos h0, if_pos h1, if_pos h2, if_neg h3]
    norm_num [List.set]
    omega
  have h4 : ¬ n / 256 / 256 / 256 / 256 > 0 := by omega
  simp only [intToBytes_loop, e8, if_pos h0, if_pos h1, if_pos h2, if_pos h3, if_neg h4]
  norm_num [List.set]
  omega

/-- C18: for every 32-bit iteration number n, intToBytes(n, 4) indexes its array in range
and returns the four bytes [n >> 24, (n >> 16) & 255, (n >> 8) & 255, n & 255], whose
big-endian value is n; and the challenge of iteration n is the hash (SHA-256 in the
source) of the 36-byte string made of these four bytes followed by the 32 bytes of the
plot id. -/
theorem check_challenge_input (n : Nat) (hn : n < 2 ^ 32) :
    intToBytes n 4 = some [n / 2 ^ 24, n / 2 ^ 16 % 256, n / 2 ^ 8 % 256, n % 256]
    ∧ n / 2 ^ 24 < 256
    ∧ n / 2 ^ 24 * 256 ^ 3 + n / 2 ^ 16 % 256 * 256 ^ 2 + n / 2 ^ 8 % 256 * 256 ^ 1
        + n % 256 * 256 ^ 0 = n
    ∧ ∀ (hash256 : List Nat → List Nat) (id_bytes : List Nat), id_bytes.length = 32 →
        check_challenge hash256 id_bytes n
          = some (hash256
              ([n / 2 ^ 24, n / 2 ^ 16 % 256, n / 2 ^ 8 % 256, n % 256] ++ id_bytes))
        ∧ ([n / 2 ^ 24, n / 2 ^ 16 % 256, n / 2 ^ 8 % 256, n % 256] ++ id_bytes).length
            = 36 := by
  refine ⟨intToBytes_4 n hn, by omega, by omega, ?_⟩
  intro hash256 id_bytes hid
  constructor
  · unfold check_challenge
    rw [intToBytes_4 n hn, List.take_of_length_le (by omega)]
    rfl
  · simp [hid]

/-- Witness for C18: iteration 999 of the check command hashes 00 00 03 E7 followed by the
plot id (here with the identity in place of the hash). -/
theorem check_challenge_input_witness :
    intToBytes 999 4 = some [999 / 2 ^ 24, 999 / 2 ^ 16 % 256, 999 / 2 ^ 8 % 256, 999 % 256]
    ∧ check_challenge (fun x => x) (List.replicate 32 7) 999
        = some ([999 / 2 ^ 24, 999 / 2 ^ 16 % 256, 999 / 2 ^ 8 % 256, 999 % 256]
            ++ List.replicate 32 7) :=
  have h := check_challenge_input 999 (by decide)
  ⟨h.1, (h.2.2.2 (fun x => x) (List.replicate 32 7) (by decide)).1⟩

/-! ## C19: thread_memory in 32-bit arithmetic -/

theorem thread_memory_exact (p : Platform) (a : Args)
    (h : num_threads a * (2 * (stripe_size a + 5000)) * p.GetMaxEntrySize a.k 4 true < 2 ^ 32) :
    thread_memory p a
      = num_threads a * (2 * (stripe_size a + 5000)) * p.GetMaxEntrySize a.k 4 true / 2 ^ 20 := by
  unfold thread_memory
  have e : (num_threads a * (2 * ((stripe_size a + 5000) % 2 ^ 32))
        * p.GetMaxEntrySize a.k 4 true) % 2 ^ 32
      = (num_threads a * (2 * (stripe_size a + 5000)) * p.GetMaxEntrySize a.k 4 true)
        % 2 ^ 32 := by
    apply Nat.ModEq.mul_right
    apply Nat.ModEq.mul_left
    apply Nat.ModEq.mul_left
    exact Nat.mod_modEq _ _
  rw [Nat.mul_mod_mod, Nat.mod_mul_mod, e, Nat.mod_eq_of_lt h]
  norm_num

/-- C19 at the failing input `create -k 18 -s 143165577`: with T = 2, S = 143165577 and
GetMaxEntrySize(18, 4, true) = 16 the product T * 2 * (S + 5000) * 16 = 9162916928 does
not fit 32 bits; the code computes thread_memory = 546 where the exact quotient is 8738,
and sub_mbytes is not monotone: it is 601 here, 2062 for the smaller stripe size
100000000, and thread_memory falls from 546 to 2 when the threads go from 2 to 15. -/
theorem thread_memory_wraps :
    num_threads args_k18_s143165577 = 2 ∧ stripe_size args_k18_s143165577 = 143165577
    ∧ thread_memory x86Platform args_k18_s143165577 = 546
    ∧ 2 * 2 * (143165577 + 5000) * GetMaxEntrySize 18 4 true / 2 ^ 20 = 8738
    ∧ 2 ^ 32 ≤ 2 * 2 * (143165577 + 5000) * GetMaxEntrySize 18 4 true
    ∧ sub_mbytes x86Platform args_k18_s143165577 = 601
    ∧ stripe_size args_k18_s100000000 = 100000000
    ∧ sub_mbytes x86Platform args_k18_s100000000 = 2062
    ∧ num_threads args_k18_s143165577_r15 = 15
    ∧ thread_memory x86Platform args_k18_s143165577_r15 = 2 := by
  refine ⟨by decide, by decide, by decide, by decide, by decide, ?_, by decide, ?_,
    by decide, by decide⟩
  · rw [sub_mbytes_eq]
    decide
  · rw [sub_mbytes_eq]
    decide

/-! ## C20: a buffer equal to the derived minimum -/

theorem memory_size_zero_of_eq (p : Platform) (a : Args) (hb : a.buf_megabytes_input < 2 ^ 32)
    (h : sub_mbytes p a = buf_megabytes a) : memory_size p a = 0 := by
  rw [memory_size_eq p a hb (by omega), h]
  simp

/-- C20 at the failing input `create -k 25 -b 10`: the buffer of 10 MiB passes the first
memory check, sub_mbytes = 5 + 0 + 5 = 10 is not greater than the buffer, so the second
check passes too, and memory_size = (10 - 10) * 2^20 = 0; the divisor
memory_size * kMemSortProportion is 0 and the validation succeeds with a sorting budget
of zero bytes. -/
theorem equal_buffer_gives_zero_memory :
    10 ≤ buf_megabytes args_k25_b10
    ∧ sub_mbytes x86Platform args_k25_b10 = 10
    ∧ ¬ sub_mbytes x86Platform args_k25_b10 > buf_megabytes args_k25_b10
    ∧ memory_size x86Platform args_k25_b10 = 0
    ∧ (memory_size x86Platform args_k25_b10 : ℚ) * kMemSortProportion = 0
    ∧ CreatePlotDisk_validate x86Platform args_k25_b10
        = .ok { stripe_size := 65536
                num_threads := 2
                buf_megabytes := 10
                memory_size := 0
                num_buckets := 16
                log_num_buckets := 4 } := by
  have hsub : sub_mbytes x86Platform args_k25_b10 = 10 := by
    rw [sub_mbytes_eq]
    decide
  have hbuf : buf_megabytes args_k25_b10 = 10 := rfl
  have hmem : memory_size x86Platform args_k25_b10 = 0 :=
    memory_size_zero_of_eq _ _ (by decide) (by rw [hsub, hbuf])
  have hE : max_entry_size x86Platform args_k25_b10 = 21 := max_entry_size_k25 _ rfl
  have hmts : max_table_size x86Platform args_k25_b10 = 13 / 10 * 2 ^ 25 * 21 := by
    rw [max_table_size_eq, hE]
    norm_num [args_k25_b10]
  have hq : derived_quotient x86Platform args_k25_b10 = 0 := by
    unfold derived_quotient
    rw [if_pos hmem]
    rfl
  have hstep : bucket_step x86Platform args_k25_b10 = .ok 16 := by
    rw [bucket_step_derived _ _ rfl, hq]
    simp [RoundPow2]
  have hv := validate_eq_ok x86Platform args_k25_b10 16 ⟨by decide, by decide⟩
    (by rw [hbuf]) (by rw [hsub, hbuf]) hstep
    (by
      rw [hmts]
      norm_num [stripe_size, args_k25_b10, defaultArgs])
    (by decide)
  rw [hmem, show Nat.log2 16 = 4 from Nat.log2_two_pow (n := 4)] at hv
  refine ⟨by rw [hbuf], hsub, by rw [hsub, hbuf]; decide, hmem, ?_, hv⟩
  rw [hmem]
  simp

/-! ## C16: the exit code of main -/

theorem main_dispatch_invalid_operation (argv : List String) (id memo : String)
    (h : argv.getD 1 "" ≠ "help") (hc : argv.getD 1 "" ≠ "create")
    (hp : argv.getD 1 "" ≠ "prove") (hv : argv.getD 1 "" ≠ "verify")
    (hk : argv.getD 1 "" ≠ "check") (help : Bool) :
    main_dispatch argv help id memo = .exit_code 0 := by
  unfold main_dispatch
  by_cases hh : help = true ∨ argv.length < 2
  · rw [if_pos hh]
  · rw [if_neg hh]
    simp only [if_neg h, if_neg hc, if_neg hp, if_neg hv, if_neg hk]

theorem main_dispatch_create (argv : List String) (id memo : String)
    (h2 : 2 ≤ argv.length) (hc : argv.getD 1 "" = "create") :
    main_dispatch argv false id memo =
      if (Strip0x id).length ≠ 64 then .exit_code 1
      else if (Strip0x memo).length % 2 ≠ 0 then .exit_code 1
      else .calls_plotter (Strip0x id) (Strip0x memo) := by
  unfold main_dispatch
  rw [if_neg (by simp; omega)]
  simp only [hc]
  rfl

/-- C16 at the failing input `ProofOfSpace bogus`: the operation word is none of help,
create, prove, verify, check; main prints "Invalid operation" and returns 0, so the exit
code is 0 and not 1. The create command does exit with code 1 for an id of 63 characters
and for a memo of 3 characters; it tests lengths only, and an id of 64 characters that
are not hexadecimal digits reaches the plotter. -/
theorem invalid_operation_exit_code_0 :
    main_dispatch ["ProofOfSpace", "bogus"] false default_id "0102030405" = .exit_code 0
    ∧ main_dispatch ["ProofOfSpace", "create"] false (default_id.drop 1) "0102030405"
        = .exit_code 1
    ∧ main_dispatch ["ProofOfSpace", "create"] false ("0x" ++ default_id) "0X123"
        = .exit_code 1
    ∧ main_dispatch ["ProofOfSpace", "create"] false ("0x" ++ default_id) "0X1234"
        = .calls_plotter default_id "1234"
    ∧ main_dispatch ["ProofOfSpace", "create"] false id_of_64_z "0102030405"
        = .calls_plotter id_of_64_z "0102030405" := by
  refine ⟨by decide, by decide, by decide, by decide, by decide⟩

/-! ## C12: the memo length field -/

theorem WriteHeader_bytes_split (fd : List Nat) (d : FileDisk) (k : Nat) (id memo : List Nat)
    (memo_len : Nat) (hid : id.length = 32) (hmemo : memo.length = memo_len) :
    (WriteHeader fd d k id memo memo_len).2.bytes
      = (header_text ++ id ++ [k]) ++ (IntToTwoBytes fd.length ++ (fd
          ++ (IntToTwoBytes memo_len ++ (memo ++ (List.replicate 80 0
          ++ d.bytes.drop (136 + fd.length + memo_len)))))) := by
  rw [WriteHeader_bytes fd d k id memo memo_len hid hmemo]
  simp only [List.append_assoc]

theorem WriteHeader_drop_52 (fd : List Nat) (d : FileDisk) (k : Nat) (id memo : List Nat)
    (memo_len : Nat) (hid : id.length = 32) (hmemo : memo.length = memo_len) :
    (WriteHeader fd d k id memo memo_len).2.bytes.drop 52
      = IntToTwoBytes fd.length ++ (fd ++ (IntToTwoBytes memo_len ++ (memo
          ++ (List.replicate 80 0 ++ d.bytes.drop (136 + fd.length + memo_len))))) := by
  rw [WriteHeader_bytes_split fd d k id memo memo_len hid hmemo,
    List.drop_left' (by simp [header_text_length, hid])]

theorem WriteHeader_drop_54 (fd : List Nat) (d : FileDisk) (k : Nat) (id memo : List Nat)
    (memo_len : Nat) (hid : id.length = 32) (hmemo : memo.length = memo_len) :
    (WriteHeader fd d k id memo memo_len).2.bytes.drop (54 + fd.length)
      = IntToTwoBytes memo_len ++ (memo
          ++ (List.replicate 80 0 ++ d.bytes.drop (136 + fd.length + memo_len))) := by
  have h := WriteHeader_drop_52 fd d k id memo memo_len hid hmemo
  rw [show 54 + fd.length = 52 + (2 + fd.length) by omega, ← List.drop_drop, h,
    ← List.append_assoc, List.drop_left' (by simp [IntToTwoBytes_length])]

theorem parsed_L1_eq (fd : List Nat) (d : FileDisk) (k : Nat) (id memo : List Nat)
    (memo_len : Nat) (hid : id.length = 32) (hmemo : memo.length = memo_len) :
    parsed_L1 (WriteHeader fd d k id memo memo_len).2.bytes
      = TwoBytesToInt (IntToTwoBytes fd.length) := by
  unfold parsed_L1
  rw [WriteHeader_drop_52 fd d k id memo memo_len hid hmemo,
    List.take_left' (IntToTwoBytes_length _)]

theorem TwoBytesToInt_IntToTwoBytes (n : Nat) :
    TwoBytesToInt (IntToTwoBytes n) = n % 65536 := by
  simp only [TwoBytesToInt, IntToTwoBytes, List.getD_cons_zero, List.getD_cons_succ]
  omega

theorem parsed_L2_eq (fd : List Nat) (d : FileDisk) (k : Nat) (id memo : List Nat)
    (memo_len : Nat) (hfd : fd.length < 65536) (hid : id.length = 32)
    (hmemo : memo.length = memo_len) :
    parsed_L2 (WriteHeader fd d k id memo memo_len).2.bytes = memo_len % 65536 := by
  unfold parsed_L2
  rw [parsed_L1_eq fd d k id memo memo_len hid hmemo, TwoBytesToInt_IntToTwoBytes,
    Nat.mod_eq_of_lt hfd, WriteHeader_drop_54 fd d k id memo memo_len hid hmemo,
    List.take_left' (IntToTwoBytes_length _), TwoBytesToInt_IntToTwoBytes]

/-- C12, as the code has it: for every memo of memo_len < 65536 bytes (the lengths that
the 2-byte field can hold), the field that WriteHeader writes decodes to L2 = memo_len;
a reader who parses L1 and L2 finds the memo at offset 56 + L1 with length L2 and the 80
bytes of the pointer slots at offset 56 + L1 + L2, where WriteHeader wrote them. -/
theorem memo_length_round_trip (kFormatDescription : List Nat) (plot_Disk : FileDisk)
    (k : Nat) (id memo : List Nat) (memo_len : Nat)
    (hfd : kFormatDescription.length < 65536) (hid : id.length = 32)
    (hmemo : memo.length = memo_len) (hlen : memo_len < 65536) :
    let r := WriteHeader kFormatDescription plot_Disk k id memo memo_len
    let L1 := parsed_L1 r.2.bytes
    let L2 := parsed_L2 r.2.bytes
    L1 = kFormatDescription.length
    ∧ L2 = memo_len
    ∧ (r.2.bytes.drop (56 + L1)).take L2 = memo
    ∧ (r.2.bytes.drop (56 + L1 + L2)).take 80 = List.replicate 80 0
    ∧ (56 + L1 + L2, 80) ∈ r.2.writes
    ∧ (56 + L1, L2) ∈ r.2.writes := by
  intro r L1 L2
  have h1 : L1 = kFormatDescription.length := by
    show parsed_L1 (WriteHeader kFormatDescription plot_Disk k id memo memo_len).2.bytes = _
    rw [parsed_L1_eq _ _ _ _ _ _ hid hmemo, TwoBytesToInt_IntToTwoBytes,
      Nat.mod_eq_of_lt hfd]
  have h2 : L2 = memo_len := by
    show parsed_L2 (WriteHeader kFormatDescription plot_Disk k id memo memo_len).2.bytes = _
    rw [parsed_L2_eq _ _ _ _ _ _ hfd hid hmemo, Nat.mod_eq_of_lt hlen]
  have h54 := WriteHeader_drop_54 kFormatDescription plot_Disk k id memo memo_len hid hmemo
  have h56 : r.2.bytes.drop (56 + kFormatDescription.length)
      = memo ++ (List.replicate 80 0
          ++ plot_Disk.bytes.drop (136 + kFormatDescription.length + memo_len)) := by
    rw [show 56 + kFormatDescription.length = (54 + kFormatDescription.length) + 2 by omega,
      ← List.drop_drop, h54, List.drop_left' (IntToTwoBytes_length _)]
  have hw := WriteHeader_writes kFormatDescription plot_Disk k id memo memo_len
  refine ⟨h1, h2, ?_, ?_, ?_, ?_⟩
  · rw [h1, h2, h56, List.take_left' hmemo]
  · rw [h1, h2, show 56 + kFormatDescription.length + memo_len
        = (56 + kFormatDescription.length) + memo_len by omega,
      ← List.drop_drop, h56, List.drop_left' hmemo, List.take_left' (by simp)]
  · rw [h1, h2]
    show _ ∈ (WriteHeader kFormatDescription plot_Disk k id memo memo_len).2.writes
    rw [hw]
    simp
  · rw [h1, h2]
    show _ ∈ (WriteHeader kFormatDescription plot_Disk k id memo memo_len).2.writes
    rw [hw]
    simp

/-- Witness for C12: the header of scenario S3 (memo = CA FE, format description
"v1.0"). -/
theorem memo_length_round_trip_witness :
    parsed_L2 (WriteHeader [118, 49, 46, 48] ⟨[], []⟩ 20 ((List.range 32).map (· + 1))
        [202, 254] 2).2.bytes = 2
    ∧ parsed_L1 (WriteHeader [118, 49, 46, 48] ⟨[], []⟩ 20 ((List.range 32).map (· + 1))
        [202, 254] 2).2.bytes = 4 :=
  have h := memo_length_round_trip [118, 49, 46, 48] ⟨[], []⟩ 20
    ((List.range 32).map (· + 1)) [202, 254] 2 (by decide) (by decide) (by decide)
    (by decide)
  ⟨h.2.1, h.1⟩

/-- Counterexample to C12 as stated: a memo of memo_len = 65536 bytes, a 32-bit length;
the 2-byte field that WriteHeader writes decodes to L2 = 0, not to 65536, while the memo
bytes still follow it, so the reader looks for the pointer slots at offset 56 + L1 + 0,
65536 bytes before the place where WriteHeader wrote them. -/
theorem memo_length_65536_decodes_to_0 :
    parsed_L2 (WriteHeader [118, 49, 46, 48] ⟨[], []⟩ 20 (List.replicate 32 0)
        (List.replicate 65536 7) 65536).2.bytes = 0
    ∧ (60 + 65536, 80) ∈ (WriteHeader [118, 49, 46, 48] ⟨[], []⟩ 20 (List.replicate 32 0)
        (List.replicate 65536 7) 65536).2.writes := by
  constructor
  · rw [parsed_L2_eq _ _ _ _ _ _ (by decide) (by decide) (List.length_replicate _ _)]
  · rw [WriteHeader_writes]
    simp

/-! ## C11: the length of the id -/

theorem validate_ignores_id_len (p : Platform) (a : Args) (id : List Nat) (id_len : Nat) :
    CreatePlotDisk_validate p { a with id := id, id_len := id_len }
      = CreatePlotDisk_validate p a := by
  have h1 : buf_megabytes { a with id := id, id_len := id_len } = buf_megabytes a := rfl
  have h2 : stripe_size { a with id := id, id_len := id_len } = stripe_size a := rfl
  have h3 : num_threads { a with id := id, id_len := id_len } = num_threads a := rfl
  have h4 : thread_memory p { a with id := id, id_len := id_len } = thread_memory p a := rfl
  have h5 : sub_mbytes p { a with id := id, id_len := id_len } = sub_mbytes p a := by
    unfold sub_mbytes
    rw [h1, h4]
  have h6 : memory_size p { a with id := id, id_len := id_len } = memory_size p a := by
    unfold memory_size
    rw [h1, h5]
  have h7 : max_table_size p { a with id := id, id_len := id_len } = max_table_size p a :=
    rfl
  have h8 : derived_quotient p { a with id := id, id_len := id_len }
      = derived_quotient p a := by
    unfold derived_quotient
    rw [h6, h7]
  have h9 : bucket_step p { a with id := id, id_len := id_len } = bucket_step p a := by
    unfold bucket_step num_buckets_rounded
    rw [h8]
  unfold CreatePlotDisk_validate
  rw [h1, h2, h3, h5, h6, h7, h9]

theorem setup_ignores_id_len (p : Platform) (a : Args) (fs : FileSystem) (id : List Nat)
    (id_len : Nat) :
    CreatePlotDisk_setup p { a with id := id, id_len := id_len } fs
      = CreatePlotDisk_setup p a fs := by
  unfold CreatePlotDisk_setup
  rw [validate_ignores_id_len]
  rfl

theorem validate_k25_id31 :
    CreatePlotDisk_validate x86Platform args_k25_id31
      = .ok { stripe_size := 65536
              num_threads := 2
              buf_megabytes := 4608
              memory_size := 4548 * 2 ^ 20
              num_buckets := 16
              log_num_buckets := 4 } := by
  have h0 : CreatePlotDisk_validate x86Platform args_k25_id31
      = CreatePlotDisk_validate x86Platform args_k25 :=
    validate_ignores_id_len x86Platform args_k25 (List.replicate 31 171) 31
  obtain ⟨hsub, hbuf, hstep, hst⟩ := validate_k25 x86Platform rfl
  have hmem : memory_size x86Platform args_k25 = 4548 * 2 ^ 20 := by
    rw [memory_size_eq _ _ (by decide) (by rw [hsub, hbuf]; decide), hsub, hbuf]
  have hv := validate_eq_ok x86Platform args_k25 16 ⟨by decide, by decide⟩
    (by rw [hbuf]; decide) (by rw [hsub, hbuf]; decide) hstep hst (by decide)
  rw [hmem, show Nat.log2 16 = 4 from Nat.log2_two_pow (n := 4)] at hv
  rw [h0, hv]
  rfl

/-- C11 at the failing input: the binding's create_plot_disk with k = 25 and an id of 31
bytes (id_len = 31), in a directory that holds an earlier plot and a stale table file.
The validation throws nothing, so no invalid_value; the stale files and the earlier plot
are removed (lines 229-236) before the only test of id_len, the assertion of line 251,
which aborts the process in a build with assertions and is absent in a build with NDEBUG,
where phase 1 starts and the header will copy 32 bytes from the 31-byte buffer. -/
theorem id_len_31_not_rejected :
    args_k25_id31.id_len = 31 ∧ args_k25_id31.id.length = 31
    ∧ (CreatePlotDisk_setup x86Platform args_k25_id31 staleFs).1
        = .ok { stripe_size := 65536
                num_threads := 2
                buf_megabytes := 4608
                memory_size := 4548 * 2 ^ 20
                num_buckets := 16
                log_num_buckets := 4 }
    ∧ staleFs.fs_exists (final_filename args_k25_id31) = true
    ∧ (CreatePlotDisk_setup x86Platform args_k25_id31 staleFs).2.fs_exists
        (final_filename args_k25_id31) = false
    ∧ staleFs.fs_exists "./plot.dat.table3.tmp" = true
    ∧ (CreatePlotDisk_setup x86Platform args_k25_id31 staleFs).2.fs_exists
        "./plot.dat.table3.tmp" = false
    ∧ (CreatePlotDisk_start x86Platform false args_k25_id31 staleFs).1 = .assert_failed
    ∧ (CreatePlotDisk_start x86Platform true args_k25_id31 staleFs).1
        = .phase1 { stripe_size := 65536
                    num_threads := 2
                    buf_megabytes := 4608
                    memory_size := 4548 * 2 ^ 20
                    num_buckets := 16
                    log_num_buckets := 4 }
    ∧ (CreatePlotDisk_start x86Platform false args_k25_id31 staleFs).2.fs_exists
        (final_filename args_k25_id31) = false := by
  have hs := setup_of_validate_ok x86Platform args_k25_id31 staleFs _ validate_k25_id31
    (by decide) (by decide) (by decide)
  have hstart : ∀ ndebug, CreatePlotDisk_start x86Platform ndebug args_k25_id31 staleFs
      = (if ndebug = false ∧ args_k25_id31.id_len ≠ kIdLen then StartOutcome.assert_failed
          else StartOutcome.phase1 { stripe_size := 65536
                                     num_threads := 2
                                     buf_megabytes := 4608
                                     memory_size := 4548 * 2 ^ 20
                                     num_buckets := 16
                                     log_num_buckets := 4 },
        ((tmp_1_filenames args_k25_id31).foldl (fun fs p => fs.fs_create p)
          ((((tmp_1_filenames args_k25_id31).foldl (fun fs p => fs.fs_remove p)
            staleFs).fs_remove (tmp_2_filename args_k25_id31)).fs_remove
            (final_filename args_k25_id31))).fs_create (tmp_2_filename args_k25_id31)) := by
    intro ndebug
    unfold CreatePlotDisk_start
    rw [hs]
    simp only
    split_ifs <;> rfl
  refine ⟨rfl, by decide, ?_, by decide, ?_, by decide, ?_, ?_, ?_, ?_⟩
  · rw [hs]
  · rw [hs]
    decide
  · rw [hs]
    decide
  · rw [hstart]
    decide
  · rw [hstart]
    decide
  · rw [hstart]
    decide

/-! ## The file system operations -/

theorem lookup_remove_self (fs : FileSystem) (p : String) :
    (fs.fs_remove p).lookup p = none := by
  unfold FileSystem.lookup FileSystem.fs_remove
  simp only [Option.map_eq_none', List.find?_eq_none, List.mem_filter]
  intro n hn
  simpa using hn.2

theorem find_filter_ne (l : List (String × FsNode)) (p q : String) (h : q ≠ p) :
    List.find? (fun n => n.1 == q) (l.filter (fun n => n.1 != p))
      = List.find? (fun n => n.1 == q) l := by
  induction l with
  | nil => rfl
  | cons n l ih =>
    by_cases h2 : n.1 = q
    · have h3 : (fun (n : String × FsNode) => n.1 != p) n = true := by
        show (n.1 != p) = true
        rw [h2]
        simpa using h
      have h4 : (fun (n : String × FsNode) => n.1 == q) n = true := by
        show (n.1 == q) = true
        simpa using h2
      rw [List.filter_cons_of_pos (p := fun (n : String × FsNode) => n.1 != p) (a := n) h3,
        List.find?_cons_of_pos (p := fun (n : String × FsNode) => n.1 == q) (a := n) _ h4,
        List.find?_cons_of_pos (p := fun (n : String × FsNode) => n.1 == q) (a := n) _ h4]
    · have h4 : ¬ (fun (n : String × FsNode) => n.1 == q) n = true := by
        show ¬ (n.1 == q) = true
        simpa using h2
      rw [List.find?_cons_of_neg (p := fun (n : String × FsNode) => n.1 == q) (a := n) _ h4]
      by_cases h3 : (fun (n : String × FsNode) => n.1 != p) n = true
      · rw [List.filter_cons_of_pos (p := fun (n : String × FsNode) => n.1 != p) (a := n) h3,
          List.find?_cons_of_neg (p := fun (n : String × FsNode) => n.1 == q) (a := n) _ h4]
        exact ih
      · rw [List.filter_cons_of_neg (p := fun (n : String × FsNode) => n.1 != p) (a := n) h3]
        exact ih

theorem lookup_remove_ne (fs : FileSystem) (p q : String) (h : q ≠ p) :
    (fs.fs_remove p).lookup q = fs.lookup q := by
  unfold FileSystem.lookup FileSystem.fs_remove
  rw [find_filter_ne _ _ _ h]

theorem lookup_cons_self (l : List (String × FsNode)) (p : String) (n : FsNode) :
    FileSystem.lookup { nodes := (p, n) :: l } p = some n := by
  simp [FileSystem.lookup, List.find?_cons]

theorem lookup_cons_ne (l : List (String × FsNode)) (p q : String) (n : FsNode) (h : q ≠ p) :
    FileSystem.lookup { nodes := (p, n) :: l } q = FileSystem.lookup { nodes := l } q := by
  have h2 : (p == q) = false := by simpa using fun e => h e.symm
  simp [FileSystem.lookup, List.find?_cons, h2]

theorem fs_exists_eq_isSome (fs : FileSystem) (p : String) :
    fs.fs_exists p = (fs.lookup p).isSome := by
  unfold FileSystem.fs_exists FileSystem.lookup
  induction fs.nodes with
  | nil => rfl
  | cons n l ih =>
    by_cases h : n.1 = p
    · simp [List.find?_cons, h]
    · simp [List.find?_cons, h, ih]

theorem fs_exists_false_iff (fs : FileSystem) (p : String) :
    fs.fs_exists p = false ↔ fs.lookup p = none := by
  rw [fs_exists_eq_isSome]
  cases fs.lookup p <;> simp

theorem lookup_copy_dst (fs : FileSystem) (src dst : String) (n : FsNode)
    (h : fs.lookup src = some n) : (fs.fs_copy src dst).lookup dst = some n := by
  unfold FileSystem.fs_copy
  rw [h]
  exact lookup_cons_self _ _ _

theorem lookup_copy_ne (fs : FileSystem) (src dst q : String) (h : q ≠ dst) :
    (fs.fs_copy src dst).lookup q = fs.lookup q := by
  unfold FileSystem.fs_copy
  cases hs : fs.lookup src with
  | none => rfl
  | some n =>
    simp only
    rw [lookup_cons_ne _ _ _ _ h]
    exact lookup_remove_ne fs dst q h

theorem lookup_rename_dst (fs : FileSystem) (src dst : String) (n : FsNode)
    (h : fs.lookup src = some n) : (fs.fs_rename src dst).lookup dst = some n := by
  unfold FileSystem.fs_rename
  rw [h]
  exact lookup_cons_self _ _ _

theorem lookup_rename_src (fs : FileSystem) (src dst : String) (n : FsNode)
    (h : fs.lookup src = some n) (hne : src ≠ dst) :
    (fs.fs_rename src dst).lookup src = none := by
  unfold FileSystem.fs_rename
  rw [h]
  simp only
  rw [lookup_cons_ne _ _ _ _ hne]
  show ((fs.fs_remove src).fs_remove dst).lookup src = none
  rw [lookup_remove_ne _ _ _ hne, lookup_remove_self]

theorem lookup_rename_ne (fs : FileSystem) (src dst q : String) (h1 : q ≠ src) (h2 : q ≠ dst) :
    (fs.fs_rename src dst).lookup q = fs.lookup q := by
  unfold FileSystem.fs_rename
  cases hs : fs.lookup src with
  | none => rfl
  | some n =>
    simp only
    rw [lookup_cons_ne _ _ _ _ h2]
    show ((fs.fs_remove src).fs_remove dst).lookup q = fs.lookup q
    rw [lookup_remove_ne _ _ _ h2, lookup_remove_ne _ _ _ h1]

/-! ## The paths -/

theorem joinPath_data (d f s : String) (hs : s.data.head? ≠ some '/') :
    ∃ X : List Char, (joinPath d f).data = X ++ f.data
      ∧ (joinPath d (f ++ s)).data = X ++ (f.data ++ s.data)
      ∧ (X = [] ∨ X.getLast? = some '/') := by
  have hhead : (f ++ s).data.head? = some '/' ↔ f.data.head? = some '/' := by
    rw [String.data_append]
    cases hf : f.data with
    | nil => simp [hs]
    | cons c cs => simp
  unfold joinPath
  by_cases h1 : f.data.head? = some '/'
  · rw [if_pos h1, if_pos (hhead.2 h1)]
    exact ⟨[], rfl, by rw [String.data_append]; rfl, Or.inl rfl⟩
  · rw [if_neg h1, if_neg (fun h => h1 (hhead.1 h))]
    by_cases h2 : d.data.getLast? = none ∨ d.data.getLast? = some '/'
    · rw [if_pos h2, if_pos h2]
      refine ⟨d.data, by rw [String.data_append], by simp only [String.data_append], ?_⟩
      rcases h2 with h2 | h2
      · exact Or.inl (List.getLast?_eq_none_iff.1 h2)
      · exact Or.inr h2
    · rw [if_neg h2, if_neg h2]
      refine ⟨d.data ++ ['/'], by simp only [String.data_append],
        by simp only [String.data_append], Or.inr (by simp)⟩

theorem no_sep_head (s : String) (hs : '/' ∉ s.data) : s.data.head? ≠ some '/' := by
  intro h
  exact hs (List.mem_of_mem_head? h)

theorem final_ne_suffixed (a : Args) (d s : String) (hne : s.data ≠ [])
    (hs : '/' ∉ s.data) : final_filename a ≠ joinPath d (a.filename ++ s) := by
  intro h
  obtain ⟨X, hX, _, hXl⟩ := joinPath_data a.final_dirname a.filename s (no_sep_head s hs)
  obtain ⟨Y, _, hY, _⟩ := joinPath_data d a.filename s (no_sep_head s hs)
  unfold final_filename at h
  have e : X ++ a.filename.data = Y ++ (a.filename.data ++ s.data) := by
    rw [← hX, ← hY, h]
  have hlen : X.length = Y.length + s.data.length := by
    have := congrArg List.length e
    simp only [List.length_append] at this
    omega
  have hcount : X.count '/' = Y.count '/' := by
    have := congrArg (List.count '/') e
    simp only [List.count_append, List.count_eq_zero_of_not_mem hs] at this
    omega
  have hspos : 0 < s.data.length := List.length_pos.2 hne
  have hY2 : Y = X.take Y.length := by
    have := congrArg (List.take Y.length) e
    rw [List.take_append_of_le_length (by omega), List.take_left' rfl] at this
    exact this.symm
  have hsplit : X = Y ++ X.drop Y.length := by
    conv_lhs => rw [← List.take_append_drop Y.length X]
    rw [← hY2]
  have hW : X.drop Y.length ≠ [] := by
    intro hnil
    have := congrArg List.length hnil
    simp only [List.length_drop, List.length_nil] at this
    omega
  have hXne : X ≠ [] := by
    intro hnil
    rw [hnil] at hlen
    simp only [List.length_nil] at hlen
    omega
  rcases hXl with hXl | hXl
  · exact hXne hXl
  · have hlast : (X.drop Y.length).getLast? = some '/' := by
      rw [hsplit, List.getLast?_append_of_ne_nil _ hW] at hXl
      exact hXl
    have hmem : '/' ∈ X.drop Y.length := List.mem_of_getLast?_eq_some hlast
    have hc : 0 < (X.drop Y.length).count '/' := List.count_pos_iff.2 hmem
    have := congrArg (List.count '/') hsplit
    rw [List.count_append] at this
    omega

theorem final_ne_final_2 (a : Args) : final_filename a ≠ final_2_filename a :=
  final_ne_suffixed a a.final_dirname ".2.tmp" (by decide) (by decide)

theorem final_ne_tmp_2 (a : Args) : final_filename a ≠ tmp_2_filename a :=
  final_ne_suffixed a a.tmp2_dirname ".2.tmp" (by decide) (by decide)

theorem dropWhile_append_all (p : Char → Bool) (l1 l2 : List Char)
    (h : ∀ c ∈ l1, p c = true) : (l1 ++ l2).dropWhile p = l2.dropWhile p := by
  induction l1 with
  | nil => rfl
  | cons c cs ih =>
    rw [List.cons_append, List.dropWhile_cons, if_pos (h c (List.mem_cons_self _ _))]
    exact ih (fun x hx => h x (List.mem_cons_of_mem _ hx))

theorem dirPart_append (l s : List Char) (hs : '/' ∉ s) : dirPart (l ++ s) = dirPart l := by
  unfold dirPart
  rw [List.reverse_append, dropWhile_append_all]
  intro c hc
  have : c ≠ '/' := fun e => hs (e ▸ List.mem_reverse.1 hc)
  simpa using this

theorem parent_path_suffix (d f s : String) (hs : '/' ∉ s.data) :
    parent_path (joinPath d (f ++ s)) = parent_path (joinPath d f) := by
  obtain ⟨X, hX, hXs, _⟩ := joinPath_data d f s (no_sep_head s hs)
  unfold parent_path
  have h1 : dirPart (joinPath d (f ++ s)).data = dirPart (joinPath d f).data := by
    rw [hXs, hX, ← List.append_assoc, dirPart_append _ _ hs]
  have h2 : ((joinPath d (f ++ s)).data.head? = some '/')
      ↔ ((joinPath d f).data.head? = some '/') := by
    rw [hXs, hX, ← List.append_assoc]
    cases hl : X ++ f.data with
    | nil => simpa using no_sep_head s hs
    | cons c cs => simp
  rw [h1]
  by_cases h3 : (joinPath d f).data.head? = some '/'
  · rw [if_pos h3, if_pos (h2.2 h3)]
  · rw [if_neg h3, if_neg (fun h => h3 (h2.1 h))]

theorem tmp_2_ne_final_2 (a : Args) (h : same_directory a = false) :
    tmp_2_filename a ≠ final_2_filename a := by
  intro e
  have h1 : parent_path (final_2_filename a) = parent_path (final_filename a) :=
    parent_path_suffix a.final_dirname a.filename ".2.tmp" (by decide)
  unfold same_directory at h
  rw [e, h1] at h
  simp at h

/-! ## One pass of the retry loop -/

theorem iteration_same_dir (a : Args) (o : PassOutcome) (s : FinalState)
    (hd : same_directory a = true) (hs : s.bRenamed = false) :
    finalise_iteration a o s =
      if o.rename_ok = true then
        ({ s with bRenamed := true
                  fs := s.fs.fs_rename (tmp_2_filename a) (final_filename a) },
          [(.rename_tmp2 true, s.fs.fs_rename (tmp_2_filename a) (final_filename a))])
      else (s, [(.rename_tmp2 false, s.fs), (.sleep, s.fs)]) := by
  unfold finalise_iteration direct_rename_step sleep_step
  rw [if_pos hd]
  cases o.rename_ok <;> simp [hs]

theorem iteration_copied (a : Args) (o : PassOutcome) (s : FinalState)
    (hd : same_directory a = false) (hc : s.bCopied = true)
    (hs : s.bRenamed = false) (ht : s.thrown = false) :
    finalise_iteration a o s =
      if o.rename_ok = true then
        ({ s with bRenamed := true
                  fs := s.fs.fs_rename (final_2_filename a) (final_filename a) },
          [(.rename_final2 true, s.fs.fs_rename (final_2_filename a) (final_filename a))])
      else (s, [(.rename_final2 false, s.fs), (.sleep, s.fs)]) := by
  unfold finalise_iteration copy_step rename_step sleep_step
  rw [if_neg (by rw [hd]; decide)]
  cases o.rename_ok <;> simp [hs, hc, ht]

theorem iteration_fresh (a : Args) (o : PassOutcome) (s : FinalState)
    (hd : same_directory a = false) (hc : s.bCopied = false)
    (hs : s.bRenamed = false) (ht : s.thrown = false) :
    finalise_iteration a o s =
      if o.copy_ok = true then
        if o.remove_ok = true then
          if o.rename_ok = true then
            ({ bCopied := true
               bRenamed := true
               thrown := false
               fs := ((s.fs.fs_copy (tmp_2_filename a) (final_2_filename a)).fs_remove
                 (tmp_2_filename a)).fs_rename (final_2_filename a) (final_filename a) },
              [(.copy true, s.fs.fs_copy (tmp_2_filename a) (final_2_filename a)),
               (.remove_tmp2,
                 (s.fs.fs_copy (tmp_2_filename a) (final_2_filename a)).fs_remove
                   (tmp_2_filename a)),
               (.rename_final2 true,
                 ((s.fs.fs_copy (tmp_2_filename a) (final_2_filename a)).fs_remove
                   (tmp_2_filename a)).fs_rename (final_2_filename a) (final_filename a))])
          else
            ({ bCopied := true
               bRenamed := false
               thrown := false
               fs := (s.fs.fs_copy (tmp_2_filename a) (final_2_filename a)).fs_remove
                 (tmp_2_filename a) },
              [(.copy true, s.fs.fs_copy (tmp_2_filename a) (final_2_filename a)),
               (.remove_tmp2,
                 (s.fs.fs_copy (tmp_2_filename a) (final_2_filename a)).fs_remove
                   (tmp_2_filename a)),
               (.rename_final2 false,
                 (s.fs.fs_copy (tmp_2_filename a) (final_2_filename a)).fs_remove
                   (tmp_2_filename a)),
               (.sleep, (s.fs.fs_copy (tmp_2_filename a) (final_2_filename a)).fs_remove
                 (tmp_2_filename a))])
        else
          ({ bCopied := true
             bRenamed := false
             thrown := true
             fs := s.fs.fs_copy (tmp_2_filename a) (final_2_filename a) },
            [(.copy true, s.fs.fs_copy (tmp_2_filename a) (final_2_filename a)),
             (.remove_throws, s.fs.fs_copy (tmp_2_filename a) (final_2_filename a))])
      else (s, [(.copy false, s.fs), (.sleep, s.fs)]) := by
  unfold finalise_iteration copy_step rename_step sleep_step
  rw [if_neg (by rw [hd]; decide)]
  cases o.copy_ok <;> cases o.remove_ok <;> cases o.rename_ok <;> simp [hs, hc, ht]

theorem finalise_nil (a : Args) (s : FinalState) : finalise a [] s = (s, []) := rfl

theorem finalise_cons (a : Args) (o : PassOutcome) (os : List PassOutcome)
    (s : FinalState) :
    finalise a (o :: os) s =
      if (finalise_iteration a o s).1.bRenamed = true
          ∨ (finalise_iteration a o s).1.thrown = true then
        ((finalise_iteration a o s).1, [(finalise_iteration a o s).2])
      else
        ((finalise a os (finalise_iteration a o s).1).1,
          (finalise_iteration a o s).2
            :: (finalise a os (finalise_iteration a o s).1).2) := rfl

theorem finalise_cons_done (a : Args) (o : PassOutcome) (os : List PassOutcome)
    (s : FinalState)
    (h : (finalise_iteration a o s).1.bRenamed = true
      ∨ (finalise_iteration a o s).1.thrown = true) :
    (finalise a (o :: os) s).1 = (finalise_iteration a o s).1
    ∧ (finalise a (o :: os) s).2 = [(finalise_iteration a o s).2]
    ∧ passes (finalise a (o :: os) s)
        = [(finalise_iteration a o s).2.map (fun e => e.1)]
    ∧ events (finalise a (o :: os) s)
        = (finalise_iteration a o s).2.map (fun e => e.1) := by
  rw [finalise_cons, if_pos h]
  simp [passes, events]

theorem finalise_cons_more (a : Args) (o : PassOutcome) (os : List PassOutcome)
    (s : FinalState) (h : (finalise_iteration a o s).1.bRenamed = false)
    (h2 : (finalise_iteration a o s).1.thrown = false) :
    (finalise a (o :: os) s).1 = (finalise a os (finalise_iteration a o s).1).1
    ∧ (finalise a (o :: os) s).2
        = (finalise_iteration a o s).2
          :: (finalise a os (finalise_iteration a o s).1).2
    ∧ passes (finalise a (o :: os) s)
        = (finalise_iteration a o s).2.map (fun e => e.1)
          :: passes (finalise a os (finalise_iteration a o s).1)
    ∧ events (finalise a (o :: os) s)
        = (finalise_iteration a o s).2.map (fun e => e.1)
          ++ events (finalise a os (finalise_iteration a o s).1) := by
  rw [finalise_cons, if_neg (by rw [h, h2]; decide)]
  simp [passes, events]

theorem iteration_cases (a : Args) (o : PassOutcome) (s : FinalState) :
    ((finalise_iteration a o s).1.bRenamed = false
      ∧ (finalise_iteration a o s).1.thrown = false)
    ∨ (finalise_iteration a o s).1.bRenamed = true
    ∨ (finalise_iteration a o s).1.thrown = true := by
  cases (finalise_iteration a o s).1.bRenamed <;> cases (finalise_iteration a o s).1.thrown <;>
    simp

/-! ## The retry loop as a whole -/

theorem iteration_commit (a : Args) (plot : List Nat) (o : PassOutcome) (s : FinalState)
    (hs : s.bRenamed = false) (ht : s.thrown = false) (hinv : s.holdsPlot a plot) :
    (∀ entry ∈ (finalise_iteration a o s).2, commitPoint a plot entry)
    ∧ ((finalise_iteration a o s).1.bRenamed = false →
        (finalise_iteration a o s).1.thrown = false →
        (finalise_iteration a o s).1.holdsPlot a plot)
    ∧ ((finalise_iteration a o s).1.bRenamed = true →
        (finalise_iteration a o s).1.fs.lookup (final_filename a) = some (.file plot))
    ∧ ((finalise_iteration a o s).1.bRenamed = false →
        (finalise_iteration a o s).1.fs.lookup (final_filename a) = none) := by
  obtain ⟨hF, hrest⟩ := hinv
  obtain ⟨c, rm, r⟩ := o
  have hFG := final_ne_final_2 a
  have hFT := final_ne_tmp_2 a
  cases hd : same_directory a
  · simp only [hd, Bool.false_eq_true, if_false] at hrest
    have hTG := tmp_2_ne_final_2 a hd
    cases hc : s.bCopied
    · rw [hc] at hrest
      simp only [Bool.false_eq_true, if_false] at hrest
      rw [iteration_fresh a _ s hd hc hs ht]
      have g1 := lookup_copy_dst s.fs _ (final_2_filename a) _ hrest
      have t1 : (s.fs.fs_copy (tmp_2_filename a) (final_2_filename a)).lookup
          (tmp_2_filename a) = some (.file plot) := by
        rw [lookup_copy_ne _ _ _ _ hTG, hrest]
      have f1 : (s.fs.fs_copy (tmp_2_filename a) (final_2_filename a)).lookup
          (final_filename a) = none := by
        rw [lookup_copy_ne _ _ _ _ hFG, hF]
      have g2 : ((s.fs.fs_copy (tmp_2_filename a) (final_2_filename a)).fs_remove
          (tmp_2_filename a)).lookup (final_2_filename a) = some (.file plot) := by
        rw [lookup_remove_ne _ _ _ (Ne.symm hTG), g1]
      have t2 : ((s.fs.fs_copy (tmp_2_filename a) (final_2_filename a)).fs_remove
          (tmp_2_filename a)).lookup (tmp_2_filename a) = none := lookup_remove_self _ _
      have f2 : ((s.fs.fs_copy (tmp_2_filename a) (final_2_filename a)).fs_remove
          (tmp_2_filename a)).lookup (final_filename a) = none := by
        rw [lookup_remove_ne _ _ _ hFT, f1]
      have f3 := lookup_rename_dst _ _ (final_filename a) _ g2
      cases c
      · simp only [Bool.false_eq_true, if_false]
        refine ⟨?_, fun _ _ => ⟨hF, by simp only [hd, hc, Bool.false_eq_true, if_false]; exact hrest⟩,
          fun h => ?_, fun _ => hF⟩
        · intro entry he
          simp only [List.mem_cons, List.mem_singleton, List.not_mem_nil, or_false] at he
          rcases he with he | he <;> subst he <;>
            exact ⟨fun h => (by cases h), fun _ => ⟨hF, Or.inl hrest⟩, fun h => (by cases h)⟩
        · rw [hs] at h
          cases h
      · cases rm
        · simp only [Bool.false_eq_true, if_false, if_true]
          refine ⟨?_, fun _ h => (by cases h), fun h => (by cases h), fun _ => f1⟩
          intro entry he
          simp only [List.mem_cons, List.mem_singleton, List.not_mem_nil, or_false] at he
          rcases he with he | he <;> subst he <;>
            exact ⟨fun h => (by cases h), fun _ => ⟨f1, Or.inl t1⟩, fun h => (by cases h)⟩
        · cases r
          · simp only [Bool.false_eq_true, if_false, if_true]
            refine ⟨?_, fun _ _ => ⟨f2, by
                simp only [hd, Bool.false_eq_true, if_false, if_true]
                exact ⟨g2, t2⟩⟩,
              fun h => (by cases h), fun _ => f2⟩
            intro entry he
            simp only [List.mem_cons, List.mem_singleton, List.not_mem_nil, or_false] at he
            rcases he with he | he | he | he <;> subst he
            · exact ⟨fun h => (by cases h), fun _ => ⟨f1, Or.inl t1⟩, fun h => (by cases h)⟩
            · exact ⟨fun h => (by cases h), fun _ => ⟨f2, Or.inr g2⟩, fun _ => ⟨t2, g2, f2⟩⟩
            · exact ⟨fun h => (by cases h), fun _ => ⟨f2, Or.inr g2⟩, fun h => (by cases h)⟩
            · exact ⟨fun h => (by cases h), fun _ => ⟨f2, Or.inr g2⟩, fun h => (by cases h)⟩
          · simp only [if_true]
            refine ⟨?_, fun h => (by cases h), fun _ => f3, fun h => (by cases h)⟩
            intro entry he
            simp only [List.mem_cons, List.mem_singleton, List.not_mem_nil, or_false] at he
            rcases he with he | he | he <;> subst he
            · exact ⟨fun h => (by cases h), fun _ => ⟨f1, Or.inl t1⟩, fun h => (by cases h)⟩
            · exact ⟨fun h => (by cases h), fun _ => ⟨f2, Or.inr g2⟩, fun _ => ⟨t2, g2, f2⟩⟩
            · exact ⟨fun _ => f3, fun h => (by cases h), fun h => (by cases h)⟩
    · rw [hc] at hrest
      simp only [if_true] at hrest
      obtain ⟨hG, hT⟩ := hrest
      rw [iteration_copied a _ s hd hc hs ht]
      cases r
      · simp only [Bool.false_eq_true, if_false]
        refine ⟨?_, fun _ _ => ⟨hF, by
            simp only [hd, hc, Bool.false_eq_true, if_false, if_true]
            exact ⟨hG, hT⟩⟩,
          fun h => ?_, fun _ => hF⟩
        · intro entry he
          simp only [List.mem_cons, List.mem_singleton, List.not_mem_nil, or_false] at he
          rcases he with he | he <;> subst he <;>
            exact ⟨fun h => (by cases h), fun _ => ⟨hF, Or.inr hG⟩, fun h => (by cases h)⟩
        · rw [hs] at h
          cases h
      · simp only [if_true]
        have h1 := lookup_rename_dst s.fs _ (final_filename a) _ hG
        refine ⟨?_, fun h => (by cases h), fun _ => h1, fun h => (by cases h)⟩
        intro entry he
        simp only [List.mem_singleton] at he
        subst he
        exact ⟨fun _ => h1, fun h => (by cases h), fun h => (by cases h)⟩
  · simp only [hd, if_true] at hrest
    rw [iteration_same_dir a _ s hd hs]
    cases r
    · simp only [Bool.false_eq_true, if_false]
      refine ⟨?_, fun _ _ => ⟨hF, by simp only [hd, if_true]; exact hrest⟩, fun h => ?_,
        fun _ => hF⟩
      · intro entry he
        simp only [List.mem_cons, List.mem_singleton, List.not_mem_nil, or_false] at he
        rcases he with he | he <;> subst he <;>
          exact ⟨fun h => (by cases h), fun _ => ⟨hF, Or.inl hrest⟩, fun h => (by cases h)⟩
      · rw [hs] at h
        cases h
    · simp only [if_true]
      have h1 := lookup_rename_dst s.fs _ (final_filename a) _ hrest
      refine ⟨?_, fun h => (by cases h), fun _ => h1, fun h => (by cases h)⟩
      intro entry he
      simp only [List.mem_singleton] at he
      subst he
      exact ⟨fun _ => h1, fun h => (by cases h), fun h => (by cases h)⟩

theorem loop_commit (a : Args) (plot : List Nat) :
    ∀ (os : List PassOutcome) (s : FinalState), s.bRenamed = false → s.thrown = false →
      s.holdsPlot a plot →
      (∀ pass ∈ (finalise a os s).2, ∀ entry ∈ pass, commitPoint a plot entry)
      ∧ ((finalise a os s).1.bRenamed = true →
          (finalise a os s).1.fs.lookup (final_filename a) = some (.file plot))
      ∧ ((finalise a os s).1.bRenamed = false →
          (finalise a os s).1.fs.lookup (final_filename a) = none) := by
  intro os
  induction os with
  | nil =>
    intro s hs _ hinv
    rw [finalise_nil]
    refine ⟨fun pass hp => (by simp at hp), fun h => ?_, fun _ => hinv.1⟩
    rw [hs] at h
    cases h
  | cons o os ih =>
    intro s hs ht hinv
    obtain ⟨hq, hkeep, hdone1, hdone2⟩ := iteration_commit a plot o s hs ht hinv
    rcases iteration_cases a o s with ⟨hren, hthr⟩ | hdone
    · obtain ⟨h1, h2, _, _⟩ := finalise_cons_more a o os s hren hthr
      obtain ⟨ih1, ih2, ih3⟩ := ih _ hren hthr (hkeep hren hthr)
      rw [h1, h2]
      refine ⟨?_, ih2, ih3⟩
      intro pass hp entry he
      rcases List.mem_cons.1 hp with h | h
      · rw [h] at he
        exact hq entry he
      · exact ih1 pass h entry he
    · obtain ⟨h1, h2, _, _⟩ := finalise_cons_done a o os s hdone
      rw [h1, h2]
      refine ⟨?_, hdone1, hdone2⟩
      intro pass hp entry he
      rw [List.mem_singleton.1 hp] at he
      exact hq entry he

/-! ## The temporary files, the `.2.tmp` file and the final file are different paths -/

theorem path_tail (d f s : String) (h : 6 ≤ s.length) (hs : s.data.head? ≠ some '/') :
    ((joinPath d (f ++ s)).data.reverse.take 6) = s.data.reverse.take 6 := by
  obtain ⟨X, _, hX, _⟩ := joinPath_data d f s hs
  rw [hX]
  simp only [List.reverse_append, List.append_assoc]
  rw [List.take_append_of_le_length (by simpa using h)]

theorem tmp_2_ne_of_tail (a : Args) (d s : String) (h6 : 6 ≤ s.length)
    (hs : s.data.head? ≠ some '/')
    (hne : ".2.tmp".data.reverse.take 6 ≠ s.data.reverse.take 6) :
    tmp_2_filename a ≠ joinPath d (a.filename ++ s) := by
  intro h
  have e1 := path_tail a.tmp2_dirname a.filename ".2.tmp" (by decide) (by decide)
  have e2 := path_tail d a.filename s h6 hs
  unfold tmp_2_filename at h
  rw [← h, e1] at e2
  exact hne e2

theorem tmp_1_filenames_eq (a : Args) :
    tmp_1_filenames a =
      [joinPath a.tmp_dirname (a.filename ++ ".sort.tmp"),
       joinPath a.tmp_dirname (a.filename ++ (".table" ++ (toString 1 ++ ".tmp"))),
       joinPath a.tmp_dirname (a.filename ++ (".table" ++ (toString 2 ++ ".tmp"))),
       joinPath a.tmp_dirname (a.filename ++ (".table" ++ (toString 3 ++ ".tmp"))),
       joinPath a.tmp_dirname (a.filename ++ (".table" ++ (toString 4 ++ ".tmp"))),
       joinPath a.tmp_dirname (a.filename ++ (".table" ++ (toString 5 ++ ".tmp"))),
       joinPath a.tmp_dirname (a.filename ++ (".table" ++ (toString 6 ++ ".tmp"))),
       joinPath a.tmp_dirname (a.filename ++ (".table" ++ (toString 7 ++ ".tmp")))] := by
  unfold tmp_1_filenames
  have hr : List.range' 1 7 = [1, 2, 3, 4, 5, 6, 7] := by decide
  rw [hr]
  simp only [List.map, String.append_assoc]

theorem tmp_2_not_tmp_1 (a : Args) : tmp_2_filename a ∉ tmp_1_filenames a := by
  intro hmem
  rw [tmp_1_filenames_eq] at hmem
  simp only [List.mem_cons, List.not_mem_nil, or_false] at hmem
  rcases hmem with h | h | h | h | h | h | h | h <;>
    exact tmp_2_ne_of_tail a _ _ (by decide) (by decide) (by decide) h

theorem final_not_tmp_1 (a : Args) : final_filename a ∉ tmp_1_filenames a := by
  intro hmem
  rw [tmp_1_filenames_eq] at hmem
  simp only [List.mem_cons, List.not_mem_nil, or_false] at hmem
  rcases hmem with h | h | h | h | h | h | h | h <;>
    exact final_ne_suffixed a _ _ (by decide) (by decide) h

theorem lookup_remove_none (fs : FileSystem) (p q : String) (h : fs.lookup q = none) :
    (fs.fs_remove p).lookup q = none := by
  by_cases e : q = p
  · rw [e]
    exact lookup_remove_self _ _
  · rw [lookup_remove_ne _ _ _ e, h]

theorem foldl_remove_none (ps : List String) :
    ∀ (fs : FileSystem) (q : String), fs.lookup q = none →
      (ps.foldl (fun fs p => fs.fs_remove p) fs).lookup q = none := by
  induction ps with
  | nil =>
    intro fs q h
    exact h
  | cons p ps ih =>
    intro fs q h
    rw [List.foldl_cons]
    exact ih _ q (lookup_remove_none fs p q h)

theorem foldl_remove_lookup (ps : List String) :
    ∀ (fs : FileSystem) (q : String), q ∉ ps →
      (ps.foldl (fun fs p => fs.fs_remove p) fs).lookup q = fs.lookup q := by
  induction ps with
  | nil =>
    intro fs q _
    rfl
  | cons p ps ih =>
    intro fs q h
    rw [List.foldl_cons, ih _ q (fun h2 => h (List.mem_cons_of_mem _ h2)),
      lookup_remove_ne _ _ _ (fun e => h (by rw [e]; exact List.mem_cons_self _ _))]

theorem remove_prefix_keeps (a : Args) (fs : FileSystem) (plot : List Nat) (n : Nat)
    (hfinal : fs.lookup (final_filename a) = none)
    (hplot : fs.lookup (tmp_2_filename a) = some (.file plot)) :
    (((tmp_1_filenames a).take n).foldl (fun fs p => fs.fs_remove p) fs).lookup
        (final_filename a) = none
    ∧ (((tmp_1_filenames a).take n).foldl (fun fs p => fs.fs_remove p) fs).lookup
        (tmp_2_filename a) = some (.file plot) := by
  refine ⟨foldl_remove_none _ _ _ hfinal, ?_⟩
  rw [foldl_remove_lookup _ _ _
    (fun h => tmp_2_not_tmp_1 a ((List.take_sublist _ _).subset h)), hplot]

theorem initial_holdsPlot (a : Args) (fs : FileSystem) (plot : List Nat)
    (hfinal : fs.lookup (final_filename a) = none)
    (hplot : fs.lookup (tmp_2_filename a) = some (.file plot)) :
    FinalState.holdsPlot a plot
      { bCopied := false, bRenamed := false, thrown := false, fs := fs } := by
  refine ⟨hfinal, ?_⟩
  cases hd : same_directory a
  · simpa using hplot
  · simpa using hplot

theorem remove_tmp_1_holdsPlot (a : Args) (fs : FileSystem) (plot : List Nat)
    (hfinal : fs.lookup (final_filename a) = none)
    (hplot : fs.lookup (tmp_2_filename a) = some (.file plot)) :
    FinalState.holdsPlot a plot
      { bCopied := false, bRenamed := false, thrown := false,
        fs := remove_tmp_1_files a fs } := by
  apply initial_holdsPlot
  · exact foldl_remove_none _ _ _ hfinal
  · unfold remove_tmp_1_files
    rw [foldl_remove_lookup _ _ _ (tmp_2_not_tmp_1 a), hplot]

/-! ## The files that are created before phase 1 -/

theorem lookup_create_ne (fs : FileSystem) (p q : String) (h : q ≠ p) :
    (fs.fs_create p).lookup q = fs.lookup q := by
  unfold FileSystem.fs_create
  rw [lookup_cons_ne _ _ _ _ h]
  exact lookup_remove_ne fs p q h

theorem foldl_create_lookup (ps : List String) :
    ∀ (fs : FileSystem) (q : String), q ∉ ps →
      (ps.foldl (fun fs p => fs.fs_create p) fs).lookup q = fs.lookup q := by
  induction ps with
  | nil =>
    intro fs q _
    rfl
  | cons p ps ih =>
    intro fs q h
    rw [List.foldl_cons, ih _ q (fun h2 => h (List.mem_cons_of_mem _ h2)),
      lookup_create_ne _ _ _ (fun e => h (by rw [e]; exact List.mem_cons_self _ _))]

theorem final_not_created (a : Args) :
    final_filename a ∉ tmp_1_filenames a ++ [tmp_2_filename a] := by
  intro h
  rcases List.mem_append.1 h with h | h
  · exact final_not_tmp_1 a h
  · exact final_ne_tmp_2 a (List.mem_singleton.1 h)

theorem start_of_setup_ok (p : Platform) (ndebug : Bool) (a : Args) (fs : FileSystem)
    (r : PlotParams) (h : (CreatePlotDisk_setup p a fs).1 = .ok r) :
    (CreatePlotDisk_start p ndebug a fs).2
      = (tmp_1_filenames a ++ [tmp_2_filename a]).foldl (fun fs p => fs.fs_create p)
          (CreatePlotDisk_setup p a fs).2 := by
  unfold CreatePlotDisk_start
  cases hs : CreatePlotDisk_setup p a fs with
  | mk x y =>
    rw [hs] at h
    simp only at h
    subst h
    simp only [List.foldl_append, List.foldl_cons, List.foldl_nil]
    split_ifs <;> rfl

theorem setup_ok_of_start (p : Platform) (ndebug : Bool) (a : Args) (fs : FileSystem)
    (r : PlotParams) (h : (CreatePlotDisk_start p ndebug a fs).1 = .phase1 r) :
    (CreatePlotDisk_setup p a fs).1 = .ok r := by
  unfold CreatePlotDisk_start at h
  cases hs : CreatePlotDisk_setup p a fs with
  | mk x y =>
    rw [hs] at h
    cases x with
    | error e => cases h
    | ok params =>
      simp only at h
      split_ifs at h
      simp only [StartOutcome.phase1.injEq] at h
      rw [h]

/-! ## A failed copy is retried; every pass follows the outcomes of the file system -/

theorem validate_ignores_tmp2_dirname (p : Platform) (a : Args) (d : String) :
    CreatePlotDisk_validate p { a with tmp2_dirname := d } = CreatePlotDisk_validate p a := by
  have h1 : buf_megabytes { a with tmp2_dirname := d } = buf_megabytes a := rfl
  have h2 : stripe_size { a with tmp2_dirname := d } = stripe_size a := rfl
  have h3 : num_threads { a with tmp2_dirname := d } = num_threads a := rfl
  have h4 : thread_memory p { a with tmp2_dirname := d } = thread_memory p a := rfl
  have h5 : sub_mbytes p { a with tmp2_dirname := d } = sub_mbytes p a := by
    unfold sub_mbytes
    rw [h1, h4]
  have h6 : memory_size p { a with tmp2_dirname := d } = memory_size p a := by
    unfold memory_size
    rw [h1, h5]
  have h7 : max_table_size p { a with tmp2_dirname := d } = max_table_size p a := rfl
  have h8 : derived_quotient p { a with tmp2_dirname := d } = derived_quotient p a := by
    unfold derived_quotient
    rw [h6, h7]
  have h9 : bucket_step p { a with tmp2_dirname := d } = bucket_step p a := by
    unfold bucket_step num_buckets_rounded
    rw [h8]
  unfold CreatePlotDisk_validate
  rw [h1, h2, h3, h5, h6, h7, h9]

theorem setup_k25_t2 :
    CreatePlotDisk_setup x86Platform args_k25_t2 staleFsT2
      = (.ok { stripe_size := 65536
               num_threads := 2
               buf_megabytes := 4608
               memory_size := 4548 * 2 ^ 20
               num_buckets := 16
               log_num_buckets := 4 },
          (((tmp_1_filenames args_k25_t2).foldl (fun fs p => fs.fs_remove p)
            staleFsT2).fs_remove (tmp_2_filename args_k25_t2)).fs_remove
              (final_filename args_k25_t2)) := by
  have h0 : CreatePlotDisk_validate x86Platform args_k25_t2
      = CreatePlotDisk_validate x86Platform args_k25 :=
    validate_ignores_tmp2_dirname x86Platform args_k25 "t2"
  have h1 : CreatePlotDisk_validate x86Platform args_k25_id31
      = CreatePlotDisk_validate x86Platform args_k25 :=
    validate_ignores_id_len x86Platform args_k25 (List.replicate 31 171) 31
  exact setup_of_validate_ok x86Platform args_k25_t2 staleFsT2 _
    (by rw [h0, ← h1]; exact validate_k25_id31) (by decide) (by decide) (by decide)

theorem start_k25_t2 :
    (CreatePlotDisk_start x86Platform false args_k25_t2 staleFsT2).1
      = .phase1 { stripe_size := 65536
                  num_threads := 2
                  buf_megabytes := 4608
                  memory_size := 4548 * 2 ^ 20
                  num_buckets := 16
                  log_num_buckets := 4 } := by
  unfold CreatePlotDisk_start
  rw [setup_k25_t2]
  simp only
  rw [if_neg (by decide)]

/-- C13: take a run of CreatePlotDisk from the file system `fs0` that reaches phase 1
(lines 86-251 throw nothing and the assertion holds), and let `fs4` be the file system at
the end of phase 4. The phases are not among the sources; of them it is taken that they
leave the final path as they found it and that the `.2.tmp` file of the temp2 directory
holds the finished plot when they end. Then nothing is at the final path after line 236,
whatever was there before, after each of the nine files that lines 245-249 create, at the
start of phase 1 and at the end of phase 4; after each removal of a temporary file
(lines 405-407) nothing is at the final path and the `.2.tmp` file holds the plot; after
every event of the retry loop that is not a successful rename (the exception of the
removal included) nothing is at the final path and the `.2.tmp` file of the temp2
directory or that of the final directory holds the plot; after a successful rename the
plot is at the final path; and when the loop has not ended with a rename nothing is at
the final path. -/
theorem single_commit_point (p : Platform) (ndebug : Bool) (a : Args)
    (fs0 fs4 : FileSystem) (r : PlotParams) (plot : List Nat)
    (outcomes : List PassOutcome)
    (hstart : (CreatePlotDisk_start p ndebug a fs0).1 = .phase1 r)
    (hphases : fs4.lookup (final_filename a)
      = (CreatePlotDisk_start p ndebug a fs0).2.lookup (final_filename a))
    (hplot : fs4.lookup (tmp_2_filename a) = some (.file plot)) :
    (CreatePlotDisk_setup p a fs0).2.lookup (final_filename a) = none
    ∧ (∀ n : Nat,
        (((tmp_1_filenames a ++ [tmp_2_filename a]).take n).foldl
          (fun fs p => fs.fs_create p) (CreatePlotDisk_setup p a fs0).2).lookup
            (final_filename a) = none)
    ∧ (CreatePlotDisk_start p ndebug a fs0).2.lookup (final_filename a) = none
    ∧ fs4.lookup (final_filename a) = none
    ∧ (∀ n : Nat,
        (((tmp_1_filenames a).take n).foldl (fun fs p => fs.fs_remove p) fs4).lookup
            (final_filename a) = none
        ∧ (((tmp_1_filenames a).take n).foldl (fun fs p => fs.fs_remove p) fs4).lookup
            (tmp_2_filename a) = some (.file plot))
    ∧ (∀ pass ∈ (CreatePlotDisk_finish a outcomes fs4).2, ∀ entry ∈ pass,
        (FinalEvent.isRenameOk entry.1 = true →
          entry.2.lookup (final_filename a) = some (.file plot))
        ∧ (FinalEvent.isRenameOk entry.1 = false →
          entry.2.lookup (final_filename a) = none
          ∧ (entry.2.lookup (tmp_2_filename a) = some (.file plot)
            ∨ entry.2.lookup (final_2_filename a) = some (.file plot))))
    ∧ ((CreatePlotDisk_finish a outcomes fs4).1.bRenamed = true →
        (CreatePlotDisk_finish a outcomes fs4).1.fs.lookup (final_filename a)
          = some (.file plot))
    ∧ ((CreatePlotDisk_finish a outcomes fs4).1.bRenamed = false →
        (CreatePlotDisk_finish a outcomes fs4).1.fs.lookup (final_filename a) = none) := by
  have hsetup := setup_ok_of_start p ndebug a fs0 r hstart
  have h0 : (CreatePlotDisk_setup p a fs0).2.lookup (final_filename a) = none :=
    (fs_exists_false_iff _ _).1 (setup_success_removes_final p a fs0 r hsetup)
  have hcreate : ∀ n : Nat,
      (((tmp_1_filenames a ++ [tmp_2_filename a]).take n).foldl
        (fun fs p => fs.fs_create p) (CreatePlotDisk_setup p a fs0).2).lookup
          (final_filename a) = none := by
    intro n
    rw [foldl_create_lookup _ _ _
      (fun h => final_not_created a ((List.take_sublist _ _).subset h)), h0]
  have hs : (CreatePlotDisk_start p ndebug a fs0).2.lookup (final_filename a) = none := by
    rw [start_of_setup_ok p ndebug a fs0 r hsetup,
      foldl_create_lookup _ _ _ (final_not_created a), h0]
  have hfinal : fs4.lookup (final_filename a) = none := by
    rw [hphases, hs]
  obtain ⟨h1, h2, h3⟩ := loop_commit a plot outcomes
    { bCopied := false, bRenamed := false, thrown := false,
      fs := remove_tmp_1_files a fs4 } rfl rfl
    (remove_tmp_1_holdsPlot a fs4 plot hfinal hplot)
  refine ⟨h0, hcreate, hs, hfinal,
    fun n => remove_prefix_keeps a fs4 plot n hfinal hplot, ?_, h2, h3⟩
  intro pass hp entry he
  exact ⟨(h1 pass hp entry he).1, (h1 pass hp entry he).2.1⟩

/-- Witness for C13: the run of `args_k25_t2` in a directory that holds an earlier plot,
with the plot of phase 4 in `t2/plot.dat.2.tmp`, where the copy fails once and the rename
fails once. The earlier plot is gone after line 236, nothing is at the final path at the
start of phase 1, and the final path holds the finished plot when the loop ends. -/
theorem single_commit_point_witness :
    staleFsT2.lookup (final_filename args_k25_t2) = some (.file [1, 2, 3])
    ∧ (CreatePlotDisk_setup x86Platform args_k25_t2 staleFsT2).2.lookup
        (final_filename args_k25_t2) = none
    ∧ (CreatePlotDisk_start x86Platform false args_k25_t2 staleFsT2).2.lookup
        (final_filename args_k25_t2) = none
    ∧ (CreatePlotDisk_finish args_k25_t2 outcomes_fail_fail_ok phase4Fs).1.bRenamed = true
    ∧ (CreatePlotDisk_finish args_k25_t2 outcomes_fail_fail_ok phase4Fs).1.fs.lookup
        (final_filename args_k25_t2) = some (.file [80, 114, 111, 111, 102]) :=
  have hs : (CreatePlotDisk_start x86Platform false args_k25_t2 staleFsT2).2.lookup
      (final_filename args_k25_t2) = none := by
    rw [start_of_setup_ok x86Platform false args_k25_t2 staleFsT2 _
      (by rw [setup_k25_t2]), setup_k25_t2]
    decide
  have h := single_commit_point x86Platform false args_k25_t2 staleFsT2 phase4Fs _
    [80, 114, 111, 111, 102] outcomes_fail_fail_ok start_k25_t2
    (by rw [hs]; decide) (by decide)
  ⟨by decide, h.1, h.2.2.1, by decide, h.2.2.2.2.2.2.1 (by decide)⟩

/-! ## C14: the order of the copy, the removal and the rename -/

theorem get_qualities_rejects (dp : DiskProver) (uninitialised : Nat → Nat)
    (challenge : List Nat) (h : challenge.length ≠ 32) :
    get_qualities_for_challenge dp uninitialised challenge
      = (.error .invalid_argument, []) := by
  unfold get_qualities_for_challenge
  rw [if_pos h]

theorem get_qualities_accepts (dp : DiskProver) (uninitialised : Nat → Nat)
    (challenge : List Nat) (h : challenge.length = 32) :
    (get_qualities_for_challenge dp uninitialised challenge).2
      = [.GetQualitiesForChallenge challenge] := by
  unfold get_qualities_for_challenge
  rw [if_neg (by rw [h]; decide)]

/-- C21 at the failing input: the binding's get_full_proof with a challenge of 31 bytes
(or of no byte at all), for every prover and index. The method has no length test: it
throws nothing of its own and calls DiskProver::GetFullProof on the buffer of 31 (or 0)
bytes, while get_qualities_for_challenge throws invalid_argument for the same challenge
and makes no call on the prover. -/
theorem get_full_proof_has_no_length_check (dp : DiskProver) (uninitialised : Nat → Nat)
    (index : Nat) :
    challenge_of_31_bytes.length = 31
    ∧ get_qualities_for_challenge dp uninitialised challenge_of_31_bytes
        = (.error .invalid_argument, [])
    ∧ (get_full_proof dp uninitialised challenge_of_31_bytes index).1
        = .ok ((ToBytes (dp.GetFullProof challenge_of_31_bytes index)
            (new_uint8_array uninitialised (get_full_proof_length dp.GetSize))).take
              (get_full_proof_length dp.GetSize))
    ∧ (get_full_proof dp uninitialised challenge_of_31_bytes index).2
        = [.GetFullProof challenge_of_31_bytes index]
    ∧ get_qualities_for_challenge dp uninitialised [] = (.error .invalid_argument, [])
    ∧ (get_full_proof dp uninitialised [] index).2 = [.GetFullProof [] index] := by
  refine ⟨by decide, get_qualities_rejects dp _ _ (by decide), ?_, ?_,
    get_qualities_rejects dp _ _ (by decide), ?_⟩
  · rw [get_full_proof_result]
  · rw [get_full_proof_result]
  · rw [get_full_proof_result]

end Chiapos
